import Mathlib

/-! ERP point-of-sale module: handlers over an explicit store.

A shallow embedding of the request handlers of the point-of-sale module
(`src/handlers/*.go`).  Every handler is a pure function from the request
and the persistent store to a reply and the store afterwards.

Modelling conventions

* The persistent store is a record of tables; a table is the list of its
  rows in insertion order.  `SELECT ... ` through `QueryRow` yields the first
  matching row, `UPDATE ... WHERE id = x` rewrites every row whose id is `x`,
  `INSERT` appends a row.
* A handler that opens a database transaction works on a copy of the store;
  the copy replaces the store only when `Commit` succeeds, every other exit
  runs the deferred `Rollback` and keeps the store as it was.
* Every database call of a handler can be made to fail: a handler takes a
  predicate over its own steps telling which of them return an error.
* A `float64` amount is an integer counting minor currency units
  (hundredths): 20.00 is `2000`; amounts are compared as the source compares
  them.  Two handlers compute with amounts in Go, `RedeemGiftCard` (a
  difference) and `ClosePOSShift` (a sum and a difference).  In these
  definitions the arithmetic is exact, as `float64` is on the amounts of the
  examples; what is concluded there about the order of a computed amount
  (not negative, zero, not less than before) holds of the rounded result as
  well.  `RedeemGiftCardWith` and `ClosePOSShiftWith` are the same handlers
  with the arithmetic as a parameter; the value of a computed amount is
  stated of these, for every such arithmetic.
* `time.Now()` is a clock reading handed to the handler, in nanoseconds since
  the epoch; one call of a handler sees one reading, also where the source
  reads the clock more than once in a call (as `ClosePOSSession` does for
  `closed_at` and `session_end`).
* Columns an `INSERT` does not name take their default; ids are fresh.
* Request headers and the URL parameter arrive parsed: the tenant header as a
  string, the user header and the `id` parameter as the result of
  `strconv.Atoi`.
-/

namespace POS

/-- Monetary amount in minor currency units.  The source uses `float64`: its
order is the order of the integers here, its sums and differences are exact
only where no rounding occurs. -/
abbrev Money := Int

/-- Clock reading: nanoseconds since the epoch. -/
abbrev Time := Int

/-- Go's `time.Time.Unix`: whole seconds since the epoch. -/
def unix (t : Time) : Int := t / 1000000000

/-! ## Rows (`domain_models.go`) -/

/-- Row of `gift_cards`. -/
structure GiftCard where
  ID : Int
  TenantID : String
  CompanyID : Option String
  CardNumber : String
  PINCode : Option String
  InitialValue : Money
  CurrentBalance : Money
  Currency : String
  PurchasedByCustomerID : Option Int
  RecipientName : Option String
  RecipientEmail : Option String
  Status : String
  IssuedDate : Time
  ExpiryDate : Option Time
  LastUsedAt : Option Time
  CreatedAt : Time
  UpdatedAt : Time
deriving DecidableEq, Repr

/-- Row of `gift_card_transactions`: one movement of the gift-card ledger. -/
structure GiftCardTransaction where
  ID : Int
  TenantID : String
  GiftCardID : Int
  TransactionType : String
  Amount : Money
  BalanceBefore : Money
  BalanceAfter : Money
  TransactionID : Option Int
  Notes : Option String
  CreatedAt : Time
  CreatedBy : Option Int
deriving DecidableEq, Repr

/-- Row of `pos_sessions`. -/
structure POSSession where
  ID : Int
  TenantID : String
  RegisterID : Int
  CashDrawerID : Option Int
  ShiftID : Option Int
  UserID : Int
  SessionNumber : String
  SessionStart : Time
  SessionEnd : Option Time
  OpeningAmount : Money
  ClosingAmount : Option Money
  TotalSales : Money
  TotalRefunds : Money
  TotalTransactions : Int
  Status : String
  Notes : Option String
  CreatedAt : Time
  UpdatedAt : Time
deriving DecidableEq, Repr

/-- Row of `pos_cash_drawers`; the columns are those named by the statements
of `CreatePOSSession` and `ClosePOSSession` (the source has no struct for
this table). -/
structure POSCashDrawer where
  ID : Int
  TenantID : String
  RegisterID : Int
  OpeningAmount : Money
  ClosingAmount : Option Money
  Status : String
  OpenedBy : Int
  OpenedAt : Time
  ClosedBy : Option Int
  ClosedAt : Option Time
deriving DecidableEq, Repr

/-- Row of `register_shifts`. -/
structure RegisterShift where
  ID : Int
  TenantID : String
  RegisterID : Int
  ShiftNumber : String
  CashierID : Int
  OpeningBalance : Money
  ClosingBalance : Option Money
  ExpectedBalance : Option Money
  Variance : Option Money
  TotalSales : Money
  TotalCashSales : Money
  TotalCardSales : Money
  TotalReturns : Money
  TransactionCount : Int
  OpenedAt : Time
  ClosedAt : Option Time
  Status : String
  Notes : Option String
  CreatedAt : Time
deriving DecidableEq, Repr

/-- Row of `pos_transactions` (the header of a sale). -/
structure POSTransaction where
  ID : Int
  TenantID : String
  TransactionNumber : String
  SessionID : Int
  RegisterID : Int
  ShiftID : Option Int
  CustomerID : Option Int
  TransactionDate : Time
  TransactionType : String
  Status : String
  Subtotal : Money
  TaxAmount : Money
  DiscountAmount : Money
  TipAmount : Money
  TotalAmount : Money
  ChangeAmount : Money
  CashierID : Int
  ManagerID : Option Int
  Notes : Option String
  CustomFields : String
  CreatedAt : Time
  UpdatedAt : Time
deriving DecidableEq, Repr

/-- Row of `pos_transaction_items`; also the shape of an item of a sale
request. -/
structure POSTransactionItem where
  ID : Int
  TransactionID : Int
  ProductID : Int
  Quantity : Int
  UnitPrice : Money
  DiscountPercent : Money
  DiscountAmount : Money
  TaxRate : Money
  TaxAmount : Money
  LineTotal : Money
  Notes : Option String
  Metadata : String
  CreatedAt : Time
deriving DecidableEq, Repr

/-- Row of `pos_payments`; also the shape of a payment of a sale request. -/
structure POSPayment where
  ID : Int
  TransactionID : Int
  PaymentMethod : String
  Amount : Money
  ReferenceNumber : Option String
  CardType : Option String
  Status : String
  ProcessedAt : Time
  Notes : Option String
  Metadata : String
  CreatedAt : Time
deriving DecidableEq, Repr

/-- Row of `discount_rules`. -/
structure DiscountRule where
  ID : Int
  TenantID : String
  CompanyID : Option String
  RuleCode : String
  RuleName : String
  DiscountType : String
  DiscountValue : Money
  AppliesTo : String
  MinPurchaseAmount : Option Money
  MaxDiscountAmount : Option Money
  BuyQuantity : Option Int
  GetQuantity : Option Int
  CustomerGroupID : Option Int
  ValidFrom : Time
  ValidTo : Option Time
  DaysOfWeek : List Int
  TimeFrom : Option String
  TimeTo : Option String
  UsageLimit : Option Int
  UsageCount : Int
  RequiresApproval : Bool
  IsActive : Bool
  Priority : Int
  CreatedAt : Time
  UpdatedAt : Time
deriving DecidableEq, Repr

set_option linter.dupNamespace false in
/-- Row of `coupon_codes`. -/
structure CouponCode where
  ID : Int
  TenantID : String
  DiscountRuleID : Option Int
  CouponCode : String
  Description : Option String
  MaxUses : Option Int
  MaxUsesPerCustomer : Option Int
  CurrentUses : Int
  ValidFrom : Time
  ValidTo : Option Time
  IsActive : Bool
  CreatedAt : Time
  UpdatedAt : Time
deriving DecidableEq, Repr

/-- Row of `coupon_usage`: one redemption of a coupon. -/
structure CouponUsage where
  ID : Int
  TenantID : String
  CouponID : Int
  TransactionID : Int
  CustomerID : Option Int
  DiscountAmount : Money
  UsedAt : Time
deriving DecidableEq, Repr

/-! ## The store -/

/-- The persistent store: the tables the handlers below read and write. -/
structure Store where
  gift_cards : List GiftCard
  gift_card_transactions : List GiftCardTransaction
  pos_sessions : List POSSession
  pos_cash_drawers : List POSCashDrawer
  register_shifts : List RegisterShift
  pos_transactions : List POSTransaction
  pos_transaction_items : List POSTransactionItem
  pos_payments : List POSPayment
  discount_rules : List DiscountRule
  coupon_codes : List CouponCode
  coupon_usage : List CouponUsage
deriving DecidableEq, Repr

/-- The store with every table empty. -/
def Store.empty : Store :=
  { gift_cards := [], gift_card_transactions := [], pos_sessions := [],
    pos_cash_drawers := [], register_shifts := [], pos_transactions := [],
    pos_transaction_items := [], pos_payments := [], discount_rules := [],
    coupon_codes := [], coupon_usage := [] }

/-- The id the database gives a new row (`RETURNING id`): a fresh one, one
more than the largest id of the table (ids start at 1). -/
def nextID (ids : List Int) : Int := ids.foldl max 0 + 1

/-! ## Requests and replies -/

/-- An incoming request with a decoded body of type `β`.  `body = none` is a
body that `json.NewDecoder(..).Decode` rejects. -/
structure Request (β : Type) where
  tenantHeader : String
  userHeader : Option Int
  urlID : Option Int
  body : Option β

/-- What a handler writes to the response: `http.Error` with a status code
and message, or a JSON body with a status code. -/
inductive Reply (α : Type) where
  | failure (code : Nat) (message : String) : Reply α
  | success (code : Nat) (payload : α) : Reply α
deriving DecidableEq, Repr

/-- The handler answered with its success body. -/
def Reply.isSuccess {α : Type} : Reply α → Bool
  | .success _ _ => true
  | .failure _ _ => false

/-- The helper `getTenantID` of `POSHandler`: the `X-Tenant-ID` header, an
error when it is empty. -/
def getTenantID {β : Type} (r : Request β) : Except String String :=
  if r.tenantHeader = "" then .error "tenant context required" else .ok r.tenantHeader

/-- The helper `getUserID` of `POSHandler`: the `X-User-ID` header as an
integer; the callers drop the error and keep the zero value. -/
def getUserID {β : Type} (r : Request β) : Int × Bool :=
  match r.userHeader with
  | some u => (u, true)
  | none => (0, false)

/-! ## Gift cards (`gift_card_handler.go`) -/

/-- Decoded body of a `CreateGiftCard` request.  `ExpiryDate` is the date the
handler obtains from the `expiry_date` string: `none` when the string is
absent, empty or does not parse. -/
structure CreateGiftCardRequest where
  CompanyID : Option String
  InitialValue : Money
  Currency : String
  PurchasedByCustomerID : Option Int
  RecipientName : Option String
  RecipientEmail : Option String
  ExpiryDate : Option Time

/-- JSON body of a successful `CreateGiftCard`. -/
structure CreateGiftCardResult where
  id : Int
  card_number : String
  created_at : Time
  updated_at : Time
deriving DecidableEq, Repr

/-- The database calls of `CreateGiftCard`. -/
inductive CreateGiftCardStep where
  | insertCard
deriving DecidableEq, Repr

/-- The handler `GiftCardHandler.CreateGiftCard`. -/
def CreateGiftCard (fails : CreateGiftCardStep → Bool) (now : Time)
    (r : Request CreateGiftCardRequest) (s : Store) : Reply CreateGiftCardResult × Store :=
  match getTenantID r with
  | .error e => (.failure 401 e, s)
  | .ok tenantID =>
    match r.body with
    | none => (.failure 400 "Invalid request body", s)
    | some req =>
      let currency := if req.Currency = "" then "USD" else req.Currency
      let cardNumber := "GC-" ++ toString now
      if fails .insertCard then (.failure 500 "Failed to create gift card", s)
      else
        let id := nextID (s.gift_cards.map (·.ID))
        let card : GiftCard :=
          { ID := id, TenantID := tenantID, CompanyID := req.CompanyID,
            CardNumber := cardNumber, PINCode := none,
            InitialValue := req.InitialValue, CurrentBalance := req.InitialValue,
            Currency := currency, PurchasedByCustomerID := req.PurchasedByCustomerID,
            RecipientName := req.RecipientName, RecipientEmail := req.RecipientEmail,
            Status := "active", IssuedDate := now, ExpiryDate := req.ExpiryDate,
            LastUsedAt := none, CreatedAt := now, UpdatedAt := now }
        (.success 201 { id := id, card_number := cardNumber, created_at := now, updated_at := now },
          { s with gift_cards := s.gift_cards ++ [card] })

/-- Decoded body of a `RedeemGiftCard` request. -/
structure RedeemGiftCardRequest where
  CardNumber : String
  Amount : Money
  TransactionID : Option Int
  Notes : Option String

/-- JSON body of a successful `RedeemGiftCard`. -/
structure RedeemGiftCardResult where
  redeemed_amount : Money
  remaining_balance : Money
deriving DecidableEq, Repr

/-- The database calls of `RedeemGiftCard`, in the order of the source. -/
inductive RedeemStep where
  | beginTx
  | selectCard
  | updateBalance
  | insertLedger
  | updateStatus
  | commit
deriving DecidableEq, Repr

/-- The row `RedeemGiftCard` selects:
`WHERE tenant_id = $1 AND card_number = $2 AND status = 'active'`. -/
def findActiveCard (s : Store) (tenantID cardNumber : String) : Option GiftCard :=
  s.gift_cards.find? (fun c =>
    decide (c.TenantID = tenantID) && decide (c.CardNumber = cardNumber)
      && decide (c.Status = "active"))

/-- `UPDATE gift_cards SET current_balance = $1, last_used_at = $2,
updated_at = $3 WHERE id = $4`. -/
def updateCardBalance (s : Store) (id : Int) (newBalance : Money) (now : Time) : Store :=
  { s with gift_cards := s.gift_cards.map (fun c =>
      if c.ID = id then
        { c with CurrentBalance := newBalance, LastUsedAt := some now, UpdatedAt := now }
      else c) }

/-- `INSERT INTO gift_card_transactions (...) VALUES ($1, $2, 'redeem', ...)`. -/
def insertRedeemRow (s : Store) (tenantID : String) (cardID : Int)
    (amount before after : Money) (transactionID : Option Int) (userID : Int)
    (notes : Option String) (now : Time) : Store :=
  { s with gift_card_transactions := s.gift_card_transactions ++
      [{ ID := nextID (s.gift_card_transactions.map (·.ID)), TenantID := tenantID,
         GiftCardID := cardID, TransactionType := "redeem", Amount := amount,
         BalanceBefore := before, BalanceAfter := after,
         TransactionID := transactionID, Notes := notes, CreatedAt := now,
         CreatedBy := some userID }] }

/-- `UPDATE gift_cards SET status = 'used' WHERE id = $1`. -/
def markCardUsed (s : Store) (id : Int) : Store :=
  { s with gift_cards := s.gift_cards.map (fun c =>
      if c.ID = id then { c with Status := "used" } else c) }

/-- The end of `RedeemGiftCard`: `tx.Commit()` and the JSON reply.  `s` is
the store before the call, `tx` the working copy of the transaction. -/
def commitRedeem (fails : RedeemStep → Bool) (req : RedeemGiftCardRequest)
    (newBalance : Money) (s tx : Store) : Reply RedeemGiftCardResult × Store :=
  if fails .commit then (.failure 500 "Failed to redeem gift card", s)
  else (.success 200 { redeemed_amount := req.Amount, remaining_balance := newBalance }, tx)

/-- The handler `GiftCardHandler.RedeemGiftCard`. -/
def RedeemGiftCard (fails : RedeemStep → Bool) (now : Time)
    (r : Request RedeemGiftCardRequest) (s : Store) : Reply RedeemGiftCardResult × Store :=
  match getTenantID r with
  | .error e => (.failure 401 e, s)
  | .ok tenantID =>
    match r.body with
    | none => (.failure 400 "Invalid request body", s)
    | some req =>
      let userID := (getUserID r).1
      if fails .beginTx then (.failure 500 "Failed to start transaction", s)
      else if fails .selectCard then (.failure 500 "Failed to fetch gift card", s)
      else
        match findActiveCard s tenantID req.CardNumber with
        | none => (.failure 404 "Gift card not found or inactive", s)
        | some giftCard =>
          if giftCard.CurrentBalance < req.Amount then
            (.failure 400 "Insufficient gift card balance", s)
          else
            let newBalance := giftCard.CurrentBalance - req.Amount
            if fails .updateBalance then (.failure 500 "Failed to update gift card", s)
            else
              let tx1 := updateCardBalance s giftCard.ID newBalance now
              if fails .insertLedger then (.failure 500 "Failed to create transaction", s)
              else
                let tx2 := insertRedeemRow tx1 tenantID giftCard.ID req.Amount
                  giftCard.CurrentBalance newBalance req.TransactionID userID req.Notes now
                if newBalance ≤ 0 then
                  if fails .updateStatus then (.failure 500 "Failed to update card status", s)
                  else commitRedeem fails req newBalance s (markCardUsed tx2 giftCard.ID)
                else commitRedeem fails req newBalance s tx2

/-- The working copy `RedeemGiftCard` commits when it redeems `req.Amount`
from `card`: the balance update, the ledger row, and the status update when
the new balance is not positive. -/
def redeemedStore (s : Store) (tenantID : String) (card : GiftCard)
    (req : RedeemGiftCardRequest) (userID : Int) (now : Time) : Store :=
  let newBalance := card.CurrentBalance - req.Amount
  let tx2 := insertRedeemRow (updateCardBalance s card.ID newBalance now) tenantID card.ID
    req.Amount card.CurrentBalance newBalance req.TransactionID userID req.Notes now
  if newBalance ≤ 0 then markCardUsed tx2 card.ID else tx2

/-- No database call fails. -/
def noFault {σ : Type} : σ → Bool := fun _ => false

/-- The requests of the gift-card service. -/
inductive GiftCardCall where
  | create (fails : CreateGiftCardStep → Bool) (now : Time) (r : Request CreateGiftCardRequest)
  | redeem (fails : RedeemStep → Bool) (now : Time) (r : Request RedeemGiftCardRequest)

/-- The store after one gift-card request. -/
def GiftCardCall.run (s : Store) : GiftCardCall → Store
  | .create fails now r => (CreateGiftCard fails now r s).2
  | .redeem fails now r => (RedeemGiftCard fails now r s).2

/-- The store after a sequence of gift-card requests, starting from `s`. -/
def runGiftCardCalls (s : Store) (calls : List GiftCardCall) : Store :=
  calls.foldl GiftCardCall.run s

/-- A `CreateGiftCard` request does not ask for a negative initial value. -/
def GiftCardCall.nonnegInitial : GiftCardCall → Prop
  | .create _ _ r => ∀ req, r.body = some req → 0 ≤ req.InitialValue
  | .redeem _ _ _ => True

/-! ## Sales (`pos_handler.go`, `CreatePOSTransaction`) -/

/-- Decoded body of a `CreatePOSTransaction` request.  `CustomFields` is the
JSON text `json.Marshal` gives for the `custom_fields` object. -/
structure CreatePOSTransactionRequest where
  SessionID : Int
  RegisterID : Int
  CustomerID : Option Int
  Subtotal : Money
  TaxAmount : Money
  DiscountAmount : Money
  TipAmount : Money
  TotalAmount : Money
  ChangeAmount : Money
  Notes : Option String
  Items : List POSTransactionItem
  Payments : List POSPayment
  CustomFields : String

/-- JSON body of a successful `CreatePOSTransaction`. -/
structure CreatePOSTransactionResult where
  transaction_id : Int
  transaction_number : String
  transaction_date : Time
  created_at : Time
  updated_at : Time
deriving DecidableEq, Repr

/-- The database calls of `CreatePOSTransaction`; `insertItem i` and
`insertPayment i` are the inserts of the `i`-th item and payment of the
request, counted from zero. -/
inductive SaleStep where
  | beginTx
  | insertHeader
  | insertItem (i : Nat)
  | insertPayment (i : Nat)
  | updateSession
  | commit
deriving DecidableEq, Repr

/-- Modelled from the spec: the column defaults of `pos_transactions` (the
schema is not in the source).  The sale pipeline inserts the header with
status `completed`; the transaction type of a sale is `sale`. -/
def defaultTransactionStatus : String := "completed"

/-- Modelled from the spec: the default `transaction_type` of a header row
(the schema is not in the source). -/
def defaultTransactionType : String := "sale"

/-- `INSERT INTO pos_transactions (...) VALUES ($1, ..., $14)
RETURNING id, transaction_date, created_at, updated_at`. -/
def insertHeader (s : Store) (tenantID transactionNumber : String)
    (req : CreatePOSTransactionRequest) (userID : Int) (now : Time) : Store :=
  { s with pos_transactions := s.pos_transactions ++
      [{ ID := nextID (s.pos_transactions.map (·.ID)), TenantID := tenantID,
         TransactionNumber := transactionNumber, SessionID := req.SessionID,
         RegisterID := req.RegisterID, ShiftID := none, CustomerID := req.CustomerID,
         TransactionDate := now, TransactionType := defaultTransactionType,
         Status := defaultTransactionStatus, Subtotal := req.Subtotal,
         TaxAmount := req.TaxAmount, DiscountAmount := req.DiscountAmount,
         TipAmount := req.TipAmount, TotalAmount := req.TotalAmount,
         ChangeAmount := req.ChangeAmount, CashierID := userID, ManagerID := none,
         Notes := req.Notes, CustomFields := req.CustomFields, CreatedAt := now,
         UpdatedAt := now }] }

/-- `INSERT INTO pos_transaction_items (transaction_id, product_id, quantity,
unit_price, discount_percent, discount_amount, tax_rate, tax_amount, notes,
metadata)`; the metadata is the empty JSON object, `line_total` is not
supplied and is taken as 0. -/
def insertItem (s : Store) (transactionID : Int) (item : POSTransactionItem)
    (now : Time) : Store :=
  { s with pos_transaction_items := s.pos_transaction_items ++
      [{ ID := nextID (s.pos_transaction_items.map (·.ID)), TransactionID := transactionID,
         ProductID := item.ProductID, Quantity := item.Quantity,
         UnitPrice := item.UnitPrice, DiscountPercent := item.DiscountPercent,
         DiscountAmount := item.DiscountAmount, TaxRate := item.TaxRate,
         TaxAmount := item.TaxAmount, LineTotal := 0, Notes := item.Notes,
         Metadata := "\x7b\x7d", CreatedAt := now }] }

/-- `INSERT INTO pos_payments (transaction_id, payment_method, amount,
reference_number, status, card_type, notes, metadata)` with status
`completed` and the empty JSON object as metadata. -/
def insertPayment (s : Store) (transactionID : Int) (payment : POSPayment)
    (now : Time) : Store :=
  { s with pos_payments := s.pos_payments ++
      [{ ID := nextID (s.pos_payments.map (·.ID)), TransactionID := transactionID,
         PaymentMethod := payment.PaymentMethod, Amount := payment.Amount,
         ReferenceNumber := payment.ReferenceNumber, CardType := payment.CardType,
         Status := "completed", ProcessedAt := now, Notes := payment.Notes,
         Metadata := "\x7b\x7d", CreatedAt := now }] }

/-- The loop `for _, item := range req.Items`: the inserts run in request
order; `none` when one of them fails.  `i` is the index of the first item of
the list within the request. -/
def insertItems (fails : SaleStep → Bool) (transactionID : Int) (now : Time) :
    Nat → List POSTransactionItem → Store → Option Store
  | _, [], tx => some tx
  | i, item :: rest, tx =>
    if fails (.insertItem i) then none
    else insertItems fails transactionID now (i + 1) rest (insertItem tx transactionID item now)

/-- The loop `for _, payment := range req.Payments`. -/
def insertPayments (fails : SaleStep → Bool) (transactionID : Int) (now : Time) :
    Nat → List POSPayment → Store → Option Store
  | _, [], tx => some tx
  | i, payment :: rest, tx =>
    if fails (.insertPayment i) then none
    else insertPayments fails transactionID now (i + 1) rest
      (insertPayment tx transactionID payment now)

/-- `UPDATE pos_sessions SET total_sales = total_sales + $1,
total_transactions = total_transactions + 1 WHERE id = $2`. -/
def addSaleToSession (s : Store) (sessionID : Int) (totalAmount : Money) : Store :=
  { s with pos_sessions := s.pos_sessions.map (fun x =>
      if x.ID = sessionID then
        { x with TotalSales := x.TotalSales + totalAmount,
                 TotalTransactions := x.TotalTransactions + 1 }
      else x) }

/-- The handler `POSHandler.CreatePOSTransaction`. -/
def CreatePOSTransaction (fails : SaleStep → Bool) (now : Time)
    (r : Request CreatePOSTransactionRequest) (s : Store) :
    Reply CreatePOSTransactionResult × Store :=
  match getTenantID r with
  | .error e => (.failure 401 e, s)
  | .ok tenantID =>
    match r.body with
    | none => (.failure 400 "Invalid request body", s)
    | some req =>
      if req.Items.length = 0 then (.failure 400 "At least one item is required", s)
      else if req.Payments.length = 0 then
        (.failure 400 "At least one payment is required", s)
      else
        let transactionNumber := "TXN-" ++ toString (unix now)
        let userID := (getUserID r).1
        if fails .beginTx then (.failure 500 "Failed to create transaction", s)
        else if fails .insertHeader then (.failure 500 "Failed to create POS transaction", s)
        else
          let transactionID := nextID (s.pos_transactions.map (·.ID))
          let tx1 := insertHeader s tenantID transactionNumber req userID now
          match insertItems fails transactionID now 0 req.Items tx1 with
          | none => (.failure 500 "Failed to create transaction item", s)
          | some tx2 =>
            match insertPayments fails transactionID now 0 req.Payments tx2 with
            | none => (.failure 500 "Failed to create payment", s)
            | some tx3 =>
              if fails .updateSession then (.failure 500 "Failed to update session", s)
              else
                let tx4 := addSaleToSession tx3 req.SessionID req.TotalAmount
                if fails .commit then (.failure 500 "Failed to create transaction", s)
                else
                  (.success 201
                    { transaction_id := transactionID, transaction_number := transactionNumber,
                      transaction_date := now, created_at := now, updated_at := now }, tx4)

/-- The database calls a `CreatePOSTransaction` request with `n` items and
`m` payments can reach. -/
def SaleStep.reachable (n m : Nat) : SaleStep → Prop
  | .insertItem i => i < n
  | .insertPayment i => i < m
  | _ => True

instance SaleStep.decidableReachable (n m : Nat) (step : SaleStep) :
    Decidable (step.reachable n m) := by
  cases step <;> simp only [SaleStep.reachable] <;> infer_instance

/-- Sum of the amounts of the payments of a request. -/
def paymentsTotal (ps : List POSPayment) : Money := (ps.map (·.Amount)).sum

/-! ## Shifts (`shift_handler.go`, `ClosePOSShift`) -/

/-- Decoded body of a `ClosePOSShift` request. -/
structure ClosePOSShiftRequest where
  ClosingAmount : Money
  Notes : Option String

/-- JSON body of a successful `ClosePOSShift`. -/
structure ClosePOSShiftResult where
  closing_amount : Money
  expected_balance : Money
  variance : Money
deriving DecidableEq, Repr

/-- The database calls of `ClosePOSShift`. -/
inductive CloseShiftStep where
  | beginTx
  | selectShift
  | updateShift
  | commit
deriving DecidableEq, Repr

/-- The row `ClosePOSShift` selects:
`WHERE id = $1 AND tenant_id = $2 AND status = 'open'`. -/
def findOpenShift (s : Store) (shiftID : Int) (tenantID : String) : Option RegisterShift :=
  s.register_shifts.find? (fun x =>
    decide (x.ID = shiftID) && decide (x.TenantID = tenantID) && decide (x.Status = "open"))

/-- `UPDATE register_shifts SET closing_balance = $1, expected_balance = $2,
variance = $3, closed_at = $4, status = 'closed', notes = $5 WHERE id = $6`. -/
def closeShiftRows (s : Store) (shiftID : Int) (closingAmount expectedBalance variance : Money)
    (now : Time) (notes : Option String) : Store :=
  { s with register_shifts := s.register_shifts.map (fun x =>
      if x.ID = shiftID then
        { x with ClosingBalance := some closingAmount,
                 ExpectedBalance := some expectedBalance, Variance := some variance,
                 ClosedAt := some now, Status := "closed", Notes := notes }
      else x) }

/-- The handler `ShiftHandler.ClosePOSShift`. -/
def ClosePOSShift (fails : CloseShiftStep → Bool) (now : Time)
    (r : Request ClosePOSShiftRequest) (s : Store) : Reply ClosePOSShiftResult × Store :=
  match getTenantID r with
  | .error e => (.failure 401 e, s)
  | .ok tenantID =>
    match r.urlID with
    | none => (.failure 400 "Invalid shift ID", s)
    | some shiftID =>
      match r.body with
      | none => (.failure 400 "Invalid request body", s)
      | some req =>
        if fails .beginTx then (.failure 500 "Failed to close shift", s)
        else if fails .selectShift then (.failure 500 "Failed to fetch shift", s)
        else
          match findOpenShift s shiftID tenantID with
          | none => (.failure 404 "Active shift not found", s)
          | some shift =>
            let expectedBalance := shift.OpeningBalance + shift.TotalSales
            let variance := req.ClosingAmount - expectedBalance
            if fails .updateShift then (.failure 500 "Failed to close shift", s)
            else
              let tx1 := closeShiftRows s shiftID req.ClosingAmount expectedBalance variance
                now req.Notes
              if fails .commit then (.failure 500 "Failed to close shift", s)
              else
                (.success 200 { closing_amount := req.ClosingAmount,
                                expected_balance := expectedBalance,
                                variance := variance }, tx1)

/-! ## Sessions (`pos_handler.go`, `CreatePOSSession`) -/

/-- Decoded body of a `CreatePOSSession` request. -/
structure CreatePOSSessionRequest where
  RegisterID : Int
  OpeningAmount : Money
  Notes : Option String

/-- JSON body of a successful `CreatePOSSession`. -/
structure CreatePOSSessionResult where
  session_id : Int
  session_number : String
  session_start : Time
  created_at : Time
  updated_at : Time
deriving DecidableEq, Repr

/-- The database calls of `CreatePOSSession`, in the order of the source. -/
inductive CreateSessionStep where
  | checkActive
  | beginTx
  | insertSession
  | insertDrawer
  | linkDrawer
  | commit
deriving DecidableEq, Repr

/-- Modelled from the spec: the default `status` of a new `pos_sessions` row
(the schema is not in the source; the INSERT of `CreatePOSSession` does not
name the column).  A session is opened active. -/
def defaultSessionStatus : String := "active"

/-- The row the active-session check of `CreatePOSSession` selects:
`WHERE tenant_id = $1 AND register_id = $2 AND status = 'active'`. -/
def findActiveSession (s : Store) (tenantID : String) (registerID : Int) :
    Option POSSession :=
  s.pos_sessions.find? (fun x =>
    decide (x.TenantID = tenantID) && decide (x.RegisterID = registerID)
      && decide (x.Status = "active"))

/-- `INSERT INTO pos_sessions (tenant_id, register_id, user_id, opening_amount,
session_number, notes) ... RETURNING id, session_start, created_at,
updated_at`; the running totals of a new row are zero. -/
def insertSession (s : Store) (tenantID : String) (req : CreatePOSSessionRequest)
    (userID : Int) (sessionNumber : String) (now : Time) : Store :=
  { s with pos_sessions := s.pos_sessions ++
      [{ ID := nextID (s.pos_sessions.map (·.ID)), TenantID := tenantID,
         RegisterID := req.RegisterID, CashDrawerID := none, ShiftID := none,
         UserID := userID, SessionNumber := sessionNumber, SessionStart := now,
         SessionEnd := none, OpeningAmount := req.OpeningAmount, ClosingAmount := none,
         TotalSales := 0, TotalRefunds := 0, TotalTransactions := 0,
         Status := defaultSessionStatus, Notes := req.Notes, CreatedAt := now,
         UpdatedAt := now }] }

/-- `INSERT INTO pos_cash_drawers (tenant_id, register_id, opening_amount,
status, opened_by, opened_at) VALUES ($1, $2, $3, 'open', $4, $5)
RETURNING id`. -/
def insertDrawer (s : Store) (tenantID : String) (req : CreatePOSSessionRequest)
    (userID : Int) (sessionStart : Time) : Store :=
  { s with pos_cash_drawers := s.pos_cash_drawers ++
      [{ ID := nextID (s.pos_cash_drawers.map (·.ID)), TenantID := tenantID,
         RegisterID := req.RegisterID, OpeningAmount := req.OpeningAmount,
         ClosingAmount := none, Status := "open", OpenedBy := userID,
         OpenedAt := sessionStart, ClosedBy := none, ClosedAt := none }] }

/-- `UPDATE pos_sessions SET cash_drawer_id = $1 WHERE id = $2`. -/
def linkDrawer (s : Store) (drawerID sessionID : Int) : Store :=
  { s with pos_sessions := s.pos_sessions.map (fun x =>
      if x.ID = sessionID then { x with CashDrawerID := some drawerID } else x) }

/-- The end of `CreatePOSSession`: `tx.Commit()` and the JSON reply.  `s` is
the store before the call, `tx` the working copy of the transaction. -/
def commitSession (fails : CreateSessionStep → Bool) (sessionID : Int)
    (sessionNumber : String) (now : Time) (s tx : Store) :
    Reply CreatePOSSessionResult × Store :=
  if fails .commit then (.failure 500 "Failed to create session", s)
  else
    (.success 201 { session_id := sessionID, session_number := sessionNumber,
                    session_start := now, created_at := now, updated_at := now }, tx)

/-- The handler `POSHandler.CreatePOSSession`.  The active-session check
answers 409 when its query returns without error (`err == nil`), that is
when the query ran and found a row. -/
def CreatePOSSession (fails : CreateSessionStep → Bool) (now : Time)
    (r : Request CreatePOSSessionRequest) (s : Store) :
    Reply CreatePOSSessionResult × Store :=
  match getTenantID r with
  | .error e => (.failure 401 e, s)
  | .ok tenantID =>
    match r.body with
    | none => (.failure 400 "Invalid request body", s)
    | some req =>
      let sessionNumber := "SES-" ++ toString (unix now)
      if fails .checkActive = false ∧ (findActiveSession s tenantID req.RegisterID).isSome
      then (.failure 409 "There is already an active session for this register", s)
      else
        let userID := (getUserID r).1
        if fails .beginTx then (.failure 500 "Failed to create session", s)
        else if fails .insertSession then (.failure 500 "Failed to create POS session", s)
        else
          let sessionID := nextID (s.pos_sessions.map (·.ID))
          let tx1 := insertSession s tenantID req userID sessionNumber now
          if req.OpeningAmount > 0 then
            if fails .insertDrawer then (.failure 500 "Failed to create cash drawer", s)
            else
              let drawerID := nextID (tx1.pos_cash_drawers.map (·.ID))
              let tx2 := insertDrawer tx1 tenantID req userID now
              if fails .linkDrawer then
                (.failure 500 "Failed to update session with cash drawer", s)
              else
                commitSession fails sessionID sessionNumber now s
                  (linkDrawer tx2 drawerID sessionID)
          else commitSession fails sessionID sessionNumber now s tx1

/-! ## Sessions (`pos_handler.go`, `ClosePOSSession`) -/

/-- Decoded body of a `ClosePOSSession` request. -/
structure ClosePOSSessionRequest where
  ClosingAmount : Money
  Notes : Option String

/-- JSON body of a successful `ClosePOSSession`. -/
structure ClosePOSSessionResult where
  message : String
deriving DecidableEq, Repr

/-- The database calls of `ClosePOSSession`, in the order of the source. -/
inductive CloseSessionStep where
  | beginTx
  | selectSession
  | closeDrawer
  | closeSession
  | commit
deriving DecidableEq, Repr

/-- The row `ClosePOSSession` selects:
`WHERE id = $1 AND tenant_id = $2 AND status = 'active'`. -/
def findActiveSessionByID (s : Store) (sessionID : Int) (tenantID : String) :
    Option POSSession :=
  s.pos_sessions.find? (fun x =>
    decide (x.ID = sessionID) && decide (x.TenantID = tenantID)
      && decide (x.Status = "active"))

/-- `UPDATE pos_cash_drawers SET closing_amount = $1, status = 'closed',
closed_by = $2, closed_at = $3 WHERE id = $4`. -/
def closeDrawerRows (s : Store) (drawerID : Int) (closingAmount : Money) (userID : Int)
    (now : Time) : Store :=
  { s with pos_cash_drawers := s.pos_cash_drawers.map (fun d =>
      if d.ID = drawerID then
        { d with ClosingAmount := some closingAmount, Status := "closed",
                 ClosedBy := some userID, ClosedAt := some now }
      else d) }

/-- `UPDATE pos_sessions SET closing_amount = $1, session_end = $2,
status = 'closed', notes = $3 WHERE id = $4`. -/
def closeSessionRows (s : Store) (sessionID : Int) (closingAmount : Money) (now : Time)
    (notes : Option String) : Store :=
  { s with pos_sessions := s.pos_sessions.map (fun x =>
      if x.ID = sessionID then
        { x with ClosingAmount := some closingAmount, SessionEnd := some now,
                 Status := "closed", Notes := notes }
      else x) }

/-- The end of `ClosePOSSession`, from the session update on.  `s` is the
store before the call, `tx` the working copy of the transaction. -/
def finishCloseSession (fails : CloseSessionStep → Bool) (now : Time) (sessionID : Int)
    (req : ClosePOSSessionRequest) (s tx : Store) : Reply ClosePOSSessionResult × Store :=
  if fails .closeSession then (.failure 500 "Failed to close session", s)
  else
    let tx2 := closeSessionRows tx sessionID req.ClosingAmount now req.Notes
    if fails .commit then (.failure 500 "Failed to close session", s)
    else (.success 200 { message := "POS session closed successfully" }, tx2)

/-- The handler `POSHandler.ClosePOSSession`. -/
def ClosePOSSession (fails : CloseSessionStep → Bool) (now : Time)
    (r : Request ClosePOSSessionRequest) (s : Store) : Reply ClosePOSSessionResult × Store :=
  match getTenantID r with
  | .error e => (.failure 401 e, s)
  | .ok tenantID =>
    match r.urlID with
    | none => (.failure 400 "Invalid session ID", s)
    | some sessionID =>
      match r.body with
      | none => (.failure 400 "Invalid request body", s)
      | some req =>
        let userID := (getUserID r).1
        if fails .beginTx then (.failure 500 "Failed to close session", s)
        else if fails .selectSession then (.failure 500 "Failed to fetch session", s)
        else
          match findActiveSessionByID s sessionID tenantID with
          | none => (.failure 404 "Active session not found", s)
          | some session =>
            match session.CashDrawerID with
            | some drawerID =>
              if fails .closeDrawer then (.failure 500 "Failed to close cash drawer", s)
              else
                finishCloseSession fails now sessionID req s
                  (closeDrawerRows s drawerID req.ClosingAmount userID now)
            | none => finishCloseSession fails now sessionID req s s

/-- The store `ClosePOSSession` commits when it closes `session` of store
`s`: the linked cash drawer, when there is one, and the session. -/
def closedSessionStore (s : Store) (session : POSSession) (sessionID : Int)
    (req : ClosePOSSessionRequest) (userID : Int) (now : Time) : Store :=
  closeSessionRows
    (match session.CashDrawerID with
     | some drawerID => closeDrawerRows s drawerID req.ClosingAmount userID now
     | none => s)
    sessionID req.ClosingAmount now req.Notes

/-! ## Sequences of session requests -/

/-- The requests that open and close sessions. -/
inductive SessionCall where
  | create (fails : CreateSessionStep → Bool) (now : Time)
      (r : Request CreatePOSSessionRequest)
  | close (fails : CloseSessionStep → Bool) (now : Time)
      (r : Request ClosePOSSessionRequest)

/-- The store after one session request. -/
def SessionCall.run (s : Store) : SessionCall → Store
  | .create fails now r => (CreatePOSSession fails now r s).2
  | .close fails now r => (ClosePOSSession fails now r s).2

/-- The store after a series of session requests run one after another,
starting from `s`. -/
def runSessionCalls (s : Store) (calls : List SessionCall) : Store :=
  calls.foldl SessionCall.run s

/-- The active-session query of a `CreatePOSSession` request returns no
database error. -/
def SessionCall.checkRuns : SessionCall → Prop
  | .create fails _ _ => fails .checkActive = false
  | .close _ _ _ => True

/-- Number of sessions of `tenantID` on `registerID` whose status is
`active`. -/
def activeSessionCount (s : Store) (tenantID : String) (registerID : Int) : Nat :=
  s.pos_sessions.countP (fun x =>
    decide (x.TenantID = tenantID) && decide (x.RegisterID = registerID)
      && decide (x.Status = "active"))

/-! ## `CreatePOSSession` in two phases

The active-session query of `CreatePOSSession` runs on the database handle,
before `Beginx`; the inserts run in the transaction that follows.  Another
request can run between the two. -/

/-- The statements of `CreatePOSSession` before its transaction: the tenant
header, the body and the active-session query.  `.error` is the reply of a
request that stops there, `.ok` hands the tenant and the body on. -/
def createSessionCheck (fails : CreateSessionStep → Bool)
    (r : Request CreatePOSSessionRequest) (s : Store) :
    Except (Reply CreatePOSSessionResult) (String × CreatePOSSessionRequest) :=
  match getTenantID r with
  | .error e => .error (.failure 401 e)
  | .ok tenantID =>
    match r.body with
    | none => .error (.failure 400 "Invalid request body")
    | some req =>
      if fails .checkActive = false ∧ (findActiveSession s tenantID req.RegisterID).isSome
      then .error (.failure 409 "There is already an active session for this register")
      else .ok (tenantID, req)

/-- The statements of `CreatePOSSession` from `Beginx` to `Commit`, for a
request that passed the active-session query. -/
def createSessionWrite (fails : CreateSessionStep → Bool) (now : Time)
    (r : Request CreatePOSSessionRequest) (tenantID : String)
    (req : CreatePOSSessionRequest) (s : Store) : Reply CreatePOSSessionResult × Store :=
  let sessionNumber := "SES-" ++ toString (unix now)
  let userID := (getUserID r).1
  if fails .beginTx then (.failure 500 "Failed to create session", s)
  else if fails .insertSession then (.failure 500 "Failed to create POS session", s)
  else
    let sessionID := nextID (s.pos_sessions.map (·.ID))
    let tx1 := insertSession s tenantID req userID sessionNumber now
    if req.OpeningAmount > 0 then
      if fails .insertDrawer then (.failure 500 "Failed to create cash drawer", s)
      else
        let drawerID := nextID (tx1.pos_cash_drawers.map (·.ID))
        let tx2 := insertDrawer tx1 tenantID req userID now
        if fails .linkDrawer then
          (.failure 500 "Failed to update session with cash drawer", s)
        else
          commitSession fails sessionID sessionNumber now s
            (linkDrawer tx2 drawerID sessionID)
    else commitSession fails sessionID sessionNumber now s tx1

/-- The transaction of a request after its check: the reply of the check
when the request stopped there, else `createSessionWrite` on the store as
it is when the transaction runs. -/
def createSessionAfterCheck (fails : CreateSessionStep → Bool) (now : Time)
    (r : Request CreatePOSSessionRequest)
    (checked : Except (Reply CreatePOSSessionResult) (String × CreatePOSSessionRequest))
    (s : Store) : Reply CreatePOSSessionResult × Store :=
  match checked with
  | .error reply => (reply, s)
  | .ok (tenantID, req) => createSessionWrite fails now r tenantID req s

/-- Two `CreatePOSSession` requests A and B run concurrently in the order:
check of A, check of B, transaction of A, transaction of B.  Both checks
read the store before either transaction.  The result is the replies to A
and B and the store afterwards. -/
def createSessionsInterleaved (failsA failsB : CreateSessionStep → Bool) (nowA nowB : Time)
    (rA rB : Request CreatePOSSessionRequest) (s : Store) :
    Reply CreatePOSSessionResult × Reply CreatePOSSessionResult × Store :=
  let checkedA := createSessionCheck failsA rA s
  let checkedB := createSessionCheck failsB rB s
  let afterA := createSessionAfterCheck failsA nowA rA checkedA s
  let afterB := createSessionAfterCheck failsB nowB rB checkedB afterA.2
  (afterA.1, afterB.1, afterB.2)

/-! ## Coupons (`discount_handler.go`, `ValidateCoupon`) -/

/-- Decoded body of a `ValidateCoupon` request. -/
structure ValidateCouponRequest where
  CouponCode : String
  Amount : Money

/-- JSON body of a successful `ValidateCoupon` (`valid` is always true). -/
structure ValidateCouponResult where
  valid : Bool
  coupon_id : Int
  discount_rule_id : Option Int
  description : Option String
deriving DecidableEq, Repr

/-- The database calls of `ValidateCoupon`: its one query, run on the
database handle (the handler opens no transaction). -/
inductive ValidateCouponStep where
  | selectCoupon
deriving DecidableEq, Repr

/-- The row `ValidateCoupon` selects:
`WHERE tenant_id = $1 AND coupon_code = $2 AND is_active = true`. -/
def findActiveCoupon (s : Store) (tenantID couponCode : String) : Option CouponCode :=
  s.coupon_codes.find? (fun c =>
    decide (c.TenantID = tenantID) && decide (c.CouponCode = couponCode)
      && decide (c.IsActive = true))

/-- The handler `DiscountHandler.ValidateCoupon`.  `now.Before(t)` is
`now < t` and `now.After(t)` is `t < now`. -/
def ValidateCoupon (fails : ValidateCouponStep → Bool) (now : Time)
    (r : Request ValidateCouponRequest) (s : Store) : Reply ValidateCouponResult × Store :=
  match getTenantID r with
  | .error e => (.failure 401 e, s)
  | .ok tenantID =>
    match r.body with
    | none => (.failure 400 "Invalid request body", s)
    | some req =>
      if fails .selectCoupon then (.failure 500 "Failed to validate coupon", s)
      else
        match findActiveCoupon s tenantID req.CouponCode with
        | none => (.failure 404 "Invalid or inactive coupon", s)
        | some coupon =>
          if now < coupon.ValidFrom then (.failure 400 "Coupon is not yet valid", s)
          else if (match coupon.ValidTo with
                   | some validTo => decide (validTo < now)
                   | none => false) then
            (.failure 400 "Coupon has expired", s)
          else if (match coupon.MaxUses with
                   | some maxUses => decide (coupon.CurrentUses ≥ maxUses)
                   | none => false) then
            (.failure 400 "Coupon usage limit exceeded", s)
          else
            (.success 200 { valid := true, coupon_id := coupon.ID,
                            discount_rule_id := coupon.DiscountRuleID,
                            description := coupon.Description }, s)

/-! ## Discount evaluation -/

/-- Modelled from the spec: the amount a `percentage` rule gives on a base
amount (the source holds the `DiscountRule` rows and their insert, no
function that evaluates a rule).  The spec: `amount = min(base * value/100,
max_discount_amount or +inf)`.  `base`, `max_discount_amount` and the result
are in hundredths of the currency unit and `value` is a number of percent
held in hundredths (10 percent is `1000`), so the product is divided by
`100 * 100`; the result is exact, not rounded. -/
def percentageDiscount (rule : DiscountRule) (base : Money) : ℚ :=
  let amount : ℚ := (base : ℚ) * (rule.DiscountValue : ℚ) / (100 * 100)
  match rule.MaxDiscountAmount with
  | some cap => min amount (cap : ℚ)
  | none => amount

/-- Modelled from the spec: a rule with a `min_purchase_amount` applies to an
order whose total is at least that amount. -/
def meetsMinPurchase (rule : DiscountRule) (orderTotal : Money) : Bool :=
  match rule.MinPurchaseAmount with
  | some m => decide (m ≤ orderTotal)
  | none => true

/-! ## The plugin (`plugin.go`, `GetHandler`) -/

/-- The handlers `POSPlugin.GetHandler` can return: the four methods of the
`POSHandler` of `pos_handler_simple.go`. -/
inductive PluginHandler where
  | GetTransactions
  | CreateTransaction
  | GetShifts
  | CreateShift
deriving DecidableEq, Repr

/-- Go's `strings.TrimPrefix(route, "/")`: the route without one leading
slash, the route itself when it has none. -/
def trimSlashPrefix (route : String) : String :=
  match route.data with
  | '/' :: rest => String.mk rest
  | _ => route

/-- Go's `strings.ToUpper` on ASCII: the letters `a` to `z` are mapped to
`A` to `Z` and every other character is kept (Go also maps the lower-case
letters outside ASCII, which no registered method name contains). -/
def toUpperASCII (method : String) : String :=
  String.mk (method.data.map Char.toUpper)

/-- The map `handlers` of `GetHandler`. -/
def pluginHandlers (key : String) : Option PluginHandler :=
  if key = "GET /transactions" then some .GetTransactions
  else if key = "POST /transactions" then some .CreateTransaction
  else if key = "GET /shifts" then some .GetShifts
  else if key = "POST /shifts" then some .CreateShift
  else none

/-- The method `POSPlugin.GetHandler`. -/
def GetHandler (route method : String) : Except String PluginHandler :=
  let route := trimSlashPrefix route
  let method := toUpperASCII method
  let key := method ++ " " ++ route
  match pluginHandlers key with
  | some handler => .ok handler
  | none => .error ("handler not found for route: " ++ method ++ " " ++ route)

/-! ## The handlers over the arithmetic of `float64`

`RedeemGiftCard` and `ClosePOSShift` compute amounts in Go, on `float64`
values: `newBalance := giftCard.CurrentBalance - req.Amount`,
`expectedBalance := shift.OpeningBalance + shift.TotalSales` and
`variance := req.ClosingAmount - expectedBalance`.  The definitions above
take these operations to be exact.  The definitions of this section are the
same two handlers with the operations as parameters, so that what is proved
of them for every `add` and `sub` holds of the rounding operations of
`float64` as it does of exact arithmetic.  A `Money` value then stands for
the `float64` value the handler holds, under an order-preserving numbering
that sends zero to `0` (in the examples: the number of hundredths); the
handlers use nothing of a value but its order. -/

/-- The handler `GiftCardHandler.RedeemGiftCard`, with `sub` for the `-` of
`newBalance := giftCard.CurrentBalance - req.Amount`. -/
def RedeemGiftCardWith (sub : Money → Money → Money) (fails : RedeemStep → Bool) (now : Time)
    (r : Request RedeemGiftCardRequest) (s : Store) : Reply RedeemGiftCardResult × Store :=
  match getTenantID r with
  | .error e => (.failure 401 e, s)
  | .ok tenantID =>
    match r.body with
    | none => (.failure 400 "Invalid request body", s)
    | some req =>
      let userID := (getUserID r).1
      if fails .beginTx then (.failure 500 "Failed to start transaction", s)
      else if fails .selectCard then (.failure 500 "Failed to fetch gift card", s)
      else
        match findActiveCard s tenantID req.CardNumber with
        | none => (.failure 404 "Gift card not found or inactive", s)
        | some giftCard =>
          if giftCard.CurrentBalance < req.Amount then
            (.failure 400 "Insufficient gift card balance", s)
          else
            let newBalance := sub giftCard.CurrentBalance req.Amount
            if fails .updateBalance then (.failure 500 "Failed to update gift card", s)
            else
              let tx1 := updateCardBalance s giftCard.ID newBalance now
              if fails .insertLedger then (.failure 500 "Failed to create transaction", s)
              else
                let tx2 := insertRedeemRow tx1 tenantID giftCard.ID req.Amount
                  giftCard.CurrentBalance newBalance req.TransactionID userID req.Notes now
                if newBalance ≤ 0 then
                  if fails .updateStatus then (.failure 500 "Failed to update card status", s)
                  else commitRedeem fails req newBalance s (markCardUsed tx2 giftCard.ID)
                else commitRedeem fails req newBalance s tx2

/-- The handler `ShiftHandler.ClosePOSShift`, with `add` for the `+` of
`expectedBalance := shift.OpeningBalance + shift.TotalSales` and `sub` for
the `-` of `variance := req.ClosingAmount - expectedBalance`. -/
def ClosePOSShiftWith (add sub : Money → Money → Money) (fails : CloseShiftStep → Bool)
    (now : Time) (r : Request ClosePOSShiftRequest) (s : Store) :
    Reply ClosePOSShiftResult × Store :=
  match getTenantID r with
  | .error e => (.failure 401 e, s)
  | .ok tenantID =>
    match r.urlID with
    | none => (.failure 400 "Invalid shift ID", s)
    | some shiftID =>
      match r.body with
      | none => (.failure 400 "Invalid request body", s)
      | some req =>
        if fails .beginTx then (.failure 500 "Failed to close shift", s)
        else if fails .selectShift then (.failure 500 "Failed to fetch shift", s)
        else
          match findOpenShift s shiftID tenantID with
          | none => (.failure 404 "Active shift not found", s)
          | some shift =>
            let expectedBalance := add shift.OpeningBalance shift.TotalSales
            let variance := sub req.ClosingAmount expectedBalance
            if fails .updateShift then (.failure 500 "Failed to close shift", s)
            else
              let tx1 := closeShiftRows s shiftID req.ClosingAmount expectedBalance variance
                now req.Notes
              if fails .commit then (.failure 500 "Failed to close shift", s)
              else
                (.success 200 { closing_amount := req.ClosingAmount,
                                expected_balance := expectedBalance,
                                variance := variance }, tx1)

/-! ## Sample data -/

/-- An active gift card of tenant `t1` holding 20.00. -/
def sampleCard : GiftCard :=
  { ID := 1, TenantID := "t1", CompanyID := none, CardNumber := "GC-1", PINCode := none,
    InitialValue := 2000, CurrentBalance := 2000, Currency := "USD",
    PurchasedByCustomerID := none, RecipientName := none, RecipientEmail := none,
    Status := "active", IssuedDate := 0, ExpiryDate := none, LastUsedAt := none,
    CreatedAt := 0, UpdatedAt := 0 }

/-- A store holding only `sampleCard`. -/
def sampleCardStore : Store := { Store.empty with gift_cards := [sampleCard] }

/-- A request of tenant `t1`, user 7, to redeem `amount` from card `GC-1`. -/
def sampleRedeem (amount : Money) : Request RedeemGiftCardRequest :=
  { tenantHeader := "t1", userHeader := some 7, urlID := none,
    body := some { CardNumber := "GC-1", Amount := amount, TransactionID := none,
                   Notes := none } }

/-- A request of tenant `t1` to create a gift card of initial value `v`. -/
def sampleCreateCard (v : Money) : Request CreateGiftCardRequest :=
  { tenantHeader := "t1", userHeader := some 7, urlID := none,
    body := some { CompanyID := none, InitialValue := v, Currency := "",
                   PurchasedByCustomerID := none, RecipientName := none,
                   RecipientEmail := none, ExpiryDate := none } }

/-- Two gift-card requests: create a card of 20.00 at clock reading 1 (it is
numbered `GC-1`), then redeem 5.00 from it. -/
def sampleGiftCardCalls : List GiftCardCall :=
  [GiftCardCall.create noFault 1 (sampleCreateCard 2000),
   GiftCardCall.redeem noFault 2 (sampleRedeem 500)]

/-- An active session `id` of tenant `t1` on register `id` with running
totals 100.00 over 3 transactions. -/
def sampleSession (id : Int) : POSSession :=
  { ID := id, TenantID := "t1", RegisterID := id, CashDrawerID := none, ShiftID := none,
    UserID := 7, SessionNumber := "SES-1", SessionStart := 0, SessionEnd := none,
    OpeningAmount := 0, ClosingAmount := none, TotalSales := 10000, TotalRefunds := 0,
    TotalTransactions := 3, Status := "active", Notes := none, CreatedAt := 0,
    UpdatedAt := 0 }

/-- A store with sessions 1 and 2 and the gift card `sampleCard`. -/
def sampleSaleStore : Store :=
  { Store.empty with gift_cards := [sampleCard],
                     pos_sessions := [sampleSession 1, sampleSession 2] }

/-- One unit of product 11 at 100.00. -/
def sampleItem : POSTransactionItem :=
  { ID := 0, TransactionID := 0, ProductID := 11, Quantity := 1, UnitPrice := 10000,
    DiscountPercent := 0, DiscountAmount := 0, TaxRate := 0, TaxAmount := 0,
    LineTotal := 10000, Notes := none, Metadata := "", CreatedAt := 0 }

/-- A payment of `amount` by `method`, with reference `ref`. -/
def samplePayment (method : String) (ref : Option String) (amount : Money) : POSPayment :=
  { ID := 0, TransactionID := 0, PaymentMethod := method, Amount := amount,
    ReferenceNumber := ref, CardType := none, Status := "", ProcessedAt := 0,
    Notes := none, Metadata := "", CreatedAt := 0 }

/-- Body of a sale of 100.00 on session 1, with no change, paid by
`payments`. -/
def sampleSaleBody (payments : List POSPayment) : CreatePOSTransactionRequest :=
  { SessionID := 1, RegisterID := 1, CustomerID := none, Subtotal := 10000,
    TaxAmount := 0, DiscountAmount := 0, TipAmount := 0, TotalAmount := 10000,
    ChangeAmount := 0, Notes := none, Items := [sampleItem], Payments := payments,
    CustomFields := "null" }

/-- A request of tenant `t1`, user 7, for `sampleSaleBody payments`. -/
def sampleSale (payments : List POSPayment) : Request CreatePOSTransactionRequest :=
  { tenantHeader := "t1", userHeader := some 7, urlID := none,
    body := some (sampleSaleBody payments) }

/-- Only the insert of the first payment fails. -/
def failFirstPayment : SaleStep → Bool
  | .insertPayment 0 => true
  | _ => false

/-- An open shift `id` of tenant `t1` with opening balance 100.00 and total
sales 250.00. -/
def sampleShift (id : Int) : RegisterShift :=
  { ID := id, TenantID := "t1", RegisterID := 1, ShiftNumber := "SHIFT-1", CashierID := 7,
    OpeningBalance := 10000, ClosingBalance := none, ExpectedBalance := none,
    Variance := none, TotalSales := 25000, TotalCashSales := 0, TotalCardSales := 0,
    TotalReturns := 0, TransactionCount := 4, OpenedAt := 0, ClosedAt := none,
    Status := "open", Notes := none, CreatedAt := 0 }

/-- A store holding the open shift 1. -/
def sampleShiftStore : Store := { Store.empty with register_shifts := [sampleShift 1] }

/-- A request of tenant `t1` to close shift 1 with `closing` in the drawer. -/
def sampleCloseShift (closing : Money) : Request ClosePOSShiftRequest :=
  { tenantHeader := "t1", userHeader := some 7, urlID := some 1,
    body := some { ClosingAmount := closing, Notes := none } }

/-- A request of tenant `t1` to open a session on `register` with `opening`
in the drawer. -/
def sampleCreateSession (register : Int) (opening : Money) :
    Request CreatePOSSessionRequest :=
  { tenantHeader := "t1", userHeader := some 7, urlID := none,
    body := some { RegisterID := register, OpeningAmount := opening, Notes := none } }

/-- The active session 1 of tenant `t1`, attached to shift 1. -/
def sampleShiftSession : POSSession := { sampleSession 1 with ShiftID := some 1 }

/-- A store with the open shift 1 (total sales 250.00 over 4 transactions)
and the session 1 attached to it. -/
def sampleShiftSaleStore : Store :=
  { Store.empty with pos_sessions := [sampleShiftSession],
                     register_shifts := [sampleShift 1] }

/-- The open cash drawer 5 of tenant `t1` on register 1, opened with 50.00. -/
def sampleDrawer : POSCashDrawer :=
  { ID := 5, TenantID := "t1", RegisterID := 1, OpeningAmount := 5000,
    ClosingAmount := none, Status := "open", OpenedBy := 7, OpenedAt := 0,
    ClosedBy := none, ClosedAt := none }

/-- A store with the active session 1 linked to the cash drawer 5, and the
active session 2 without a drawer. -/
def sampleDrawerStore : Store :=
  { Store.empty with
      pos_sessions := [{ sampleSession 1 with CashDrawerID := some 5 }, sampleSession 2],
      pos_cash_drawers := [sampleDrawer] }

/-- A request of tenant `t1`, user 7, to close session `id` with `closing` in
the drawer. -/
def sampleCloseSession (id : Int) (closing : Money) : Request ClosePOSSessionRequest :=
  { tenantHeader := "t1", userHeader := some 7, urlID := some id,
    body := some { ClosingAmount := closing, Notes := none } }

/-- A series of session requests of tenant `t1` on register 1: open, open
again, close session 1, open again. -/
def sampleSessionCalls : List SessionCall :=
  [SessionCall.create noFault 1000000000 (sampleCreateSession 1 5000),
   SessionCall.create noFault 2000000000 (sampleCreateSession 1 0),
   SessionCall.close noFault 3000000000 (sampleCloseSession 1 12000),
   SessionCall.create noFault 4000000000 (sampleCreateSession 1 0)]

/-- The active coupon `SAVE10` of tenant `t1`, valid from clock reading 100
to 200, used 2 times of at most 3. -/
def sampleCoupon : CouponCode :=
  { ID := 1, TenantID := "t1", DiscountRuleID := some 4, CouponCode := "SAVE10",
    Description := none, MaxUses := some 3, MaxUsesPerCustomer := none, CurrentUses := 2,
    ValidFrom := 100, ValidTo := some 200, IsActive := true, CreatedAt := 0,
    UpdatedAt := 0 }

/-- A store holding `sampleCoupon`. -/
def sampleCouponStore : Store := { Store.empty with coupon_codes := [sampleCoupon] }

/-- A request of tenant `t1` to validate the coupon `code` on 80.00. -/
def sampleValidate (code : String) : Request ValidateCouponRequest :=
  { tenantHeader := "t1", userHeader := some 7, urlID := none,
    body := some { CouponCode := code, Amount := 8000 } }

/-- A `percentage` rule of 10 percent with minimum purchase 50.00 and the
maximum discount `cap`. -/
def samplePercentageRule (cap : Option Money) : DiscountRule :=
  { ID := 4, TenantID := "t1", CompanyID := none, RuleCode := "P10", RuleName := "10 off",
    DiscountType := "percentage", DiscountValue := 1000, AppliesTo := "order_total",
    MinPurchaseAmount := some 5000, MaxDiscountAmount := cap, BuyQuantity := none,
    GetQuantity := none, CustomerGroupID := none, ValidFrom := 0, ValidTo := none,
    DaysOfWeek := [], TimeFrom := none, TimeTo := none, UsageLimit := none,
    UsageCount := 0, RequiresApproval := false, IsActive := true, Priority := 0,
    CreatedAt := 0, UpdatedAt := 0 }

/-- A store whose only session, session 1 of tenant `t1`, is closed. -/
def sampleClosedSessionStore : Store :=
  { Store.empty with pos_sessions := [{ sampleSession 1 with Status := "closed" }] }

/-- A store whose only session, the active session 1, belongs to tenant
`t2`; its running totals are 100.00 over 3 transactions. -/
def sampleOtherTenantStore : Store :=
  { Store.empty with pos_sessions := [{ sampleSession 1 with TenantID := "t2" }] }

/-- An active coupon `SAVE10` of tenant `t1` that was valid from clock
reading 10 to 50 and has no usage cap. -/
def sampleExpiredCoupon : CouponCode :=
  { ID := 2, TenantID := "t1", DiscountRuleID := some 4, CouponCode := "SAVE10",
    Description := none, MaxUses := none, MaxUsesPerCustomer := none, CurrentUses := 0,
    ValidFrom := 10, ValidTo := some 50, IsActive := true, CreatedAt := 0,
    UpdatedAt := 0 }

/-- A store with two active coupons `SAVE10` of tenant `t1`: the expired one,
then `sampleCoupon`. -/
def sampleTwoCouponStore : Store :=
  { Store.empty with coupon_codes := [sampleExpiredCoupon, sampleCoupon] }

/-- The active-session query of `CreatePOSSession` returns a database error;
every other call goes through. -/
def failCheckActive : CreateSessionStep → Bool
  | .checkActive => true
  | _ => false

/-- Two requests of tenant `t1` to open register 1, run one after another;
the active-session query of the second returns a database error. -/
def sampleSessionCallsQueryError : List SessionCall :=
  [SessionCall.create noFault 1000000000 (sampleCreateSession 1 5000),
   SessionCall.create failCheckActive 2000000000 (sampleCreateSession 1 0)]

end POS

/-! # Theorems -/

namespace POS

/-! ## Shared lemmas: gift cards -/

theorem getTenantID_ok {β : Type} (r : Request β) (t : String)
    (h : getTenantID r = .ok t) : t = r.tenantHeader ∧ r.tenantHeader ≠ "" := by
  unfold getTenantID at h
  split at h
  · cases h
  · rename_i hne
    cases h
    exact ⟨rfl, hne⟩

/-- A successful `RedeemGiftCard` went through every step: the tenant header
is present, the body decodes, the card is found with enough balance, and the
store is the committed working copy. -/
theorem redeem_success_inv (fails : RedeemStep → Bool) (now : Time)
    (r : Request RedeemGiftCardRequest) (s s' : Store) (code : Nat)
    (out : RedeemGiftCardResult)
    (h : RedeemGiftCard fails now r s = (.success code out, s')) :
    ∃ req card, r.tenantHeader ≠ "" ∧ r.body = some req ∧
      findActiveCard s r.tenantHeader req.CardNumber = some card ∧
      ¬ card.CurrentBalance < req.Amount ∧
      (∀ st, fails st = true → st = .updateStatus ∧ ¬ card.CurrentBalance - req.Amount ≤ 0) ∧
      code = 200 ∧
      out = { redeemed_amount := req.Amount,
              remaining_balance := card.CurrentBalance - req.Amount } ∧
      s' = redeemedStore s r.tenantHeader card req (getUserID r).1 now := by
  unfold RedeemGiftCard at h
  split at h
  · simp at h
  · rename_i tenantID hten
    obtain ⟨rfl, hne⟩ := getTenantID_ok r _ hten
    split at h
    · simp at h
    · rename_i req hbody
      simp only at h
      split at h
      · simp at h
      · rename_i hbegin
        split at h
        · simp at h
        · rename_i hsel
          split at h
          · simp at h
          · rename_i card hfind
            split at h
            · simp at h
            · rename_i hbal
              split at h
              · simp at h
              · rename_i hupd
                split at h
                · simp at h
                · rename_i hins
                  refine ⟨req, card, hne, hbody, hfind, hbal, ?_⟩
                  split at h
                  · rename_i hz
                    split at h
                    · simp at h
                    · rename_i hst
                      unfold commitRedeem at h
                      split at h
                      · simp at h
                      · rename_i hcom
                        simp only [Prod.mk.injEq, Reply.success.injEq] at h
                        obtain ⟨⟨rfl, rfl⟩, rfl⟩ := h
                        refine ⟨?_, rfl, rfl, ?_⟩
                        · intro st hs
                          cases st <;> simp_all
                        · simp [redeemedStore, hz]
                  · rename_i hz
                    unfold commitRedeem at h
                    split at h
                    · simp at h
                    · rename_i hcom
                      simp only [Prod.mk.injEq, Reply.success.injEq] at h
                      obtain ⟨⟨rfl, rfl⟩, rfl⟩ := h
                      refine ⟨?_, rfl, rfl, ?_⟩
                      · intro st hs
                        cases st <;> simp_all
                      · simp [redeemedStore, hz]

theorem findActiveCard_some (s : Store) (t n : String) (card : GiftCard)
    (h : findActiveCard s t n = some card) :
    card ∈ s.gift_cards ∧ card.TenantID = t ∧ card.CardNumber = n ∧ card.Status = "active" := by
  unfold findActiveCard at h
  have hm := List.mem_of_find?_eq_some h
  have hp := List.find?_some h
  simp only [Bool.and_eq_true, decide_eq_true_eq] at hp
  exact ⟨hm, hp.1.1, hp.1.2, hp.2⟩

theorem redeemedStore_ledger (s : Store) (t : String) (card : GiftCard)
    (req : RedeemGiftCardRequest) (u : Int) (now : Time) :
    (redeemedStore s t card req u now).gift_card_transactions =
      s.gift_card_transactions ++
        [{ ID := nextID (s.gift_card_transactions.map (·.ID)), TenantID := t,
           GiftCardID := card.ID, TransactionType := "redeem", Amount := req.Amount,
           BalanceBefore := card.CurrentBalance,
           BalanceAfter := card.CurrentBalance - req.Amount,
           TransactionID := req.TransactionID, Notes := req.Notes, CreatedAt := now,
           CreatedBy := some u }] := by
  unfold redeemedStore
  simp only
  split <;> simp [markCardUsed, insertRedeemRow, updateCardBalance]

theorem redeemedStore_cards (s : Store) (t : String) (card : GiftCard)
    (req : RedeemGiftCardRequest) (u : Int) (now : Time) :
    (redeemedStore s t card req u now).gift_cards =
      s.gift_cards.map (fun c =>
        if c.ID = card.ID then
          { c with CurrentBalance := card.CurrentBalance - req.Amount,
                   LastUsedAt := some now, UpdatedAt := now,
                   Status := if card.CurrentBalance - req.Amount ≤ 0 then "used" else c.Status }
        else c) := by
  unfold redeemedStore
  simp only
  split
  · rename_i hz
    simp only [markCardUsed, insertRedeemRow, updateCardBalance, List.map_map]
    apply List.map_congr_left
    intro c _
    by_cases hc : c.ID = card.ID <;> simp [hc, hz]
  · simp only [insertRedeemRow, updateCardBalance]

theorem redeemedStore_balance (s : Store) (t : String) (card : GiftCard)
    (req : RedeemGiftCardRequest) (u : Int) (now : Time) (hmem : card ∈ s.gift_cards) :
    (∃ c ∈ (redeemedStore s t card req u now).gift_cards, c.ID = card.ID) ∧
    (∀ c ∈ (redeemedStore s t card req u now).gift_cards, c.ID = card.ID →
      c.CurrentBalance = card.CurrentBalance - req.Amount) := by
  rw [redeemedStore_cards]
  constructor
  · refine ⟨_, List.mem_map.2 ⟨card, hmem, rfl⟩, ?_⟩
    simp
  · intro c hc hid
    obtain ⟨c0, _, rfl⟩ := List.mem_map.1 hc
    by_cases h0 : c0.ID = card.ID
    · simp [h0]
    · simp [h0] at hid

/-- A failed `RedeemGiftCard` leaves the store as it was. -/
theorem redeem_failure_inv (fails : RedeemStep → Bool) (now : Time)
    (r : Request RedeemGiftCardRequest) (s s' : Store) (code : Nat) (msg : String)
    (h : RedeemGiftCard fails now r s = (.failure code msg, s')) : s' = s := by
  unfold RedeemGiftCard commitRedeem at h
  repeat' split at h
  all_goals first
    | (simp at h; done)
    | (simp at h; exact h.2.symm)
    | (dsimp only at h; split at h <;> simp at h <;> exact h.2.symm)

/-- Every reply of `RedeemGiftCard` is either a failure that keeps the store
or the success that commits `redeemedStore`. -/
theorem redeem_cases (fails : RedeemStep → Bool) (now : Time)
    (r : Request RedeemGiftCardRequest) (s : Store) :
    (RedeemGiftCard fails now r s).2 = s ∨
    ∃ req card, r.body = some req ∧
      findActiveCard s r.tenantHeader req.CardNumber = some card ∧
      ¬ card.CurrentBalance < req.Amount ∧
      (RedeemGiftCard fails now r s).2 =
        redeemedStore s r.tenantHeader card req (getUserID r).1 now := by
  rcases hres : RedeemGiftCard fails now r s with ⟨reply, s'⟩
  cases reply with
  | failure code msg => exact Or.inl (redeem_failure_inv fails now r s s' code msg hres)
  | success code out =>
    obtain ⟨req, card, _, hb, hf, hbal, _, _, _, hs⟩ :=
      redeem_success_inv fails now r s s' code out hres
    exact Or.inr ⟨req, card, hb, hf, hbal, hs⟩

/-! ## Shared lemmas: the handlers over the arithmetic of `float64` -/

/-- With exact subtraction `RedeemGiftCardWith` is `RedeemGiftCard`. -/
theorem redeemGiftCardWith_exact :
    RedeemGiftCardWith (fun a b => a - b) = RedeemGiftCard := rfl

/-- With exact addition and subtraction `ClosePOSShiftWith` is
`ClosePOSShift`. -/
theorem closePOSShiftWith_exact :
    ClosePOSShiftWith (fun a b => a + b) (fun a b => a - b) = ClosePOSShift := rfl

/-- C2: when the active card the request names holds less than the
requested amount, `RedeemGiftCard` answers 400 "Insufficient gift card
balance" (the transaction having begun and the card having been read) and
the store, hence the card's balance and status and the ledger, is as
before; whichever database calls fail, the store is as before. -/
theorem redeem_insufficient_balance (fails : RedeemStep → Bool) (now : Time)
    (r : Request RedeemGiftCardRequest) (s : Store) (req : RedeemGiftCardRequest)
    (card : GiftCard) (hten : r.tenantHeader ≠ "") (hbody : r.body = some req)
    (hfind : findActiveCard s r.tenantHeader req.CardNumber = some card)
    (hlt : card.CurrentBalance < req.Amount) :
    (fails .beginTx = false → fails .selectCard = false →
      RedeemGiftCard fails now r s = (.failure 400 "Insufficient gift card balance", s)) ∧
    (RedeemGiftCard fails now r s).2 = s ∧
    (RedeemGiftCard fails now r s).1.isSuccess = false := by
  have key : RedeemGiftCard fails now r s =
      if fails .beginTx then (.failure 500 "Failed to start transaction", s)
      else if fails .selectCard then (.failure 500 "Failed to fetch gift card", s)
      else (.failure 400 "Insufficient gift card balance", s) := by
    simp [RedeemGiftCard, getTenantID, hten, hbody, hfind, hlt]
  rw [key]
  refine ⟨fun h1 h2 => by simp [h1, h2], ?_, ?_⟩
  · split
    · rfl
    · split <;> rfl
  · split
    · rfl
    · split <;> rfl

/-- C3: when `RedeemGiftCard` commits, the redeemed card is still in the
store and its `current_balance` is not negative. -/
theorem redeem_commit_balance_nonneg (fails : RedeemStep → Bool) (now : Time)
    (r : Request RedeemGiftCardRequest) (s s' : Store) (code : Nat)
    (out : RedeemGiftCardResult)
    (h : RedeemGiftCard fails now r s = (.success code out, s')) :
    ∃ req card, r.body = some req ∧
      findActiveCard s r.tenantHeader req.CardNumber = some card ∧
      (∃ c ∈ s'.gift_cards, c.ID = card.ID) ∧
      (∀ c ∈ s'.gift_cards, c.ID = card.ID → 0 ≤ c.CurrentBalance) := by
  obtain ⟨req, card, _, hb, hf, hge, _, _, _, rfl⟩ :=
    redeem_success_inv fails now r s s' code out h
  have hmem := (findActiveCard_some s _ _ card hf).1
  have hbal := redeemedStore_balance s r.tenantHeader card req (getUserID r).1 now hmem
  refine ⟨req, card, hb, hf, hbal.1, fun c hc hid => ?_⟩
  rw [hbal.2 c hc hid]
  exact Int.sub_nonneg_of_le (Int.not_lt.mp hge)

/-- Instance of C2: asking 20.01 from the card `GC-1`, which holds 20.00. -/
theorem redeem_insufficient_balance_witness :
    (noFault RedeemStep.beginTx = false → noFault RedeemStep.selectCard = false →
      RedeemGiftCard noFault 5 (sampleRedeem 2001) sampleCardStore =
        (.failure 400 "Insufficient gift card balance", sampleCardStore)) ∧
    (RedeemGiftCard noFault 5 (sampleRedeem 2001) sampleCardStore).2 = sampleCardStore ∧
    (RedeemGiftCard noFault 5 (sampleRedeem 2001) sampleCardStore).1.isSuccess = false :=
  redeem_insufficient_balance noFault 5 (sampleRedeem 2001) sampleCardStore
    { CardNumber := "GC-1", Amount := 2001, TransactionID := none, Notes := none }
    sampleCard (by decide) rfl (by decide) (by decide)

/-- Instance of C3: redeeming the whole 20.00 of the card `GC-1`. -/
theorem redeem_commit_balance_nonneg_witness :
    ∃ req card, (sampleRedeem 2000).body = some req ∧
      findActiveCard sampleCardStore (sampleRedeem 2000).tenantHeader req.CardNumber
        = some card ∧
      (∃ c ∈ (RedeemGiftCard noFault 5 (sampleRedeem 2000) sampleCardStore).2.gift_cards,
        c.ID = card.ID) ∧
      (∀ c ∈ (RedeemGiftCard noFault 5 (sampleRedeem 2000) sampleCardStore).2.gift_cards,
        c.ID = card.ID → 0 ≤ c.CurrentBalance) :=
  redeem_commit_balance_nonneg noFault 5 (sampleRedeem 2000) sampleCardStore _ 200
    { redeemed_amount := 2000, remaining_balance := 0 } (by decide)

/-- `CreateGiftCard` keeps the store or appends one card whose balance is
the requested initial value. -/
theorem createGiftCard_cases (fails : CreateGiftCardStep → Bool) (now : Time)
    (r : Request CreateGiftCardRequest) (s : Store) :
    (CreateGiftCard fails now r s).2 = s ∨
    ∃ req card, r.body = some req ∧ card.CurrentBalance = req.InitialValue ∧
      (CreateGiftCard fails now r s).2 = { s with gift_cards := s.gift_cards ++ [card] } := by
  unfold CreateGiftCard
  split
  · exact Or.inl rfl
  · split
    · exact Or.inl rfl
    · rename_i req hb
      dsimp only
      split
      · exact Or.inl rfl
      · exact Or.inr ⟨req, _, hb, rfl, rfl⟩

/-- One gift-card request keeps every balance non-negative, when a create
request does not ask for a negative initial value. -/
theorem giftCardCall_preserves_nonneg (s : Store) (call : GiftCardCall)
    (hcall : call.nonnegInitial) (hs : ∀ c ∈ s.gift_cards, 0 ≤ c.CurrentBalance) :
    ∀ c ∈ (call.run s).gift_cards, 0 ≤ c.CurrentBalance := by
  cases call with
  | create fails now r =>
    intro c hc
    rcases createGiftCard_cases fails now r s with h | ⟨req, card, hb, hbal, h⟩
    · simp only [GiftCardCall.run, h] at hc
      exact hs c hc
    · simp only [GiftCardCall.run, h, List.mem_append, List.mem_singleton] at hc
      rcases hc with hc | rfl
      · exact hs c hc
      · rw [hbal]
        exact hcall req hb
  | redeem fails now r =>
    intro c hc
    rcases redeem_cases fails now r s with h | ⟨req, card, _, _, hge, h⟩
    · simp only [GiftCardCall.run, h] at hc
      exact hs c hc
    · simp only [GiftCardCall.run, h, redeemedStore_cards] at hc
      obtain ⟨c0, hc0, rfl⟩ := List.mem_map.1 hc
      by_cases hid : c0.ID = card.ID
      · simp only [hid, if_true]
        exact Int.sub_nonneg_of_le (Int.not_lt.mp hge)
      · simp only [hid, if_false]
        exact hs c0 hc0

/-- C4, as stated, fails: from the empty store one `CreateGiftCard` request
with initial value -5.00 leaves a gift card whose balance is negative. -/
theorem giftcard_negative_balance_reachable :
    ¬ (∀ c ∈ (runGiftCardCalls Store.empty
          [GiftCardCall.create noFault 5 (sampleCreateCard (-500))]).gift_cards,
        0 ≤ c.CurrentBalance) := by
  intro h
  have h1 := h _ (List.mem_singleton.2 rfl)
  revert h1
  decide

/-- C4, amended: in every state reached from the empty store by a sequence
of `CreateGiftCard` and `RedeemGiftCard` requests in which no create request
asks for a negative initial value, every gift card's `current_balance` is at
least zero. -/
theorem giftcard_balance_nonneg_reachable (calls : List GiftCardCall)
    (hcalls : ∀ call ∈ calls, call.nonnegInitial) :
    ∀ c ∈ (runGiftCardCalls Store.empty calls).gift_cards, 0 ≤ c.CurrentBalance := by
  have gen : ∀ (cs : List GiftCardCall) (s : Store),
      (∀ call ∈ cs, call.nonnegInitial) →
      (∀ c ∈ s.gift_cards, 0 ≤ c.CurrentBalance) →
      ∀ c ∈ (runGiftCardCalls s cs).gift_cards, 0 ≤ c.CurrentBalance := by
    intro cs
    induction cs with
    | nil => intro s _ hs; exact hs
    | cons call rest ih =>
      intro s hcs hs
      have hrest : ∀ call ∈ rest, call.nonnegInitial :=
        fun x hx => hcs x (List.mem_cons_of_mem _ hx)
      exact ih (call.run s) hrest
        (giftCardCall_preserves_nonneg s call (hcs call (List.mem_cons_self _ _)) hs)
  exact gen calls Store.empty hcalls (by intro c hc; cases hc)

/-- No request of `sampleGiftCardCalls` asks for a negative initial value. -/
theorem sampleGiftCardCalls_nonnegInitial :
    ∀ call ∈ sampleGiftCardCalls, call.nonnegInitial := by
  intro call hcall
  simp only [sampleGiftCardCalls, List.mem_cons, List.mem_singleton, List.not_mem_nil,
    or_false] at hcall
  rcases hcall with rfl | rfl
  · intro req hreq
    simp only [sampleCreateCard, Option.some.injEq] at hreq
    subst hreq
    decide
  · trivial

/-- Instance of the amended C4: after creating a card of 20.00 and redeeming
5.00 from it the only card holds 15.00. -/
theorem giftcard_balance_nonneg_reachable_witness :
    (∀ call ∈ sampleGiftCardCalls, call.nonnegInitial) ∧
    (runGiftCardCalls Store.empty sampleGiftCardCalls).gift_cards.map (·.CurrentBalance)
      = [1500] ∧
    ∀ c ∈ (runGiftCardCalls Store.empty sampleGiftCardCalls).gift_cards,
      0 ≤ c.CurrentBalance :=
  ⟨sampleGiftCardCalls_nonnegInitial, by decide,
    giftcard_balance_nonneg_reachable sampleGiftCardCalls sampleGiftCardCalls_nonnegInitial⟩

/-! ## Shared lemmas: the sale pipeline -/

/-- The item loop only appends to `pos_transaction_items`, and it ran every
insert of the list without a failure. -/
theorem insertItems_some (fails : SaleStep → Bool) (tid : Int) (now : Time)
    (items : List POSTransactionItem) :
    ∀ (i : Nat) (tx tx' : Store), insertItems fails tid now i items tx = some tx' →
      (∀ j, j < items.length → fails (.insertItem (i + j)) = false) ∧
      tx'.gift_cards = tx.gift_cards ∧
      tx'.gift_card_transactions = tx.gift_card_transactions ∧
      tx'.pos_sessions = tx.pos_sessions ∧
      tx'.pos_cash_drawers = tx.pos_cash_drawers ∧
      tx'.register_shifts = tx.register_shifts ∧
      tx'.pos_transactions = tx.pos_transactions ∧
      tx'.pos_payments = tx.pos_payments := by
  induction items with
  | nil =>
    intro i tx tx' h
    simp only [insertItems, Option.some.injEq] at h
    subst h
    simp
  | cons item rest ih =>
    intro i tx tx' h
    simp only [insertItems] at h
    split at h
    · cases h
    · rename_i hf
      obtain ⟨h1, h2, h3, h4, h5, h6, h7, h8⟩ := ih (i + 1) _ tx' h
      refine ⟨?_, h2, h3, h4, h5, h6, h7, h8⟩
      intro j hj
      cases j with
      | zero => simpa using hf
      | succ k =>
        have := h1 k (by simpa using hj)
        rw [show i + (k + 1) = i + 1 + k by omega]
        exact this

/-- The payment loop only appends to `pos_payments`, and it ran every insert
of the list without a failure. -/
theorem insertPayments_some (fails : SaleStep → Bool) (tid : Int) (now : Time)
    (payments : List POSPayment) :
    ∀ (i : Nat) (tx tx' : Store), insertPayments fails tid now i payments tx = some tx' →
      (∀ j, j < payments.length → fails (.insertPayment (i + j)) = false) ∧
      tx'.gift_cards = tx.gift_cards ∧
      tx'.gift_card_transactions = tx.gift_card_transactions ∧
      tx'.pos_sessions = tx.pos_sessions ∧
      tx'.pos_cash_drawers = tx.pos_cash_drawers ∧
      tx'.register_shifts = tx.register_shifts ∧
      tx'.pos_transactions = tx.pos_transactions ∧
      tx'.pos_transaction_items = tx.pos_transaction_items := by
  induction payments with
  | nil =>
    intro i tx tx' h
    simp only [insertPayments, Option.some.injEq] at h
    subst h
    simp
  | cons payment rest ih =>
    intro i tx tx' h
    simp only [insertPayments] at h
    split at h
    · cases h
    · rename_i hf
      obtain ⟨h1, h2, h3, h4, h5, h6, h7, h8⟩ := ih (i + 1) _ tx' h
      refine ⟨?_, h2, h3, h4, h5, h6, h7, h8⟩
      intro j hj
      cases j with
      | zero => simpa using hf
      | succ k =>
        have := h1 k (by simpa using hj)
        rw [show i + (k + 1) = i + 1 + k by omega]
        exact this

/-- When no insert of the list fails the item loop runs to its end. -/
theorem insertItems_isSome (fails : SaleStep → Bool) (tid : Int) (now : Time)
    (items : List POSTransactionItem) :
    ∀ (i : Nat) (tx : Store), (∀ j, j < items.length → fails (.insertItem (i + j)) = false) →
      ∃ tx', insertItems fails tid now i items tx = some tx' := by
  induction items with
  | nil => intro i tx _; exact ⟨tx, rfl⟩
  | cons item rest ih =>
    intro i tx h
    have h0 : fails (.insertItem i) = false := by simpa using h 0 (by simp)
    simp only [insertItems, h0]
    apply ih
    intro j hj
    rw [show i + 1 + j = i + (j + 1) by omega]
    exact h (j + 1) (by simpa using hj)

/-- When no insert of the list fails the payment loop runs to its end. -/
theorem insertPayments_isSome (fails : SaleStep → Bool) (tid : Int) (now : Time)
    (payments : List POSPayment) :
    ∀ (i : Nat) (tx : Store),
      (∀ j, j < payments.length → fails (.insertPayment (i + j)) = false) →
      ∃ tx', insertPayments fails tid now i payments tx = some tx' := by
  induction payments with
  | nil => intro i tx _; exact ⟨tx, rfl⟩
  | cons payment rest ih =>
    intro i tx h
    have h0 : fails (.insertPayment i) = false := by simpa using h 0 (by simp)
    simp only [insertPayments, h0]
    apply ih
    intro j hj
    rw [show i + 1 + j = i + (j + 1) by omega]
    exact h (j + 1) (by simpa using hj)

/-- A successful `CreatePOSTransaction` ran every step: the request has
items and payments, no database call that it reached failed, and the store
is the committed working copy. -/
theorem sale_success_inv (fails : SaleStep → Bool) (now : Time)
    (r : Request CreatePOSTransactionRequest) (s s' : Store) (code : Nat)
    (out : CreatePOSTransactionResult)
    (h : CreatePOSTransaction fails now r s = (.success code out, s')) :
    ∃ req tx2 tx3, r.tenantHeader ≠ "" ∧ r.body = some req ∧
      req.Items ≠ [] ∧ req.Payments ≠ [] ∧
      (∀ step : SaleStep, step.reachable req.Items.length req.Payments.length →
        fails step = false) ∧
      insertItems fails (nextID (s.pos_transactions.map (·.ID))) now 0 req.Items
        (insertHeader s r.tenantHeader ("TXN-" ++ toString (unix now)) req
          (getUserID r).1 now) = some tx2 ∧
      insertPayments fails (nextID (s.pos_transactions.map (·.ID))) now 0 req.Payments tx2
        = some tx3 ∧
      code = 201 ∧
      s' = addSaleToSession tx3 req.SessionID req.TotalAmount := by
  unfold CreatePOSTransaction at h
  split at h
  · simp at h
  · rename_i tenantID hten
    obtain ⟨rfl, hne⟩ := getTenantID_ok r _ hten
    split at h
    · simp at h
    · rename_i req hbody
      split at h
      · simp at h
      · rename_i hitems
        split at h
        · simp at h
        · rename_i hpays
          dsimp only at h
          split at h
          · simp at h
          · rename_i hbegin
            split at h
            · simp at h
            · rename_i hhead
              split at h
              · simp at h
              · rename_i tx2 hi
                split at h
                · simp at h
                · rename_i tx3 hp
                  split at h
                  · simp at h
                  · rename_i hupd
                    split at h
                    · simp at h
                    · rename_i hcom
                      simp only [Prod.mk.injEq, Reply.success.injEq] at h
                      obtain ⟨⟨rfl, _⟩, rfl⟩ := h
                      refine ⟨req, tx2, tx3, hne, hbody, ?_, ?_, ?_, hi, hp, rfl, rfl⟩
                      · intro hnil; exact hitems (by simp [hnil])
                      · intro hnil; exact hpays (by simp [hnil])
                      · intro step hreach
                        have hI := (insertItems_some fails _ now req.Items 0 _ _ hi).1
                        have hP := (insertPayments_some fails _ now req.Payments 0 _ _ hp).1
                        cases step with
                        | beginTx => simpa using hbegin
                        | insertHeader => simpa using hhead
                        | insertItem i => simpa using hI i hreach
                        | insertPayment i => simpa using hP i hreach
                        | updateSession => simpa using hupd
                        | commit => simpa using hcom

/-- A failed `CreatePOSTransaction` leaves the store as it was. -/
theorem sale_failure_inv (fails : SaleStep → Bool) (now : Time)
    (r : Request CreatePOSTransactionRequest) (s s' : Store) (code : Nat) (msg : String)
    (h : CreatePOSTransaction fails now r s = (.failure code msg, s')) : s' = s := by
  unfold CreatePOSTransaction at h
  repeat' split at h
  all_goals first
    | (simp at h; done)
    | (simp at h; exact h.2.symm)
    | (dsimp only at h; repeat' split at h
       all_goals first
         | (simp at h; done)
         | (simp at h; exact h.2.symm))

/-! ## C5 to C8: the sale pipeline -/

/-- C5: `CreatePOSTransaction` is all-or-nothing.  When a database call the
request reaches fails (the begin, the header insert, the insert of one of
its items or payments, the session-totals update or the commit), the handler
does not succeed and the store afterwards is the store before: no header,
item or payment row of the request is in it and the session totals are
untouched. -/
theorem sale_all_or_nothing (fails : SaleStep → Bool) (now : Time)
    (r : Request CreatePOSTransactionRequest) (s : Store)
    (req : CreatePOSTransactionRequest) (hbody : r.body = some req) (step : SaleStep)
    (hreach : step.reachable req.Items.length req.Payments.length)
    (hfail : fails step = true) :
    (CreatePOSTransaction fails now r s).1.isSuccess = false ∧
    (CreatePOSTransaction fails now r s).2 = s := by
  rcases hres : CreatePOSTransaction fails now r s with ⟨reply, s'⟩
  cases reply with
  | failure code msg =>
    exact ⟨rfl, sale_failure_inv fails now r s s' code msg hres⟩
  | success code out =>
    obtain ⟨req', _, _, _, hb, _, _, hsteps, _⟩ :=
      sale_success_inv fails now r s s' code out hres
    rw [hbody] at hb
    cases hb
    have := hsteps step hreach
    rw [hfail] at this
    cases this

/-- Instance of C5: the insert of the only payment of a sale fails. -/
theorem sale_all_or_nothing_witness :
    (CreatePOSTransaction failFirstPayment 5 (sampleSale [samplePayment "cash" none 10000])
      sampleSaleStore).1.isSuccess = false ∧
    (CreatePOSTransaction failFirstPayment 5 (sampleSale [samplePayment "cash" none 10000])
      sampleSaleStore).2 = sampleSaleStore :=
  sale_all_or_nothing failFirstPayment 5 (sampleSale [samplePayment "cash" none 10000])
    sampleSaleStore (sampleSaleBody [samplePayment "cash" none 10000]) rfl
    (SaleStep.insertPayment 0) (by decide) rfl

/-- C6: after a successful `CreatePOSTransaction` the session table has the
same rows in the same places, where every session whose id is the request's
`session_id` has `total_sales` increased by the request's `total_amount` and
`total_transactions` increased by 1 (its other columns unchanged) and every
other session is unchanged. -/
theorem sale_updates_session_totals (fails : SaleStep → Bool) (now : Time)
    (r : Request CreatePOSTransactionRequest) (s s' : Store) (code : Nat)
    (out : CreatePOSTransactionResult)
    (h : CreatePOSTransaction fails now r s = (.success code out, s')) :
    ∃ req, r.body = some req ∧
      List.Forall₂ (fun old new : POSSession =>
          (old.ID = req.SessionID →
            new = { old with TotalSales := old.TotalSales + req.TotalAmount,
                             TotalTransactions := old.TotalTransactions + 1 }) ∧
          (old.ID ≠ req.SessionID → new = old))
        s.pos_sessions s'.pos_sessions := by
  obtain ⟨req, tx2, tx3, _, hb, _, _, _, hi, hp, _, rfl⟩ :=
    sale_success_inv fails now r s s' code out h
  refine ⟨req, hb, ?_⟩
  have h3 : tx3.pos_sessions = s.pos_sessions := by
    rw [(insertPayments_some fails _ now req.Payments 0 _ _ hp).2.2.2.1,
      (insertItems_some fails _ now req.Items 0 _ _ hi).2.2.2.1]
    rfl
  simp only [addSaleToSession, h3]
  rw [List.forall₂_map_right_iff]
  apply List.forall₂_same.2
  intro x _
  by_cases hx : x.ID = req.SessionID <;> simp [hx]

/-- Instance of C6: a sale of 100.00 on session 1 of a store with sessions 1
and 2. -/
theorem sale_updates_session_totals_witness :
    ∃ req, (sampleSale [samplePayment "cash" none 10000]).body = some req ∧
      List.Forall₂ (fun old new : POSSession =>
          (old.ID = req.SessionID →
            new = { old with TotalSales := old.TotalSales + req.TotalAmount,
                             TotalTransactions := old.TotalTransactions + 1 }) ∧
          (old.ID ≠ req.SessionID → new = old))
        sampleSaleStore.pos_sessions
        (CreatePOSTransaction noFault 5 (sampleSale [samplePayment "cash" none 10000])
          sampleSaleStore).2.pos_sessions :=
  sale_updates_session_totals noFault 5 (sampleSale [samplePayment "cash" none 10000])
    sampleSaleStore _ 201
    { transaction_id := 1, transaction_number := "TXN-0", transaction_date := 5,
      created_at := 5, updated_at := 5 } (by decide)

/-- The header row `CreatePOSTransaction` inserts for `req`. -/
theorem insertHeader_transactions (s : Store) (t n : String)
    (req : CreatePOSTransactionRequest) (u : Int) (now : Time) :
    ∃ hdr : POSTransaction,
      (insertHeader s t n req u now).pos_transactions = s.pos_transactions ++ [hdr] ∧
      hdr.TenantID = t ∧ hdr.SessionID = req.SessionID ∧
      hdr.TotalAmount = req.TotalAmount ∧ hdr.ChangeAmount = req.ChangeAmount :=
  ⟨_, rfl, rfl, rfl, rfl, rfl⟩

/-- With a tenant header, a decoded body holding at least one item and one
payment, and no failing database call among those the request reaches,
`CreatePOSTransaction` answers 201 and commits. -/
theorem sale_succeeds (fails : SaleStep → Bool) (now : Time)
    (r : Request CreatePOSTransactionRequest) (s : Store)
    (req : CreatePOSTransactionRequest) (hten : r.tenantHeader ≠ "")
    (hbody : r.body = some req) (hitems : req.Items ≠ []) (hpays : req.Payments ≠ [])
    (hok : ∀ step : SaleStep, step.reachable req.Items.length req.Payments.length →
      fails step = false) :
    ∃ tx2 tx3,
      insertItems fails (nextID (s.pos_transactions.map (·.ID))) now 0 req.Items
        (insertHeader s r.tenantHeader ("TXN-" ++ toString (unix now)) req
          (getUserID r).1 now) = some tx2 ∧
      insertPayments fails (nextID (s.pos_transactions.map (·.ID))) now 0 req.Payments tx2
        = some tx3 ∧
      CreatePOSTransaction fails now r s =
        (.success 201
          { transaction_id := nextID (s.pos_transactions.map (·.ID)),
            transaction_number := "TXN-" ++ toString (unix now),
            transaction_date := now, created_at := now, updated_at := now },
         addSaleToSession tx3 req.SessionID req.TotalAmount) := by
  obtain ⟨tx2, h2⟩ := insertItems_isSome fails (nextID (s.pos_transactions.map (·.ID))) now
    req.Items 0 (insertHeader s r.tenantHeader ("TXN-" ++ toString (unix now)) req
      (getUserID r).1 now)
    (fun j hj => hok (.insertItem (0 + j)) (by simpa [SaleStep.reachable] using hj))
  obtain ⟨tx3, h3⟩ := insertPayments_isSome fails (nextID (s.pos_transactions.map (·.ID)))
    now req.Payments 0 tx2
    (fun j hj => hok (.insertPayment (0 + j)) (by simpa [SaleStep.reachable] using hj))
  refine ⟨tx2, tx3, h2, h3, ?_⟩
  have hb := hok .beginTx trivial
  have hh := hok .insertHeader trivial
  have hu := hok .updateSession trivial
  have hc := hok .commit trivial
  have hi : ¬ req.Items.length = 0 := fun h => hitems (List.length_eq_zero.1 h)
  have hp : ¬ req.Payments.length = 0 := fun h => hpays (List.length_eq_zero.1 h)
  simp only [CreatePOSTransaction, getTenantID, hten, hbody, hi, hp, hb, hh, hu, hc, h2, h3,
    if_false, Bool.false_eq_true]

/-- Whether `CreatePOSTransaction` succeeds is decided by the request and by
the database calls that fail; the contents of the store play no part. -/
theorem sale_success_iff (fails : SaleStep → Bool) (now : Time)
    (r : Request CreatePOSTransactionRequest) (s : Store) :
    (CreatePOSTransaction fails now r s).1.isSuccess = true ↔
      r.tenantHeader ≠ "" ∧ ∃ req, r.body = some req ∧ req.Items ≠ [] ∧ req.Payments ≠ [] ∧
        ∀ step : SaleStep, step.reachable req.Items.length req.Payments.length →
          fails step = false := by
  constructor
  · intro h
    rcases hres : CreatePOSTransaction fails now r s with ⟨reply, s'⟩
    rw [hres] at h
    cases reply with
    | failure code msg => cases h
    | success code out =>
      obtain ⟨req, _, _, hne, hb, hi, hp, hsteps, _⟩ :=
        sale_success_inv fails now r s s' code out hres
      exact ⟨hne, req, hb, hi, hp, hsteps⟩
  · rintro ⟨hne, req, hb, hi, hp, hsteps⟩
    obtain ⟨_, _, _, _, h⟩ := sale_succeeds fails now r s req hne hb hi hp hsteps
    rw [h]
    rfl

/-- C7, as stated, fails: a sale of 100.00 with no change, paid with a single
payment of 1.00, is committed with 201: its header and its payment row are
in the store afterwards. -/
theorem sale_underpaid_is_committed :
    paymentsTotal (sampleSaleBody [samplePayment "cash" none 100]).Payments <
      (sampleSaleBody [samplePayment "cash" none 100]).TotalAmount -
        (sampleSaleBody [samplePayment "cash" none 100]).ChangeAmount ∧
    (CreatePOSTransaction noFault 5 (sampleSale [samplePayment "cash" none 100])
      sampleSaleStore).1 =
      .success 201 { transaction_id := 1, transaction_number := "TXN-0",
                     transaction_date := 5, created_at := 5, updated_at := 5 } ∧
    (CreatePOSTransaction noFault 5 (sampleSale [samplePayment "cash" none 100])
      sampleSaleStore).2.pos_transactions.map (·.TotalAmount) = [10000] ∧
    (CreatePOSTransaction noFault 5 (sampleSale [samplePayment "cash" none 100])
      sampleSaleStore).2.pos_payments.map (·.Amount) = [100] := by
  decide

/-- C7, amended: `CreatePOSTransaction` never rejects a request for its
payment total.  Whatever the amounts of its payments (also when they sum to
less than `total_amount - change_amount`), a request with a tenant header, at
least one item and at least one payment is answered 201 and its header is
committed, provided no database call it reaches fails. -/
theorem sale_not_rejected_for_payment_total (fails : SaleStep → Bool) (now : Time)
    (r : Request CreatePOSTransactionRequest) (s : Store)
    (req : CreatePOSTransactionRequest) (hten : r.tenantHeader ≠ "")
    (hbody : r.body = some req) (hitems : req.Items ≠ []) (hpays : req.Payments ≠ [])
    (hok : ∀ step : SaleStep, step.reachable req.Items.length req.Payments.length →
      fails step = false) :
    (CreatePOSTransaction fails now r s).1 =
      .success 201
        { transaction_id := nextID (s.pos_transactions.map (·.ID)),
          transaction_number := "TXN-" ++ toString (unix now),
          transaction_date := now, created_at := now, updated_at := now } ∧
    ∃ hdr : POSTransaction,
      (CreatePOSTransaction fails now r s).2.pos_transactions = s.pos_transactions ++ [hdr] ∧
      hdr.TenantID = r.tenantHeader ∧ hdr.SessionID = req.SessionID ∧
      hdr.TotalAmount = req.TotalAmount ∧ hdr.ChangeAmount = req.ChangeAmount := by
  obtain ⟨tx2, tx3, h2, h3, h⟩ := sale_succeeds fails now r s req hten hbody hitems hpays hok
  rw [h]
  refine ⟨rfl, ?_⟩
  obtain ⟨hdr, hh, hrest⟩ := insertHeader_transactions s r.tenantHeader
    ("TXN-" ++ toString (unix now)) req (getUserID r).1 now
  refine ⟨hdr, ?_, hrest⟩
  show tx3.pos_transactions = _
  rw [(insertPayments_some fails _ now req.Payments 0 _ _ h3).2.2.2.2.2.2.1,
    (insertItems_some fails _ now req.Items 0 _ _ h2).2.2.2.2.2.2.1, hh]

/-- Instance of the amended C7: a sale of 100.00 paid with 1.00. -/
theorem sale_not_rejected_for_payment_total_witness :
    (CreatePOSTransaction noFault 5 (sampleSale [samplePayment "cash" none 100])
      sampleSaleStore).1 =
      .success 201
        { transaction_id := nextID (sampleSaleStore.pos_transactions.map (·.ID)),
          transaction_number := "TXN-" ++ toString (unix 5),
          transaction_date := 5, created_at := 5, updated_at := 5 } ∧
    ∃ hdr : POSTransaction,
      (CreatePOSTransaction noFault 5 (sampleSale [samplePayment "cash" none 100])
        sampleSaleStore).2.pos_transactions = sampleSaleStore.pos_transactions ++ [hdr] ∧
      hdr.TenantID = (sampleSale [samplePayment "cash" none 100]).tenantHeader ∧
      hdr.SessionID = (sampleSaleBody [samplePayment "cash" none 100]).SessionID ∧
      hdr.TotalAmount = (sampleSaleBody [samplePayment "cash" none 100]).TotalAmount ∧
      hdr.ChangeAmount = (sampleSaleBody [samplePayment "cash" none 100]).ChangeAmount :=
  sale_not_rejected_for_payment_total noFault 5 (sampleSale [samplePayment "cash" none 100])
    sampleSaleStore (sampleSaleBody [samplePayment "cash" none 100]) (by decide) rfl
    (by decide) (by decide) (fun _ _ => rfl)

/-- C8, as stated, fails: a sale of 100.00 paid with gift card `GC-1`, which
holds 20.00, is committed with 201; afterwards the card still holds 20.00 and
is active, and the gift-card ledger has no row. -/
theorem sale_gift_card_payment_not_debited :
    sampleCard.CurrentBalance <
      (samplePayment "gift_card" (some "GC-1") 10000).Amount ∧
    (CreatePOSTransaction noFault 5
      (sampleSale [samplePayment "gift_card" (some "GC-1") 10000]) sampleSaleStore).1 =
      .success 201 { transaction_id := 1, transaction_number := "TXN-0",
                     transaction_date := 5, created_at := 5, updated_at := 5 } ∧
    (CreatePOSTransaction noFault 5
      (sampleSale [samplePayment "gift_card" (some "GC-1") 10000]) sampleSaleStore).2.gift_cards
      = [sampleCard] ∧
    (CreatePOSTransaction noFault 5
      (sampleSale [samplePayment "gift_card" (some "GC-1") 10000])
      sampleSaleStore).2.gift_card_transactions = [] ∧
    (CreatePOSTransaction noFault 5
      (sampleSale [samplePayment "gift_card" (some "GC-1") 10000])
      sampleSaleStore).2.pos_payments.map (fun p => (p.PaymentMethod, p.Amount))
      = [("gift_card", 10000)] := by
  decide

/-- C8, amended: `CreatePOSTransaction` records a stored-value payment as a
payment row only.  For every request, whatever the methods and amounts of
its payments and whether it succeeds or fails, the gift cards and the
gift-card ledger are the same afterwards as before; and whether the request
succeeds does not depend on the store, so not on the balance of any
instrument. -/
theorem sale_leaves_gift_cards_untouched (fails : SaleStep → Bool) (now : Time)
    (r : Request CreatePOSTransactionRequest) (s : Store) :
    (CreatePOSTransaction fails now r s).2.gift_cards = s.gift_cards ∧
    (CreatePOSTransaction fails now r s).2.gift_card_transactions
      = s.gift_card_transactions ∧
    ∀ s₂ : Store, (CreatePOSTransaction fails now r s₂).1.isSuccess
      = (CreatePOSTransaction fails now r s).1.isSuccess := by
  refine ⟨?_, ?_, ?_⟩
  · rcases hres : CreatePOSTransaction fails now r s with ⟨reply, s'⟩
    cases reply with
    | failure code msg => rw [sale_failure_inv fails now r s s' code msg hres]
    | success code out =>
      obtain ⟨req, tx2, tx3, _, _, _, _, _, hi, hp, _, rfl⟩ :=
        sale_success_inv fails now r s s' code out hres
      show tx3.gift_cards = _
      rw [(insertPayments_some fails _ now req.Payments 0 _ _ hp).2.1,
        (insertItems_some fails _ now req.Items 0 _ _ hi).2.1]
      rfl
  · rcases hres : CreatePOSTransaction fails now r s with ⟨reply, s'⟩
    cases reply with
    | failure code msg => rw [sale_failure_inv fails now r s s' code msg hres]
    | success code out =>
      obtain ⟨req, tx2, tx3, _, _, _, _, _, hi, hp, _, rfl⟩ :=
        sale_success_inv fails now r s s' code out hres
      show tx3.gift_card_transactions = _
      rw [(insertPayments_some fails _ now req.Payments 0 _ _ hp).2.2.1,
        (insertItems_some fails _ now req.Items 0 _ _ hi).2.2.1]
      rfl
  · intro s₂
    rw [Bool.eq_iff_iff, sale_success_iff, sale_success_iff]

/-! ## C9: closing a shift -/

/-- When the register of the request already has a session of the request's
tenant with status `active`, and the active-session query answers,
`CreatePOSSession` answers 409 and the store is the store before: no session
row and no cash-drawer row is added and the existing session is unchanged. -/
theorem createSession_conflict (fails : CreateSessionStep → Bool) (now : Time)
    (r : Request CreatePOSSessionRequest) (s : Store) (req : CreatePOSSessionRequest)
    (active : POSSession) (hten : r.tenantHeader ≠ "") (hbody : r.body = some req)
    (hmem : active ∈ s.pos_sessions) (htenant : active.TenantID = r.tenantHeader)
    (hreg : active.RegisterID = req.RegisterID) (hact : active.Status = "active")
    (hcheck : fails .checkActive = false) :
    CreatePOSSession fails now r s =
      (.failure 409 "There is already an active session for this register", s) := by
  have hsome : (findActiveSession s r.tenantHeader req.RegisterID).isSome = true := by
    unfold findActiveSession
    rw [List.find?_isSome]
    exact ⟨active, hmem, by simp [htenant, hreg, hact]⟩
  simp [CreatePOSSession, getTenantID, hten, hbody, hcheck, hsome]

/-- Register 1 of tenant `t1` already has the active session 1 and the
active-session query answers. -/
theorem createSession_conflict_witness :
    CreatePOSSession noFault 9 (sampleCreateSession 1 5000) sampleSaleStore =
      (.failure 409 "There is already an active session for this register",
        sampleSaleStore) :=
  createSession_conflict noFault 9 (sampleCreateSession 1 5000) sampleSaleStore
    { RegisterID := 1, OpeningAmount := 5000, Notes := none } (sampleSession 1)
    (by decide) rfl (by decide) rfl rfl rfl rfl

/-- C10 on the code: register 1 of tenant `t1` has the active session 1, and
the active-session query of a request to open register 1 returns a database
error.  `CreatePOSSession` answers 201, not 409: a session row and a
cash-drawer row are added and register 1 then has two active sessions.  When
the query answers, the same request is refused with 409 and nothing is
written. -/
theorem createSession_query_error_opens_second_session :
    sampleSession 1 ∈ sampleSaleStore.pos_sessions ∧
    activeSessionCount sampleSaleStore "t1" 1 = 1 ∧
    (CreatePOSSession failCheckActive 9000000000 (sampleCreateSession 1 5000)
      sampleSaleStore).1 =
      .success 201 { session_id := 3, session_number := "SES-9",
                     session_start := 9000000000, created_at := 9000000000,
                     updated_at := 9000000000 } ∧
    (CreatePOSSession failCheckActive 9000000000 (sampleCreateSession 1 5000)
      sampleSaleStore).2.pos_sessions.map (fun x => (x.ID, x.RegisterID, x.Status))
      = [(1, 1, "active"), (2, 2, "active"), (3, 1, "active")] ∧
    (CreatePOSSession failCheckActive 9000000000 (sampleCreateSession 1 5000)
      sampleSaleStore).2.pos_cash_drawers.map (fun d => (d.ID, d.RegisterID, d.Status))
      = [(1, 1, "open")] ∧
    activeSessionCount
      (CreatePOSSession failCheckActive 9000000000 (sampleCreateSession 1 5000)
        sampleSaleStore).2 "t1" 1 = 2 ∧
    CreatePOSSession noFault 9000000000 (sampleCreateSession 1 5000) sampleSaleStore =
      (.failure 409 "There is already an active session for this register",
        sampleSaleStore) := by
  decide

/-! ## Shared lemmas: committed redemptions -/

/-- With a tenant header, a decoded body, the card found with enough balance
and no failing database call, `RedeemGiftCard` answers 200 and commits
`redeemedStore`. -/
theorem redeem_succeeds (fails : RedeemStep → Bool) (now : Time)
    (r : Request RedeemGiftCardRequest) (s : Store) (req : RedeemGiftCardRequest)
    (card : GiftCard) (hten : r.tenantHeader ≠ "") (hbody : r.body = some req)
    (hfind : findActiveCard s r.tenantHeader req.CardNumber = some card)
    (hge : ¬ card.CurrentBalance < req.Amount) (hok : ∀ step, fails step = false) :
    RedeemGiftCard fails now r s =
      (.success 200 { redeemed_amount := req.Amount,
                      remaining_balance := card.CurrentBalance - req.Amount },
       redeemedStore s r.tenantHeader card req (getUserID r).1 now) := by
  by_cases hz : card.CurrentBalance - req.Amount ≤ 0
  · simp [RedeemGiftCard, commitRedeem, redeemedStore, getTenantID, hten, hbody, hfind, hge,
      hok, hz]
  · simp [RedeemGiftCard, commitRedeem, redeemedStore, getTenantID, hten, hbody, hfind, hge,
      hok, hz]

/-! ## C13 to C16: depletion, atomicity and the sign of the amount -/

/-- C13: after a successful `RedeemGiftCard` the redeemed card (the active
row the request names) holds the remaining balance the reply reports, its
status is `used` if and only if that balance is zero, and it is still
`active` when the balance is positive; every card with another id is
unchanged.  Redeeming 20.00 from a card holding 20.00 leaves balance 0.00
and status `used`. -/
theorem redeem_status_used_iff_zero (fails : RedeemStep → Bool) (now : Time)
    (r : Request RedeemGiftCardRequest) (s s' : Store) (code : Nat)
    (out : RedeemGiftCardResult)
    (h : RedeemGiftCard fails now r s = (.success code out, s')) :
    ∃ req card, r.body = some req ∧
      findActiveCard s r.tenantHeader req.CardNumber = some card ∧
      card ∈ s.gift_cards ∧ card.Status = "active" ∧
      List.Forall₂ (fun old new : GiftCard =>
          (old.ID = card.ID → old.Status = "active" →
            new.CurrentBalance = out.remaining_balance ∧
            (new.Status = "used" ↔ new.CurrentBalance = 0) ∧
            (0 < new.CurrentBalance → new.Status = "active")) ∧
          (old.ID ≠ card.ID → new = old))
        s.gift_cards s'.gift_cards ∧
      (card.CurrentBalance = 2000 → req.Amount = 2000 →
        out.remaining_balance = 0 ∧
        ∀ c ∈ s'.gift_cards, c.ID = card.ID → c.CurrentBalance = 0 ∧ c.Status = "used") := by
  obtain ⟨req, card, _, hb, hf, hge, _, _, rfl, rfl⟩ :=
    redeem_success_inv fails now r s s' code out h
  obtain ⟨hmem, _, _, hact⟩ := findActiveCard_some s _ _ card hf
  have hnn : (0 : Int) ≤ card.CurrentBalance - req.Amount :=
    Int.sub_nonneg_of_le (Int.not_lt.mp hge)
  refine ⟨req, card, hb, hf, hmem, hact, ?_, ?_⟩
  · rw [redeemedStore_cards, List.forall₂_map_right_iff]
    apply List.forall₂_same.2
    intro x _
    by_cases hx : x.ID = card.ID
    · simp only [hx, if_true, ne_eq, not_true_eq_false, false_implies, and_true,
        true_implies]
      intro hxa
      by_cases hz : card.CurrentBalance - req.Amount ≤ 0
      · have h0 : card.CurrentBalance - req.Amount = 0 := Int.le_antisymm hz hnn
        simp [h0]
      · have hne : card.CurrentBalance - req.Amount ≠ 0 := fun h0 => hz (by simp [h0])
        simp [hz, hxa, hne]
    · simp [hx]
  · intro h1 h2
    refine ⟨by simp [h1, h2], ?_⟩
    intro c hc hid
    rw [redeemedStore_cards] at hc
    obtain ⟨c0, _, rfl⟩ := List.mem_map.1 hc
    by_cases h0 : c0.ID = card.ID
    · simp [h0, h1, h2]
    · simp [h0] at hid

/-- Instance of C13: redeeming 20.00 from the card `GC-1`, which holds
20.00. -/
theorem redeem_status_used_iff_zero_witness :
    ∃ req card, (sampleRedeem 2000).body = some req ∧
      findActiveCard sampleCardStore (sampleRedeem 2000).tenantHeader req.CardNumber
        = some card ∧
      card ∈ sampleCardStore.gift_cards ∧ card.Status = "active" ∧
      List.Forall₂ (fun old new : GiftCard =>
          (old.ID = card.ID → old.Status = "active" →
            new.CurrentBalance = 0 ∧
            (new.Status = "used" ↔ new.CurrentBalance = 0) ∧
            (0 < new.CurrentBalance → new.Status = "active")) ∧
          (old.ID ≠ card.ID → new = old))
        sampleCardStore.gift_cards
        (RedeemGiftCard noFault 5 (sampleRedeem 2000) sampleCardStore).2.gift_cards ∧
      (card.CurrentBalance = 2000 → req.Amount = 2000 →
        (0 : Money) = 0 ∧
        ∀ c ∈ (RedeemGiftCard noFault 5 (sampleRedeem 2000) sampleCardStore).2.gift_cards,
          c.ID = card.ID → c.CurrentBalance = 0 ∧ c.Status = "used") :=
  redeem_status_used_iff_zero noFault 5 (sampleRedeem 2000) sampleCardStore _ 200
    { redeemed_amount := 2000, remaining_balance := 0 } (by decide)

/-- C14, as stated, fails: after 20.00 is redeemed from the card `GC-1`,
which held 20.00, a further attempt to redeem 5.00 from it is answered 404
"Gift card not found or inactive", which is not the 400 "Insufficient gift
card balance" an active card with too small a balance gets; the store is
unchanged by the attempt. -/
theorem redeem_after_depletion_is_not_insufficient :
    (RedeemGiftCard noFault 5 (sampleRedeem 2000) sampleCardStore).1 =
      .success 200 { redeemed_amount := 2000, remaining_balance := 0 } ∧
    RedeemGiftCard noFault 6 (sampleRedeem 500)
        (RedeemGiftCard noFault 5 (sampleRedeem 2000) sampleCardStore).2 =
      (.failure 404 "Gift card not found or inactive",
        (RedeemGiftCard noFault 5 (sampleRedeem 2000) sampleCardStore).2) ∧
    (RedeemGiftCard noFault 6 (sampleRedeem 500)
        (RedeemGiftCard noFault 5 (sampleRedeem 2000) sampleCardStore).2).1 ≠
      .failure 400 "Insufficient gift card balance" ∧
    (RedeemGiftCard noFault 6 (sampleRedeem 2001) sampleCardStore).1 =
      .failure 400 "Insufficient gift card balance" := by
  decide

/-- C14, amended: once a successful redemption has brought the balance of a
card to zero (the card number naming no other active card of the tenant),
every later `RedeemGiftCard` attempt on that card number, whatever its
amount, is answered 404 "Gift card not found or inactive" (the transaction
having begun and the lookup having run) and leaves the store, hence the card
and the ledger, unchanged. -/
theorem redeem_after_depletion_not_found (fails₁ : RedeemStep → Bool) (now₁ : Time)
    (r₁ : Request RedeemGiftCardRequest) (s s₁ : Store) (code : Nat)
    (out : RedeemGiftCardResult) (req₁ : RedeemGiftCardRequest) (card : GiftCard)
    (h₁ : RedeemGiftCard fails₁ now₁ r₁ s = (.success code out, s₁))
    (hzero : out.remaining_balance = 0) (hbody₁ : r₁.body = some req₁)
    (hfind : findActiveCard s r₁.tenantHeader req₁.CardNumber = some card)
    (hone : ∀ c ∈ s.gift_cards, c.TenantID = r₁.tenantHeader →
      c.CardNumber = req₁.CardNumber → c.Status = "active" → c.ID = card.ID)
    (fails₂ : RedeemStep → Bool) (now₂ : Time) (r₂ : Request RedeemGiftCardRequest)
    (req₂ : RedeemGiftCardRequest) (hten₂ : r₂.tenantHeader = r₁.tenantHeader)
    (hbody₂ : r₂.body = some req₂) (hnum : req₂.CardNumber = req₁.CardNumber)
    (hbegin : fails₂ .beginTx = false) (hsel : fails₂ .selectCard = false) :
    RedeemGiftCard fails₂ now₂ r₂ s₁ =
      (.failure 404 "Gift card not found or inactive", s₁) := by
  obtain ⟨req, card', hne, hb, hf, _, _, _, rfl, rfl⟩ :=
    redeem_success_inv fails₁ now₁ r₁ s s₁ code out h₁
  rw [hbody₁] at hb
  cases hb
  rw [hfind] at hf
  cases hf
  simp only at hzero
  have hnone : findActiveCard
      (redeemedStore s r₁.tenantHeader card req₁ (getUserID r₁).1 now₁)
      r₁.tenantHeader req₁.CardNumber = none := by
    unfold findActiveCard
    rw [redeemedStore_cards, List.find?_eq_none]
    intro x hx
    obtain ⟨c, hc, rfl⟩ := List.mem_map.1 hx
    by_cases hid : c.ID = card.ID
    · simp [hid, hzero]
    · simp only [hid, if_false, Bool.and_eq_true, decide_eq_true_eq, not_and]
      intro ht hs
      exact absurd (hone c hc ht.1 ht.2 hs) hid
  simp [RedeemGiftCard, getTenantID, hne, hbody₂, hbegin, hsel, hten₂, hnum, hnone]

/-- Instance of the amended C14: 20.00 is redeemed from the card `GC-1`,
which held 20.00, then 5.00 is asked from it. -/
theorem redeem_after_depletion_not_found_witness :
    RedeemGiftCard noFault 6 (sampleRedeem 500)
        (RedeemGiftCard noFault 5 (sampleRedeem 2000) sampleCardStore).2 =
      (.failure 404 "Gift card not found or inactive",
        (RedeemGiftCard noFault 5 (sampleRedeem 2000) sampleCardStore).2) :=
  redeem_after_depletion_not_found noFault 5 (sampleRedeem 2000) sampleCardStore _ 200
    { redeemed_amount := 2000, remaining_balance := 0 }
    { CardNumber := "GC-1", Amount := 2000, TransactionID := none, Notes := none }
    sampleCard (by decide) rfl rfl (by decide) (by decide) noFault 6 (sampleRedeem 500)
    { CardNumber := "GC-1", Amount := 500, TransactionID := none, Notes := none }
    rfl rfl rfl rfl rfl

/-- C15: `RedeemGiftCard` is atomic.  When a database call of it fails (the
balance update, the ledger insert, the commit, the begin or the lookup; or
the status update, which runs when the new balance is not positive), the
handler does not succeed and the store afterwards is the store before: the
card's balance and status and the ledger are as they were. -/
theorem redeem_atomic (fails : RedeemStep → Bool) (now : Time)
    (r : Request RedeemGiftCardRequest) (s : Store) (step : RedeemStep)
    (hfail : fails step = true)
    (hreach : step = .updateStatus → ∀ req card, r.body = some req →
      findActiveCard s r.tenantHeader req.CardNumber = some card →
      card.CurrentBalance - req.Amount ≤ 0) :
    (RedeemGiftCard fails now r s).1.isSuccess = false ∧
    (RedeemGiftCard fails now r s).2 = s := by
  rcases hres : RedeemGiftCard fails now r s with ⟨reply, s'⟩
  cases reply with
  | failure code msg => exact ⟨rfl, redeem_failure_inv fails now r s s' code msg hres⟩
  | success code out =>
    obtain ⟨req, card, _, hb, hf, _, hsteps, _⟩ :=
      redeem_success_inv fails now r s s' code out hres
    obtain ⟨hst, hpos⟩ := hsteps step hfail
    exact absurd (hreach hst req card hb hf) hpos

/-- Instance of C15: the commit of a redemption of 5.00 fails. -/
theorem redeem_atomic_witness :
    (RedeemGiftCard (fun st => decide (st = RedeemStep.commit)) 5 (sampleRedeem 500)
      sampleCardStore).1.isSuccess = false ∧
    (RedeemGiftCard (fun st => decide (st = RedeemStep.commit)) 5 (sampleRedeem 500)
      sampleCardStore).2 = sampleCardStore :=
  redeem_atomic (fun st => decide (st = RedeemStep.commit)) 5 (sampleRedeem 500)
    sampleCardStore RedeemStep.commit (by decide) (fun h => by cases h)

/-- C16, as stated, fails: a request to redeem -5.00 from the active card
`GC-1`, which holds 20.00, is committed with 200: a ledger row of amount
-5.00 is written and the card then holds 25.00. -/
theorem redeem_negative_amount_commits :
    (RedeemGiftCard noFault 5 (sampleRedeem (-500)) sampleCardStore).1 =
      .success 200 { redeemed_amount := -500, remaining_balance := 2500 } ∧
    (RedeemGiftCard noFault 5 (sampleRedeem (-500)) sampleCardStore).2.gift_cards.map
      (fun c => (c.CardNumber, c.CurrentBalance, c.Status)) = [("GC-1", 2500, "active")] ∧
    (RedeemGiftCard noFault 5 (sampleRedeem (-500))
      sampleCardStore).2.gift_card_transactions.map
      (fun t => (t.TransactionType, t.Amount, t.BalanceBefore, t.BalanceAfter))
      = [("redeem", -500, 2000, 2500)] := by
  decide

/-- C16, amended: `RedeemGiftCard` does not look at the sign of the amount.
For the active card the request names, holding a non-negative balance, and a
requested amount that is zero or negative, it answers 200 when no database
call fails: one ledger row of type `redeem` with that amount is written, and
the card's `current_balance` becomes the remaining balance the reply
reports, which is not less than the balance before. -/
theorem redeem_nonpositive_amount_is_committed (fails : RedeemStep → Bool) (now : Time)
    (r : Request RedeemGiftCardRequest) (s : Store) (req : RedeemGiftCardRequest)
    (card : GiftCard) (hten : r.tenantHeader ≠ "") (hbody : r.body = some req)
    (hfind : findActiveCard s r.tenantHeader req.CardNumber = some card)
    (hbal : 0 ≤ card.CurrentBalance) (hamt : req.Amount ≤ 0)
    (hok : ∀ step, fails step = false) :
    ∃ out : RedeemGiftCardResult,
      (RedeemGiftCard fails now r s).1 = .success 200 out ∧
      out.redeemed_amount = req.Amount ∧
      card.CurrentBalance ≤ out.remaining_balance ∧
      (∃ row : GiftCardTransaction,
        (RedeemGiftCard fails now r s).2.gift_card_transactions
          = s.gift_card_transactions ++ [row] ∧
        row.GiftCardID = card.ID ∧ row.TransactionType = "redeem" ∧
        row.Amount = req.Amount ∧ row.BalanceBefore = card.CurrentBalance ∧
        row.BalanceAfter = out.remaining_balance) ∧
      (∃ c ∈ (RedeemGiftCard fails now r s).2.gift_cards, c.ID = card.ID) ∧
      (∀ c ∈ (RedeemGiftCard fails now r s).2.gift_cards, c.ID = card.ID →
        c.CurrentBalance = out.remaining_balance ∧
        card.CurrentBalance ≤ c.CurrentBalance) := by
  have hge : ¬ card.CurrentBalance < req.Amount :=
    Int.not_lt.mpr (Int.le_trans hamt hbal)
  rw [redeem_succeeds fails now r s req card hten hbody hfind hge hok]
  have hmem := (findActiveCard_some s _ _ card hfind).1
  have hb := redeemedStore_balance s r.tenantHeader card req (getUserID r).1 now hmem
  have hle : card.CurrentBalance ≤ card.CurrentBalance - req.Amount :=
    (le_sub_self_iff _).2 hamt
  refine ⟨_, rfl, rfl, hle,
    ⟨_, redeemedStore_ledger s _ card req _ now, rfl, rfl, rfl, rfl, rfl⟩, hb.1, ?_⟩
  intro c hc hid
  have := hb.2 c hc hid
  refine ⟨this, ?_⟩
  rw [this]
  exact hle

/-- Instance of the amended C16: -5.00 is asked from the card `GC-1`, which
holds 20.00. -/
theorem redeem_nonpositive_amount_is_committed_witness :
    ∃ out : RedeemGiftCardResult,
      (RedeemGiftCard noFault 5 (sampleRedeem (-500)) sampleCardStore).1 = .success 200 out ∧
      out.redeemed_amount = -500 ∧
      sampleCard.CurrentBalance ≤ out.remaining_balance ∧
      (∃ row : GiftCardTransaction,
        (RedeemGiftCard noFault 5 (sampleRedeem (-500))
          sampleCardStore).2.gift_card_transactions
          = sampleCardStore.gift_card_transactions ++ [row] ∧
        row.GiftCardID = sampleCard.ID ∧ row.TransactionType = "redeem" ∧
        row.Amount = -500 ∧ row.BalanceBefore = sampleCard.CurrentBalance ∧
        row.BalanceAfter = out.remaining_balance) ∧
      (∃ c ∈ (RedeemGiftCard noFault 5 (sampleRedeem (-500)) sampleCardStore).2.gift_cards,
        c.ID = sampleCard.ID) ∧
      (∀ c ∈ (RedeemGiftCard noFault 5 (sampleRedeem (-500)) sampleCardStore).2.gift_cards,
        c.ID = sampleCard.ID →
        c.CurrentBalance = out.remaining_balance ∧
        sampleCard.CurrentBalance ≤ c.CurrentBalance) :=
  redeem_nonpositive_amount_is_committed noFault 5 (sampleRedeem (-500)) sampleCardStore
    { CardNumber := "GC-1", Amount := -500, TransactionID := none, Notes := none }
    sampleCard (by decide) rfl (by decide) (by decide) (by decide) (fun _ => rfl)

/-! ## C17 and C18: shift totals and the validation of a sale -/

/-- The reply of `ClosePOSShift` is decided by the request, the failing
database calls and the `register_shifts` table alone. -/
theorem closeShift_reply_congr (fails : CloseShiftStep → Bool) (now : Time)
    (r : Request ClosePOSShiftRequest) (s s₂ : Store)
    (h : s₂.register_shifts = s.register_shifts) :
    (ClosePOSShift fails now r s₂).1 = (ClosePOSShift fails now r s).1 := by
  unfold ClosePOSShift findOpenShift
  rw [h]
  repeat' split
  all_goals rfl

/-- A sale leaves the `register_shifts` table as it was. -/
theorem sale_register_shifts (fails : SaleStep → Bool) (now : Time)
    (r : Request CreatePOSTransactionRequest) (s : Store) :
    (CreatePOSTransaction fails now r s).2.register_shifts = s.register_shifts := by
  rcases hres : CreatePOSTransaction fails now r s with ⟨reply, s'⟩
  cases reply with
  | failure code msg => rw [sale_failure_inv fails now r s s' code msg hres]
  | success code out =>
    obtain ⟨req, tx2, tx3, _, _, _, _, _, hi, hp, _, rfl⟩ :=
      sale_success_inv fails now r s s' code out hres
    show tx3.register_shifts = _
    rw [(insertPayments_some fails _ now req.Payments 0 _ _ hp).2.2.2.2.2.1,
      (insertItems_some fails _ now req.Items 0 _ _ hi).2.2.2.2.2.1]
    rfl

/-- C17, as stated, fails: session 1 is attached to shift 1, whose total
sales are 250.00 over 4 transactions with opening balance 100.00.  A sale of
100.00 on session 1 is committed (the session totals move from 100.00 over 3
to 200.00 over 4), the shift still shows 250.00 over 4 transactions, and
closing the shift afterwards with 340.00 gives the expected balance 350.00,
without the sale. -/
theorem sale_does_not_update_shift_totals :
    sampleShiftSaleStore.pos_sessions.map (fun x => (x.ID, x.ShiftID, x.TotalSales))
      = [(1, some 1, 10000)] ∧
    (CreatePOSTransaction noFault 5 (sampleSale [samplePayment "cash" none 10000])
      sampleShiftSaleStore).1.isSuccess = true ∧
    (CreatePOSTransaction noFault 5 (sampleSale [samplePayment "cash" none 10000])
      sampleShiftSaleStore).2.pos_sessions.map
        (fun x => (x.ID, x.TotalSales, x.TotalTransactions)) = [(1, 20000, 4)] ∧
    (CreatePOSTransaction noFault 5 (sampleSale [samplePayment "cash" none 10000])
      sampleShiftSaleStore).2.register_shifts.map
        (fun x => (x.ID, x.TotalSales, x.TransactionCount)) = [(1, 25000, 4)] ∧
    (ClosePOSShift noFault 9 (sampleCloseShift 34000)
      (CreatePOSTransaction noFault 5 (sampleSale [samplePayment "cash" none 10000])
        sampleShiftSaleStore).2).1 =
      .success 200 { closing_amount := 34000, expected_balance := 35000,
                     variance := -1000 } := by
  decide

/-- C17, amended: `CreatePOSTransaction` never writes to a shift.  For every
request, also one whose session is attached to a shift and whether it
succeeds or fails, every row of `register_shifts` (its `total_sales` and
`transaction_count` included) is the same afterwards as before, so a later
`ClosePOSShift` answers exactly as it would have before the sale: its
expected balance is computed from the `total_sales` the shift row already
held. -/
theorem sale_leaves_shifts_untouched (fails : SaleStep → Bool) (now : Time)
    (r : Request CreatePOSTransactionRequest) (s : Store) :
    (CreatePOSTransaction fails now r s).2.register_shifts = s.register_shifts ∧
    ∀ (fails₂ : CloseShiftStep → Bool) (now₂ : Time) (r₂ : Request ClosePOSShiftRequest),
      (ClosePOSShift fails₂ now₂ r₂ (CreatePOSTransaction fails now r s).2).1 =
        (ClosePOSShift fails₂ now₂ r₂ s).1 :=
  ⟨sale_register_shifts fails now r s, fun fails₂ now₂ r₂ =>
    closeShift_reply_congr fails₂ now₂ r₂ s _ (sale_register_shifts fails now r s)⟩

/-- C18: a sale request whose item list is empty, or whose payment list is
empty, is answered 400 ("At least one item is required", or "At least one
payment is required" when it has items) whichever database calls would
fail, and the store is left as it was. -/
theorem sale_requires_items_and_payments (fails : SaleStep → Bool) (now : Time)
    (r : Request CreatePOSTransactionRequest) (s : Store)
    (req : CreatePOSTransactionRequest) (hten : r.tenantHeader ≠ "")
    (hbody : r.body = some req) (hempty : req.Items = [] ∨ req.Payments = []) :
    (CreatePOSTransaction fails now r s).2 = s ∧
    ∃ msg, (CreatePOSTransaction fails now r s).1 = .failure 400 msg ∧
      (req.Items = [] → msg = "At least one item is required") ∧
      (req.Items ≠ [] → msg = "At least one payment is required") := by
  by_cases hi : req.Items = []
  · have : CreatePOSTransaction fails now r s =
        (.failure 400 "At least one item is required", s) := by
      simp [CreatePOSTransaction, getTenantID, hten, hbody, hi]
    rw [this]
    exact ⟨rfl, _, rfl, fun _ => rfl, fun h => absurd hi h⟩
  · have hp : req.Payments = [] := hempty.resolve_left hi
    have : CreatePOSTransaction fails now r s =
        (.failure 400 "At least one payment is required", s) := by
      simp [CreatePOSTransaction, getTenantID, hten, hbody, hi, hp]
    rw [this]
    exact ⟨rfl, _, rfl, fun h => absurd h hi, fun _ => rfl⟩

/-- Instance of C18: a sale with one item and no payment. -/
theorem sale_requires_items_and_payments_witness :
    (CreatePOSTransaction noFault 5 (sampleSale []) sampleSaleStore).2 = sampleSaleStore ∧
    ∃ msg, (CreatePOSTransaction noFault 5 (sampleSale []) sampleSaleStore).1
        = .failure 400 msg ∧
      ((sampleSaleBody []).Items = [] → msg = "At least one item is required") ∧
      ((sampleSaleBody []).Items ≠ [] → msg = "At least one payment is required") :=
  sale_requires_items_and_payments noFault 5 (sampleSale []) sampleSaleStore
    (sampleSaleBody []) (by decide) rfl (Or.inr rfl)

/-! ## Shared lemmas: closing a session -/

/-- A failed `ClosePOSSession` leaves the store as it was. -/
theorem closeSession_failure_inv (fails : CloseSessionStep → Bool) (now : Time)
    (r : Request ClosePOSSessionRequest) (s s' : Store) (code : Nat) (msg : String)
    (h : ClosePOSSession fails now r s = (.failure code msg, s')) : s' = s := by
  unfold ClosePOSSession finishCloseSession at h
  repeat' split at h
  all_goals first
    | (simp at h; done)
    | (simp at h; exact h.2.symm)

/-- A successful `ClosePOSSession` found its session and committed
`closedSessionStore`. -/
theorem closeSession_success_inv (fails : CloseSessionStep → Bool) (now : Time)
    (r : Request ClosePOSSessionRequest) (s s' : Store) (code : Nat)
    (out : ClosePOSSessionResult)
    (h : ClosePOSSession fails now r s = (.success code out, s')) :
    ∃ sessionID req session, r.urlID = some sessionID ∧ r.body = some req ∧
      findActiveSessionByID s sessionID r.tenantHeader = some session ∧
      s' = closedSessionStore s session sessionID req (getUserID r).1 now := by
  unfold ClosePOSSession at h
  split at h
  · simp at h
  · rename_i tenantID hten
    obtain ⟨rfl, _⟩ := getTenantID_ok r _ hten
    split at h
    · simp at h
    · rename_i sessionID hid
      split at h
      · simp at h
      · rename_i req hbody
        dsimp only at h
        split at h
        · simp at h
        · split at h
          · simp at h
          · split at h
            · simp at h
            · rename_i session hfind
              refine ⟨sessionID, req, session, hid, hbody, hfind, ?_⟩
              unfold closedSessionStore
              split at h
              · rename_i drawerID hd
                split at h
                · simp at h
                · unfold finishCloseSession at h
                  split at h
                  · simp at h
                  · dsimp only at h
                    split at h
                    · simp at h
                    · simp only [Prod.mk.injEq] at h
                      rw [← h.2]
              · rename_i hd
                unfold finishCloseSession at h
                split at h
                · simp at h
                · dsimp only at h
                  split at h
                  · simp at h
                  · simp only [Prod.mk.injEq] at h
                    rw [← h.2]

/-- What `findActiveSessionByID` returns is an active session of the store
with the id and the tenant asked for. -/
theorem findActiveSessionByID_some (s : Store) (id : Int) (t : String)
    (session : POSSession) (h : findActiveSessionByID s id t = some session) :
    session ∈ s.pos_sessions ∧ session.ID = id ∧ session.TenantID = t ∧
      session.Status = "active" := by
  unfold findActiveSessionByID at h
  have hm := List.mem_of_find?_eq_some h
  have hp := List.find?_some h
  simp only [Bool.and_eq_true, decide_eq_true_eq] at hp
  exact ⟨hm, hp.1.1, hp.1.2, hp.2⟩

/-! ## C19 and C20: closing a session -/

/-- C19: when no session of the store has the id of the request, the
request's tenant and status `active` (the session is absent, belongs to
another tenant or is already closed), `ClosePOSSession` answers 404 "Active
session not found" (the transaction having begun and the lookup having run)
and the store, hence every session and cash drawer, is as before. -/
theorem closeSession_not_found (fails : CloseSessionStep → Bool) (now : Time)
    (r : Request ClosePOSSessionRequest) (s : Store) (sessionID : Int)
    (req : ClosePOSSessionRequest) (hten : r.tenantHeader ≠ "")
    (hid : r.urlID = some sessionID) (hbody : r.body = some req)
    (hnone : ∀ x ∈ s.pos_sessions, x.ID = sessionID → x.TenantID = r.tenantHeader →
      x.Status ≠ "active")
    (hbegin : fails .beginTx = false) (hsel : fails .selectSession = false) :
    ClosePOSSession fails now r s = (.failure 404 "Active session not found", s) := by
  have hfind : findActiveSessionByID s sessionID r.tenantHeader = none := by
    unfold findActiveSessionByID
    rw [List.find?_eq_none]
    intro x hx
    simp only [Bool.and_eq_true, decide_eq_true_eq, not_and]
    intro h1 h2
    exact hnone x hx h1.1 h1.2 h2
  simp [ClosePOSSession, getTenantID, hten, hid, hbody, hbegin, hsel, hfind]

/-- Instance of C19: session 1 is closed, then closed again. -/
theorem closeSession_not_found_witness :
    ClosePOSSession noFault 10 (sampleCloseSession 1 12000)
        (ClosePOSSession noFault 9 (sampleCloseSession 1 12000) sampleDrawerStore).2 =
      (.failure 404 "Active session not found",
        (ClosePOSSession noFault 9 (sampleCloseSession 1 12000) sampleDrawerStore).2) :=
  closeSession_not_found noFault 10 (sampleCloseSession 1 12000) _ 1
    { ClosingAmount := 12000, Notes := none } (by decide) rfl rfl (by decide) rfl rfl

/-- C20: for the active session of the request's tenant that the request
names, `ClosePOSSession` answers 200 when no database call fails.  Afterwards
every session with that id has status `closed`, `session_end` stamped with
the clock reading and `closing_amount` recorded (and the notes of the
request), its other columns, `total_sales`, `total_refunds` and
`total_transactions` among them, as before; the cash drawer the session is
linked to, when there is one, has status `closed`, the same
`closing_amount`, and `closed_by` and `closed_at` set; every other session
and every other drawer is unchanged. -/
theorem closeSession_closes_session_and_drawer (fails : CloseSessionStep → Bool)
    (now : Time) (r : Request ClosePOSSessionRequest) (s : Store) (sessionID : Int)
    (req : ClosePOSSessionRequest) (session : POSSession)
    (hten : r.tenantHeader ≠ "") (hid : r.urlID = some sessionID)
    (hbody : r.body = some req)
    (hfind : findActiveSessionByID s sessionID r.tenantHeader = some session)
    (hok : ∀ step, fails step = false) :
    (ClosePOSSession fails now r s).1 =
      .success 200 { message := "POS session closed successfully" } ∧
    session ∈ s.pos_sessions ∧ session.ID = sessionID ∧
    List.Forall₂ (fun old new : POSSession =>
        (old.ID = sessionID →
          new = { old with ClosingAmount := some req.ClosingAmount,
                           SessionEnd := some now, Status := "closed",
                           Notes := req.Notes } ∧
          new.TotalSales = old.TotalSales ∧ new.TotalRefunds = old.TotalRefunds ∧
          new.TotalTransactions = old.TotalTransactions) ∧
        (old.ID ≠ sessionID → new = old))
      s.pos_sessions (ClosePOSSession fails now r s).2.pos_sessions ∧
    List.Forall₂ (fun old new : POSCashDrawer =>
        (session.CashDrawerID = some old.ID →
          new = { old with ClosingAmount := some req.ClosingAmount, Status := "closed",
                           ClosedBy := some (getUserID r).1, ClosedAt := some now }) ∧
        (session.CashDrawerID ≠ some old.ID → new = old))
      s.pos_cash_drawers (ClosePOSSession fails now r s).2.pos_cash_drawers := by
  obtain ⟨hmem, hsid, _, _⟩ := findActiveSessionByID_some s sessionID _ session hfind
  have hrun : ClosePOSSession fails now r s =
      (.success 200 { message := "POS session closed successfully" },
        closedSessionStore s session sessionID req (getUserID r).1 now) := by
    cases hd : session.CashDrawerID <;>
      simp [ClosePOSSession, finishCloseSession, closedSessionStore, getTenantID, hten, hid,
        hbody, hfind, hok, hd]
  rw [hrun]
  refine ⟨rfl, hmem, hsid, ?_, ?_⟩
  · have hs : (closedSessionStore s session sessionID req (getUserID r).1 now).pos_sessions
        = s.pos_sessions.map (fun x =>
            if x.ID = sessionID then
              { x with ClosingAmount := some req.ClosingAmount, SessionEnd := some now,
                       Status := "closed", Notes := req.Notes }
            else x) := by
      cases hd : session.CashDrawerID <;>
        simp [closedSessionStore, closeSessionRows, closeDrawerRows, hd]
    rw [hs, List.forall₂_map_right_iff]
    apply List.forall₂_same.2
    intro x _
    by_cases hx : x.ID = sessionID <;> simp [hx]
  · cases hd : session.CashDrawerID with
    | none =>
      have hdr : (closedSessionStore s session sessionID req (getUserID r).1
          now).pos_cash_drawers = s.pos_cash_drawers := by
        simp [closedSessionStore, closeSessionRows, hd]
      rw [hdr]
      apply List.forall₂_same.2
      intro x _
      simp
    | some drawerID =>
      have hdr : (closedSessionStore s session sessionID req (getUserID r).1
          now).pos_cash_drawers = s.pos_cash_drawers.map (fun d =>
            if d.ID = drawerID then
              { d with ClosingAmount := some req.ClosingAmount, Status := "closed",
                       ClosedBy := some (getUserID r).1, ClosedAt := some now }
            else d) := by
        simp [closedSessionStore, closeSessionRows, closeDrawerRows, hd]
      rw [hdr, List.forall₂_map_right_iff]
      apply List.forall₂_same.2
      intro x _
      by_cases hx : x.ID = drawerID
      · simp [hx]
      · have hx' : ¬ drawerID = x.ID := fun h => hx h.symm
        simp [hx, hx']

/-- Instance of C20: session 1, linked to the cash drawer 5, is closed with
120.00. -/
theorem closeSession_closes_session_and_drawer_witness :
    (ClosePOSSession noFault 9 (sampleCloseSession 1 12000) sampleDrawerStore).1 =
      .success 200 { message := "POS session closed successfully" } ∧
    ({ sampleSession 1 with CashDrawerID := some 5 } : POSSession)
      ∈ sampleDrawerStore.pos_sessions ∧
    ({ sampleSession 1 with CashDrawerID := some 5 } : POSSession).ID = 1 ∧
    List.Forall₂ (fun old new : POSSession =>
        (old.ID = 1 →
          new = { old with ClosingAmount := some 12000,
                           SessionEnd := some 9, Status := "closed",
                           Notes := none } ∧
          new.TotalSales = old.TotalSales ∧ new.TotalRefunds = old.TotalRefunds ∧
          new.TotalTransactions = old.TotalTransactions) ∧
        (old.ID ≠ 1 → new = old))
      sampleDrawerStore.pos_sessions
      (ClosePOSSession noFault 9 (sampleCloseSession 1 12000) sampleDrawerStore).2.pos_sessions ∧
    List.Forall₂ (fun old new : POSCashDrawer =>
        (({ sampleSession 1 with CashDrawerID := some 5 } : POSSession).CashDrawerID
            = some old.ID →
          new = { old with ClosingAmount := some 12000, Status := "closed",
                           ClosedBy := some (getUserID (sampleCloseSession 1 12000)).1,
                           ClosedAt := some 9 }) ∧
        (({ sampleSession 1 with CashDrawerID := some 5 } : POSSession).CashDrawerID
            ≠ some old.ID → new = old))
      sampleDrawerStore.pos_cash_drawers
      (ClosePOSSession noFault 9 (sampleCloseSession 1 12000)
        sampleDrawerStore).2.pos_cash_drawers :=
  closeSession_closes_session_and_drawer noFault 9 (sampleCloseSession 1 12000)
    sampleDrawerStore 1 { ClosingAmount := 12000, Notes := none }
    { sampleSession 1 with CashDrawerID := some 5 } (by decide) rfl rfl (by decide)
    (fun _ => rfl)

/-! ## Shared lemmas: opening a session -/

/-- `CreatePOSSession` is its check, then its transaction on the same store. -/
theorem createSession_check_write (fails : CreateSessionStep → Bool) (now : Time)
    (r : Request CreatePOSSessionRequest) (s : Store) :
    CreatePOSSession fails now r s =
      createSessionAfterCheck fails now r (createSessionCheck fails r s) s := by
  unfold CreatePOSSession createSessionCheck createSessionAfterCheck
  cases getTenantID r with
  | error e => rfl
  | ok t =>
    cases r.body with
    | none => rfl
    | some req =>
      dsimp only
      split <;> rfl

/-- A request that passes the check found no active session on its register,
unless the query itself returned an error. -/
theorem createSessionCheck_ok (fails : CreateSessionStep → Bool)
    (r : Request CreatePOSSessionRequest) (s : Store) (t : String)
    (req : CreatePOSSessionRequest) (h : createSessionCheck fails r s = .ok (t, req)) :
    fails .checkActive = true ∨ findActiveSession s t req.RegisterID = none := by
  unfold createSessionCheck at h
  split at h
  · cases h
  · split at h
    · cases h
    · split at h
      · cases h
      · rename_i hnot
        simp only [Except.ok.injEq, Prod.mk.injEq] at h
        obtain ⟨rfl, rfl⟩ := h
        by_cases hc : fails .checkActive = true
        · exact Or.inl hc
        · right
          have hc' : fails .checkActive = false := by simpa using hc
          have : ¬ (findActiveSession s _ _).isSome = true := fun hs => hnot ⟨hc', hs⟩
          simpa using this

/-- The transaction of `CreatePOSSession` keeps the store, or commits the new
session, or commits the new session linked to its new cash drawer. -/
theorem createSessionWrite_cases (fails : CreateSessionStep → Bool) (now : Time)
    (r : Request CreatePOSSessionRequest) (t : String) (req : CreatePOSSessionRequest)
    (s : Store) :
    (createSessionWrite fails now r t req s).2 = s ∨
    (createSessionWrite fails now r t req s).2 =
      insertSession s t req (getUserID r).1 ("SES-" ++ toString (unix now)) now ∨
    (createSessionWrite fails now r t req s).2 =
      linkDrawer
        (insertDrawer (insertSession s t req (getUserID r).1 ("SES-" ++ toString (unix now))
          now) t req (getUserID r).1 now)
        (nextID ((insertSession s t req (getUserID r).1 ("SES-" ++ toString (unix now))
          now).pos_cash_drawers.map (·.ID)))
        (nextID (s.pos_sessions.map (·.ID))) := by
  unfold createSessionWrite commitSession
  dsimp only
  repeat' split
  all_goals first
    | exact Or.inl rfl
    | exact Or.inr (Or.inl rfl)
    | exact Or.inr (Or.inr rfl)

theorem activeSessionCount_insertSession (s : Store) (t : String)
    (req : CreatePOSSessionRequest) (u : Int) (n : String) (now : Time) (t' : String)
    (g' : Int) :
    activeSessionCount (insertSession s t req u n now) t' g' =
      activeSessionCount s t' g' + (if t = t' ∧ req.RegisterID = g' then 1 else 0) := by
  simp only [activeSessionCount, insertSession, List.countP_append, List.countP_singleton,
    defaultSessionStatus]
  by_cases h1 : t = t' <;> by_cases h2 : req.RegisterID = g' <;> simp [h1, h2]

theorem activeSessionCount_linkDrawer (s : Store) (d sid : Int) (t : String) (g : Int) :
    activeSessionCount (linkDrawer s d sid) t g = activeSessionCount s t g := by
  simp only [activeSessionCount, linkDrawer, List.countP_map]
  apply List.countP_congr
  intro x _
  by_cases hx : x.ID = sid <;> simp [hx]

theorem activeSessionCount_closeSessionRows (s : Store) (sid : Int) (c : Money)
    (now : Time) (notes : Option String) (t : String) (g : Int) :
    activeSessionCount (closeSessionRows s sid c now notes) t g ≤ activeSessionCount s t g := by
  simp only [activeSessionCount, closeSessionRows, List.countP_map]
  apply List.countP_mono_left
  intro x _
  by_cases hx : x.ID = sid <;> simp [hx]

theorem findActiveSession_none_count (s : Store) (t : String) (g : Int)
    (h : findActiveSession s t g = none) : activeSessionCount s t g = 0 := by
  unfold findActiveSession at h
  rw [List.find?_eq_none] at h
  unfold activeSessionCount
  rw [List.countP_eq_zero]
  exact h

/-- One `CreatePOSSession` whose active-session query runs keeps at most one
active session on every register of every tenant. -/
theorem createSession_preserves_one_active (fails : CreateSessionStep → Bool) (now : Time)
    (r : Request CreatePOSSessionRequest) (s : Store)
    (hcheck : fails .checkActive = false)
    (hs : ∀ t g, activeSessionCount s t g ≤ 1) :
    ∀ t g, activeSessionCount (CreatePOSSession fails now r s).2 t g ≤ 1 := by
  intro t g
  rw [createSession_check_write]
  cases hc : createSessionCheck fails r s with
  | error reply => exact hs t g
  | ok p =>
    obtain ⟨tenantID, req⟩ := p
    have hnone : findActiveSession s tenantID req.RegisterID = none := by
      rcases createSessionCheck_ok fails r s tenantID req hc with h | h
      · rw [hcheck] at h; cases h
      · exact h
    have h0 := findActiveSession_none_count s tenantID req.RegisterID hnone
    have hins : activeSessionCount
        (insertSession s tenantID req (getUserID r).1 ("SES-" ++ toString (unix now)) now)
        t g ≤ 1 := by
      rw [activeSessionCount_insertSession]
      by_cases h : tenantID = t ∧ req.RegisterID = g
      · obtain ⟨rfl, rfl⟩ := h
        simp [h0]
      · simp only [h, if_false, Nat.add_zero]
        exact hs t g
    simp only [createSessionAfterCheck]
    rcases createSessionWrite_cases fails now r tenantID req s with h | h | h
    · rw [h]; exact hs t g
    · rw [h]; exact hins
    · rw [h, activeSessionCount_linkDrawer]
      exact hins

/-- One `ClosePOSSession` keeps at most one active session on every register
of every tenant. -/
theorem closeSession_preserves_one_active (fails : CloseSessionStep → Bool) (now : Time)
    (r : Request ClosePOSSessionRequest) (s : Store)
    (hs : ∀ t g, activeSessionCount s t g ≤ 1) :
    ∀ t g, activeSessionCount (ClosePOSSession fails now r s).2 t g ≤ 1 := by
  intro t g
  rcases hres : ClosePOSSession fails now r s with ⟨reply, s'⟩
  cases reply with
  | failure code msg =>
    rw [closeSession_failure_inv fails now r s s' code msg hres]
    exact hs t g
  | success code out =>
    obtain ⟨sessionID, req, session, _, _, _, rfl⟩ :=
      closeSession_success_inv fails now r s s' code out hres
    refine Nat.le_trans ?_ (hs t g)
    unfold closedSessionStore
    refine Nat.le_trans (activeSessionCount_closeSessionRows _ _ _ _ _ t g) ?_
    cases session.CashDrawerID <;> exact Nat.le_refl _

/-! ## C11 and C12: one active session per register -/

/-- In every state reached from the empty store by a series of
`CreatePOSSession` and `ClosePOSSession` requests run one after another in
which the active-session query of each create request answers (whichever
other database calls fail), every register of every tenant has at most one
session with status `active`. -/
theorem sessions_at_most_one_active (calls : List SessionCall)
    (hcalls : ∀ call ∈ calls, call.checkRuns) :
    ∀ t g, activeSessionCount (runSessionCalls Store.empty calls) t g ≤ 1 := by
  have gen : ∀ (cs : List SessionCall) (s : Store),
      (∀ call ∈ cs, call.checkRuns) →
      (∀ t g, activeSessionCount s t g ≤ 1) →
      ∀ t g, activeSessionCount (runSessionCalls s cs) t g ≤ 1 := by
    intro cs
    induction cs with
    | nil => intro s _ hs; exact hs
    | cons call rest ih =>
      intro s hcs hs
      have hrest : ∀ c ∈ rest, c.checkRuns := fun x hx => hcs x (List.mem_cons_of_mem _ hx)
      have hcall := hcs call (List.mem_cons_self _ _)
      apply ih (call.run s) hrest
      cases call with
      | create fails now r => exact createSession_preserves_one_active fails now r s hcall hs
      | close fails now r => exact closeSession_preserves_one_active fails now r s hs
  exact gen calls Store.empty hcalls (fun _ _ => Nat.zero_le _)

/-- The active-session query runs in every request of `sampleSessionCalls`. -/
theorem sampleSessionCalls_checkRuns : ∀ call ∈ sampleSessionCalls, call.checkRuns := by
  intro call hcall
  simp only [sampleSessionCalls, List.mem_cons, List.mem_singleton, List.not_mem_nil,
    or_false] at hcall
  rcases hcall with rfl | rfl | rfl | rfl
  · rfl
  · rfl
  · trivial
  · rfl

/-- Register 1 is opened, opened again (refused), its session closed, and
opened again, every active-session query answering; the first session is
closed and the second is the only active one. -/
theorem sessions_at_most_one_active_witness :
    (∀ call ∈ sampleSessionCalls, call.checkRuns) ∧
    (runSessionCalls Store.empty sampleSessionCalls).pos_sessions.map
      (fun x => (x.ID, x.RegisterID, x.Status)) = [(1, 1, "closed"), (2, 1, "active")] ∧
    ∀ t g, activeSessionCount (runSessionCalls Store.empty sampleSessionCalls) t g ≤ 1 :=
  ⟨sampleSessionCalls_checkRuns, by decide,
    sessions_at_most_one_active sampleSessionCalls sampleSessionCalls_checkRuns⟩

/-- C11 on the code: from the empty store, two requests of tenant `t1` to
open register 1 are run one after another; the first is answered 201, the
active-session query of the second returns a database error and it is
answered 201 as well.  Register 1 then has two sessions with status
`active`. -/
theorem sessions_two_active_after_query_error :
    (CreatePOSSession noFault 1000000000 (sampleCreateSession 1 5000)
      Store.empty).1.isSuccess = true ∧
    (CreatePOSSession failCheckActive 2000000000 (sampleCreateSession 1 0)
      (CreatePOSSession noFault 1000000000 (sampleCreateSession 1 5000)
        Store.empty).2).1.isSuccess = true ∧
    (runSessionCalls Store.empty sampleSessionCallsQueryError).pos_sessions.map
      (fun x => (x.ID, x.TenantID, x.RegisterID, x.Status))
      = [(1, "t1", 1, "active"), (2, "t1", 1, "active")] ∧
    activeSessionCount (runSessionCalls Store.empty sampleSessionCallsQueryError) "t1" 1
      = 2 ∧
    ¬ activeSessionCount (runSessionCalls Store.empty sampleSessionCallsQueryError) "t1" 1
      ≤ 1 := by
  decide

/-- C12 on the code: register 3 of tenant `t1` has no active session.  Two
`CreatePOSSession` requests for it run concurrently in the order check of
A, check of B, transaction of A, transaction of B.  Both are answered 201
and register 3 then has two active sessions; run one after another, the
second request is answered 409. -/
theorem createSession_race_two_succeed :
    activeSessionCount sampleSaleStore "t1" 3 = 0 ∧
    (createSessionsInterleaved noFault noFault 1000000000 1000000001
      (sampleCreateSession 3 0) (sampleCreateSession 3 0) sampleSaleStore).1.isSuccess = true ∧
    (createSessionsInterleaved noFault noFault 1000000000 1000000001
      (sampleCreateSession 3 0) (sampleCreateSession 3 0) sampleSaleStore).2.1.isSuccess
      = true ∧
    activeSessionCount
      (createSessionsInterleaved noFault noFault 1000000000 1000000001
        (sampleCreateSession 3 0) (sampleCreateSession 3 0) sampleSaleStore).2.2 "t1" 3 = 2 ∧
    (CreatePOSSession noFault 1000000001 (sampleCreateSession 3 0)
      (CreatePOSSession noFault 1000000000 (sampleCreateSession 3 0) sampleSaleStore).2).1 =
      .failure 409 "There is already an active session for this register" := by
  decide

/-! ## C21: closing a shift that is not open -/

/-- A successful `ClosePOSShift` found its shift and committed the update
of the rows with its id. -/
theorem closeShift_success_inv (fails : CloseShiftStep → Bool) (now : Time)
    (r : Request ClosePOSShiftRequest) (s s' : Store) (code : Nat)
    (out : ClosePOSShiftResult)
    (h : ClosePOSShift fails now r s = (.success code out, s')) :
    ∃ shiftID req shift, r.urlID = some shiftID ∧ r.body = some req ∧
      findOpenShift s shiftID r.tenantHeader = some shift ∧
      s' = closeShiftRows s shiftID req.ClosingAmount
        (shift.OpeningBalance + shift.TotalSales)
        (req.ClosingAmount - (shift.OpeningBalance + shift.TotalSales)) now req.Notes := by
  unfold ClosePOSShift at h
  split at h
  · simp at h
  · rename_i tenantID hten
    obtain ⟨rfl, _⟩ := getTenantID_ok r _ hten
    split at h
    · simp at h
    · rename_i shiftID hid
      split at h
      · simp at h
      · rename_i req hbody
        split at h
        · simp at h
        · split at h
          · simp at h
          · split at h
            · simp at h
            · rename_i shift hfind
              dsimp only at h
              split at h
              · simp at h
              · split at h
                · simp at h
                · simp only [Prod.mk.injEq] at h
                  exact ⟨shiftID, req, shift, hid, hbody, hfind, h.2.symm⟩

/-- After `closeShiftRows` no shift with the closed id is open. -/
theorem closeShiftRows_none_open (s : Store) (shiftID : Int) (c e v : Money) (now : Time)
    (notes : Option String) :
    ∀ x ∈ (closeShiftRows s shiftID c e v now notes).register_shifts,
      x.ID = shiftID → x.Status ≠ "open" := by
  intro x hx hid
  obtain ⟨x0, _, rfl⟩ := List.mem_map.1 hx
  by_cases h0 : x0.ID = shiftID
  · simp [h0]
  · simp [h0] at hid

/-- C21: when no shift of the store has the id of the request, the request's
tenant and status `open` (the shift is absent, belongs to another tenant or
is not open), and in particular when the store is the result of a successful
`ClosePOSShift` of that shift id, `ClosePOSShift` answers 404 "Active shift
not found" (the transaction having begun and the lookup having run) and the
store is as before: every shift keeps its recorded closing balance, expected
balance and variance.  So closing the same shift twice succeeds once and
fails the second time. -/
theorem closeShift_not_found (fails : CloseShiftStep → Bool) (now : Time)
    (r : Request ClosePOSShiftRequest) (s : Store) (shiftID : Int)
    (req : ClosePOSShiftRequest) (hten : r.tenantHeader ≠ "")
    (hid : r.urlID = some shiftID) (hbody : r.body = some req)
    (hnone : (∀ x ∈ s.register_shifts, x.ID = shiftID → x.TenantID = r.tenantHeader →
        x.Status ≠ "open") ∨
      (∃ fails₀ now₀ r₀ s₀ code out,
        ClosePOSShift fails₀ now₀ r₀ s₀ = (.success code out, s) ∧ r₀.urlID = some shiftID))
    (hbegin : fails .beginTx = false) (hsel : fails .selectShift = false) :
    ClosePOSShift fails now r s = (.failure 404 "Active shift not found", s) := by
  have hno : ∀ x ∈ s.register_shifts, x.ID = shiftID → x.TenantID = r.tenantHeader →
      x.Status ≠ "open" := by
    rcases hnone with h | ⟨fails₀, now₀, r₀, s₀, code, out, h₀, hid₀⟩
    · exact h
    · obtain ⟨shiftID', req', shift, hid', _, _, rfl⟩ :=
        closeShift_success_inv fails₀ now₀ r₀ s₀ s code out h₀
      rw [hid₀] at hid'
      cases hid'
      intro x hx hxid _
      exact closeShiftRows_none_open s₀ shiftID _ _ _ now₀ req'.Notes x hx hxid
  have hfind : findOpenShift s shiftID r.tenantHeader = none := by
    unfold findOpenShift
    rw [List.find?_eq_none]
    intro x hx
    simp only [Bool.and_eq_true, decide_eq_true_eq, not_and]
    intro h1 h2
    exact hno x hx h1.1 h1.2 h2
  simp [ClosePOSShift, getTenantID, hten, hid, hbody, hbegin, hsel, hfind]

/-- Instance of C21: shift 1 is closed with 340.00, then closed again with
300.00; the second request is refused and the shift keeps closing balance
340.00, expected balance 350.00 and variance -10.00. -/
theorem closeShift_not_found_witness :
    (ClosePOSShift noFault 9 (sampleCloseShift 34000) sampleShiftStore).1.isSuccess = true ∧
    ClosePOSShift noFault 10 (sampleCloseShift 30000)
        (ClosePOSShift noFault 9 (sampleCloseShift 34000) sampleShiftStore).2 =
      (.failure 404 "Active shift not found",
        (ClosePOSShift noFault 9 (sampleCloseShift 34000) sampleShiftStore).2) ∧
    (ClosePOSShift noFault 9 (sampleCloseShift 34000) sampleShiftStore).2.register_shifts.map
      (fun x => (x.Status, x.ClosingBalance, x.ExpectedBalance, x.Variance))
      = [("closed", some 34000, some 35000, some (-1000))] :=
  ⟨by decide,
   closeShift_not_found noFault 10 (sampleCloseShift 30000) _ 1
    { ClosingAmount := 30000, Notes := none } (by decide) rfl rfl
    (Or.inr ⟨noFault, 9, sampleCloseShift 34000, sampleShiftStore, 200,
      { closing_amount := 34000, expected_balance := 35000, variance := -1000 },
      by decide, rfl⟩) rfl rfl,
   by decide⟩

/-! ## C22: the cash drawer of a new session -/

theorem foldl_max_ge_init (l : List Int) : ∀ a : Int, a ≤ l.foldl max a := by
  induction l with
  | nil => intro a; exact Int.le_refl a
  | cons y ys ih =>
    intro a
    exact Int.le_trans (Int.le_max_left a y) (ih (max a y))

theorem foldl_max_ge_mem (l : List Int) : ∀ (a x : Int), x ∈ l → x ≤ l.foldl max a := by
  induction l with
  | nil => intro a x hx; cases hx
  | cons y ys ih =>
    intro a x hx
    rcases List.mem_cons.1 hx with rfl | h
    · exact Int.le_trans (Int.le_max_right a x) (foldl_max_ge_init ys (max a x))
    · exact ih (max a y) x h

/-- The id given to a new row is not the id of a row of the table. -/
theorem nextID_fresh (ids : List Int) (x : Int) (hx : x ∈ ids) : x ≠ nextID ids := by
  have h := foldl_max_ge_mem ids 0 x hx
  unfold nextID
  omega

/-- A successful transaction of `CreatePOSSession` committed the new session,
with its new cash drawer linked when the opening amount is positive. -/
theorem createSessionWrite_success (fails : CreateSessionStep → Bool) (now : Time)
    (r : Request CreatePOSSessionRequest) (t : String) (req : CreatePOSSessionRequest)
    (s s' : Store) (code : Nat) (out : CreatePOSSessionResult)
    (h : createSessionWrite fails now r t req s = (.success code out, s')) :
    out.session_id = nextID (s.pos_sessions.map (·.ID)) ∧
    (0 < req.OpeningAmount →
      s' = linkDrawer
        (insertDrawer (insertSession s t req (getUserID r).1 ("SES-" ++ toString (unix now))
          now) t req (getUserID r).1 now)
        (nextID ((insertSession s t req (getUserID r).1 ("SES-" ++ toString (unix now))
          now).pos_cash_drawers.map (·.ID)))
        (nextID (s.pos_sessions.map (·.ID)))) ∧
    (¬ 0 < req.OpeningAmount →
      s' = insertSession s t req (getUserID r).1 ("SES-" ++ toString (unix now)) now) := by
  unfold createSessionWrite commitSession at h
  dsimp only at h
  split at h
  · simp at h
  · split at h
    · simp at h
    · split at h
      · rename_i hpos
        split at h
        · simp at h
        · split at h
          · simp at h
          · split at h
            · simp at h
            · simp only [Prod.mk.injEq, Reply.success.injEq] at h
              obtain ⟨⟨_, rfl⟩, rfl⟩ := h
              exact ⟨rfl, fun _ => rfl, fun hn => absurd hpos hn⟩
      · rename_i hpos
        split at h
        · simp at h
        · simp only [Prod.mk.injEq, Reply.success.injEq] at h
          obtain ⟨⟨_, rfl⟩, rfl⟩ := h
          exact ⟨rfl, fun hp => absurd hp hpos, fun _ => rfl⟩

/-- C22: a successful `CreatePOSSession` appends one session row, of the
request's tenant and register, whose id is the `session_id` of the reply.
When `opening_amount > 0` exactly one cash-drawer row is appended, for the
same tenant and register, with status `open`, the request's opening amount
and an id no earlier drawer has, and the new session's `cash_drawer_id` is
that id.  Otherwise the cash drawers are unchanged and the new session has
no `cash_drawer_id`.  The earlier sessions are unchanged. -/
theorem createSession_opens_drawer (fails : CreateSessionStep → Bool) (now : Time)
    (r : Request CreatePOSSessionRequest) (s s' : Store) (code : Nat)
    (out : CreatePOSSessionResult)
    (h : CreatePOSSession fails now r s = (.success code out, s')) :
    ∃ req session, r.body = some req ∧
      s'.pos_sessions = s.pos_sessions ++ [session] ∧
      session.ID = out.session_id ∧ session.TenantID = r.tenantHeader ∧
      session.RegisterID = req.RegisterID ∧
      (0 < req.OpeningAmount →
        ∃ drawer, s'.pos_cash_drawers = s.pos_cash_drawers ++ [drawer] ∧
          drawer.TenantID = r.tenantHeader ∧ drawer.RegisterID = req.RegisterID ∧
          drawer.Status = "open" ∧ drawer.OpeningAmount = req.OpeningAmount ∧
          (∀ d ∈ s.pos_cash_drawers, d.ID ≠ drawer.ID) ∧
          session.CashDrawerID = some drawer.ID) ∧
      (¬ 0 < req.OpeningAmount →
        s'.pos_cash_drawers = s.pos_cash_drawers ∧ session.CashDrawerID = none) := by
  rw [createSession_check_write] at h
  cases hc : createSessionCheck fails r s with
  | error reply =>
    rw [hc] at h
    simp only [createSessionAfterCheck, Prod.mk.injEq] at h
    obtain ⟨rfl, _⟩ := h
    unfold createSessionCheck at hc
    split at hc
    · cases hc
    · split at hc
      · cases hc
      · split at hc <;> cases hc
  | ok p =>
    obtain ⟨t, req⟩ := p
    rw [hc] at h
    simp only [createSessionAfterCheck] at h
    have hbody : r.body = some req ∧ t = r.tenantHeader := by
      unfold createSessionCheck at hc
      split at hc
      · cases hc
      · rename_i tenantID hten
        obtain ⟨rfl, _⟩ := getTenantID_ok r _ hten
        split at hc
        · cases hc
        · rename_i req' hb
          split at hc
          · cases hc
          · simp only [Except.ok.injEq, Prod.mk.injEq] at hc
            obtain ⟨rfl, rfl⟩ := hc
            exact ⟨hb, rfl⟩
    obtain ⟨hb, rfl⟩ := hbody
    obtain ⟨hsid, hpos, hneg⟩ := createSessionWrite_success fails now r _ req s s' code out h
    have hlink : ∀ d : Int, (s.pos_sessions.map (fun x =>
        if x.ID = nextID (s.pos_sessions.map (·.ID)) then
          { x with CashDrawerID := some d } else x)) = s.pos_sessions := by
      intro d
      conv => rhs; rw [← List.map_id s.pos_sessions]
      apply List.map_congr_left
      intro x hx
      have : x.ID ≠ nextID (s.pos_sessions.map (·.ID)) :=
        nextID_fresh _ _ (List.mem_map.2 ⟨x, hx, rfl⟩)
      simp [this]
    by_cases hp : 0 < req.OpeningAmount
    · have hs' := hpos hp
      subst hs'
      refine ⟨req,
        { ID := nextID (s.pos_sessions.map (·.ID)), TenantID := r.tenantHeader,
          RegisterID := req.RegisterID,
          CashDrawerID := some (nextID (s.pos_cash_drawers.map (·.ID))), ShiftID := none,
          UserID := (getUserID r).1, SessionNumber := "SES-" ++ toString (unix now),
          SessionStart := now, SessionEnd := none, OpeningAmount := req.OpeningAmount,
          ClosingAmount := none, TotalSales := 0, TotalRefunds := 0,
          TotalTransactions := 0, Status := defaultSessionStatus, Notes := req.Notes,
          CreatedAt := now, UpdatedAt := now },
        hb, ?_, ?_, ?_, ?_, ?_, fun hn => absurd hp hn⟩
      · simp only [linkDrawer, insertDrawer, insertSession, List.map_append, hlink,
          List.map_cons, List.map_nil, if_true]
      · exact hsid.symm
      · rfl
      · rfl
      · intro _
        refine ⟨_, rfl, rfl, rfl, rfl, rfl, ?_, rfl⟩
        intro d hd
        exact nextID_fresh _ _ (List.mem_map.2 ⟨d, hd, rfl⟩)
    · have hs' := hneg hp
      subst hs'
      exact ⟨req, _, hb, rfl, hsid.symm, rfl, rfl, fun h' => absurd h' hp,
        fun _ => ⟨rfl, rfl⟩⟩

/-- Instance of C22: a session is opened on the free register 3 with 50.00
in the drawer. -/
theorem createSession_opens_drawer_witness :
    ∃ req session, (sampleCreateSession 3 5000).body = some req ∧
      (CreatePOSSession noFault 9000000000 (sampleCreateSession 3 5000)
        sampleSaleStore).2.pos_sessions = sampleSaleStore.pos_sessions ++ [session] ∧
      session.ID = 3 ∧ session.TenantID = (sampleCreateSession 3 5000).tenantHeader ∧
      session.RegisterID = req.RegisterID ∧
      (0 < req.OpeningAmount →
        ∃ drawer, (CreatePOSSession noFault 9000000000 (sampleCreateSession 3 5000)
            sampleSaleStore).2.pos_cash_drawers = sampleSaleStore.pos_cash_drawers ++ [drawer] ∧
          drawer.TenantID = (sampleCreateSession 3 5000).tenantHeader ∧
          drawer.RegisterID = req.RegisterID ∧
          drawer.Status = "open" ∧ drawer.OpeningAmount = req.OpeningAmount ∧
          (∀ d ∈ sampleSaleStore.pos_cash_drawers, d.ID ≠ drawer.ID) ∧
          session.CashDrawerID = some drawer.ID) ∧
      (¬ 0 < req.OpeningAmount →
        (CreatePOSSession noFault 9000000000 (sampleCreateSession 3 5000)
          sampleSaleStore).2.pos_cash_drawers = sampleSaleStore.pos_cash_drawers ∧
        session.CashDrawerID = none) :=
  createSession_opens_drawer noFault 9000000000 (sampleCreateSession 3 5000) sampleSaleStore
    _ 201
    { session_id := 3, session_number := "SES-9", session_start := 9000000000,
      created_at := 9000000000, updated_at := 9000000000 } (by decide)

/-! ## C23 and C24: transaction numbers and item rows -/

/-- C23 on the code: two sales of tenant `t1` are committed one after the
other at clock readings 1.0 s and 1.999999999 s.  Both are answered 201, the
two header rows have different ids and the same transaction number
`TXN-1`. -/
theorem sale_transaction_numbers_collide :
    (CreatePOSTransaction noFault 1000000000 (sampleSale [samplePayment "cash" none 10000])
      sampleSaleStore).1 =
      .success 201 { transaction_id := 1, transaction_number := "TXN-1",
                     transaction_date := 1000000000, created_at := 1000000000,
                     updated_at := 1000000000 } ∧
    (CreatePOSTransaction noFault 1999999999 (sampleSale [samplePayment "cash" none 10000])
      (CreatePOSTransaction noFault 1000000000 (sampleSale [samplePayment "cash" none 10000])
        sampleSaleStore).2).1 =
      .success 201 { transaction_id := 2, transaction_number := "TXN-1",
                     transaction_date := 1999999999, created_at := 1999999999,
                     updated_at := 1999999999 } ∧
    (CreatePOSTransaction noFault 1999999999 (sampleSale [samplePayment "cash" none 10000])
      (CreatePOSTransaction noFault 1000000000 (sampleSale [samplePayment "cash" none 10000])
        sampleSaleStore).2).2.pos_transactions.map (fun x => (x.ID, x.TransactionNumber))
      = [(1, "TXN-1"), (2, "TXN-1")] := by
  decide

/-- The item loop appends one row per item of the list, in the order of the
list, each with the transaction id and the columns of its item. -/
theorem insertItems_rows (fails : SaleStep → Bool) (tid : Int) (now : Time)
    (items : List POSTransactionItem) :
    ∀ (i : Nat) (tx tx' : Store), insertItems fails tid now i items tx = some tx' →
      ∃ rows, tx'.pos_transaction_items = tx.pos_transaction_items ++ rows ∧
        List.Forall₂ (fun item row : POSTransactionItem =>
          row.TransactionID = tid ∧ row.ProductID = item.ProductID ∧
          row.Quantity = item.Quantity ∧ row.UnitPrice = item.UnitPrice ∧
          row.DiscountPercent = item.DiscountPercent ∧
          row.DiscountAmount = item.DiscountAmount ∧ row.TaxRate = item.TaxRate ∧
          row.TaxAmount = item.TaxAmount) items rows := by
  induction items with
  | nil =>
    intro i tx tx' h
    simp only [insertItems, Option.some.injEq] at h
    subst h
    exact ⟨[], by simp, List.Forall₂.nil⟩
  | cons item rest ih =>
    intro i tx tx' h
    simp only [insertItems] at h
    split at h
    · cases h
    · obtain ⟨rows, hrows, hall⟩ := ih (i + 1) _ tx' h
      refine ⟨{ ID := nextID (tx.pos_transaction_items.map (·.ID)), TransactionID := tid,
                ProductID := item.ProductID, Quantity := item.Quantity,
                UnitPrice := item.UnitPrice, DiscountPercent := item.DiscountPercent,
                DiscountAmount := item.DiscountAmount, TaxRate := item.TaxRate,
                TaxAmount := item.TaxAmount, LineTotal := 0, Notes := item.Notes,
                Metadata := "\x7b\x7d", CreatedAt := now } :: rows, ?_,
        List.Forall₂.cons ⟨rfl, rfl, rfl, rfl, rfl, rfl, rfl, rfl⟩ hall⟩
      rw [hrows]
      simp [insertItem]

/-- C24: a successful `CreatePOSTransaction` whose request has n items
appends exactly n rows to `pos_transaction_items`, in the order of the
request; each row belongs to the new transaction and carries the
`product_id`, `quantity`, `unit_price`, `discount_percent`,
`discount_amount`, `tax_rate` and `tax_amount` of its request item; the
earlier item rows are unchanged. -/
theorem sale_inserts_items_verbatim (fails : SaleStep → Bool) (now : Time)
    (r : Request CreatePOSTransactionRequest) (s s' : Store) (code : Nat)
    (out : CreatePOSTransactionResult)
    (h : CreatePOSTransaction fails now r s = (.success code out, s')) :
    ∃ req rows, r.body = some req ∧
      s'.pos_transaction_items = s.pos_transaction_items ++ rows ∧
      rows.length = req.Items.length ∧
      List.Forall₂ (fun item row : POSTransactionItem =>
        row.TransactionID = out.transaction_id ∧ row.ProductID = item.ProductID ∧
        row.Quantity = item.Quantity ∧ row.UnitPrice = item.UnitPrice ∧
        row.DiscountPercent = item.DiscountPercent ∧
        row.DiscountAmount = item.DiscountAmount ∧ row.TaxRate = item.TaxRate ∧
        row.TaxAmount = item.TaxAmount) req.Items rows := by
  obtain ⟨req, tx2, tx3, hten, hb, hitems, hpays, hsteps, hi, hp, _, rfl⟩ :=
    sale_success_inv fails now r s s' code out h
  obtain ⟨tx2', tx3', hi', hp', hrun⟩ :=
    sale_succeeds fails now r s req hten hb hitems hpays hsteps
  rw [hrun] at h
  simp only [Prod.mk.injEq, Reply.success.injEq] at h
  obtain ⟨⟨_, rfl⟩, _⟩ := h
  obtain ⟨rows, hrows, hall⟩ := insertItems_rows fails _ now req.Items 0 _ tx2 hi
  refine ⟨req, rows, hb, ?_, (List.Forall₂.length_eq hall).symm, hall⟩
  show tx3.pos_transaction_items = _
  rw [(insertPayments_some fails _ now req.Payments 0 _ _ hp).2.2.2.2.2.2.2, hrows]
  rfl

/-- Instance of C24: a sale with the one item `sampleItem`. -/
theorem sale_inserts_items_verbatim_witness :
    ∃ req rows, (sampleSale [samplePayment "cash" none 10000]).body = some req ∧
      (CreatePOSTransaction noFault 5 (sampleSale [samplePayment "cash" none 10000])
        sampleSaleStore).2.pos_transaction_items
        = sampleSaleStore.pos_transaction_items ++ rows ∧
      rows.length = req.Items.length ∧
      List.Forall₂ (fun item row : POSTransactionItem =>
        row.TransactionID = 1 ∧ row.ProductID = item.ProductID ∧
        row.Quantity = item.Quantity ∧ row.UnitPrice = item.UnitPrice ∧
        row.DiscountPercent = item.DiscountPercent ∧
        row.DiscountAmount = item.DiscountAmount ∧ row.TaxRate = item.TaxRate ∧
        row.TaxAmount = item.TaxAmount) req.Items rows :=
  sale_inserts_items_verbatim noFault 5 (sampleSale [samplePayment "cash" none 10000])
    sampleSaleStore _ 201
    { transaction_id := 1, transaction_number := "TXN-0", transaction_date := 5,
      created_at := 5, updated_at := 5 } (by decide)

/-! ## C27 and C29: the session a sale names -/

/-- C27, as stated, fails: a sale of tenant `t1` on session 1, which is
closed, and a sale on session 1 in a store that has no session, are both
answered 201 and their headers are committed; the closed session's totals
move from 100.00 over 3 transactions to 200.00 over 4. -/
theorem sale_on_closed_session_is_committed :
    sampleClosedSessionStore.pos_sessions.map (fun x => (x.ID, x.TenantID, x.Status))
      = [(1, "t1", "closed")] ∧
    (CreatePOSTransaction noFault 5 (sampleSale [samplePayment "cash" none 10000])
      sampleClosedSessionStore).1 =
      .success 201 { transaction_id := 1, transaction_number := "TXN-0",
                     transaction_date := 5, created_at := 5, updated_at := 5 } ∧
    (CreatePOSTransaction noFault 5 (sampleSale [samplePayment "cash" none 10000])
      sampleClosedSessionStore).2.pos_transactions.map (fun x => (x.ID, x.SessionID))
      = [(1, 1)] ∧
    (CreatePOSTransaction noFault 5 (sampleSale [samplePayment "cash" none 10000])
      sampleClosedSessionStore).2.pos_sessions.map
        (fun x => (x.Status, x.TotalSales, x.TotalTransactions)) = [("closed", 20000, 4)] ∧
    sampleCardStore.pos_sessions = [] ∧
    (CreatePOSTransaction noFault 5 (sampleSale [samplePayment "cash" none 10000])
      sampleCardStore).1.isSuccess = true ∧
    (CreatePOSTransaction noFault 5 (sampleSale [samplePayment "cash" none 10000])
      sampleCardStore).2.pos_transactions.map (fun x => (x.ID, x.SessionID)) = [(1, 1)] := by
  decide

/-- C27, amended: `CreatePOSTransaction` never looks the session up.  A
request with a tenant header, at least one item and at least one payment is
answered 201 and its header, carrying the request's `session_id`, is
committed when no database call it reaches fails, whatever the `session_id`
names.  The sessions of the request's tenant with that id have their totals
increased whatever their status; sessions with another id are unchanged, so
no session changes when the id names none. -/
theorem sale_commits_without_session_lookup (fails : SaleStep → Bool) (now : Time)
    (r : Request CreatePOSTransactionRequest) (s : Store)
    (req : CreatePOSTransactionRequest) (hten : r.tenantHeader ≠ "")
    (hbody : r.body = some req) (hitems : req.Items ≠ []) (hpays : req.Payments ≠ [])
    (hok : ∀ step : SaleStep, step.reachable req.Items.length req.Payments.length →
      fails step = false) :
    (CreatePOSTransaction fails now r s).1.isSuccess = true ∧
    (∃ hdr : POSTransaction,
      (CreatePOSTransaction fails now r s).2.pos_transactions = s.pos_transactions ++ [hdr] ∧
      hdr.SessionID = req.SessionID ∧ hdr.TenantID = r.tenantHeader) ∧
    List.Forall₂ (fun old new : POSSession =>
        (old.ID = req.SessionID → old.TenantID = r.tenantHeader →
          new = { old with TotalSales := old.TotalSales + req.TotalAmount,
                           TotalTransactions := old.TotalTransactions + 1 }) ∧
        (old.ID ≠ req.SessionID → new = old))
      s.pos_sessions (CreatePOSTransaction fails now r s).2.pos_sessions ∧
    ((∀ x ∈ s.pos_sessions, x.ID ≠ req.SessionID) →
      (CreatePOSTransaction fails now r s).2.pos_sessions = s.pos_sessions) := by
  obtain ⟨tx2, tx3, h2, h3, h⟩ := sale_succeeds fails now r s req hten hbody hitems hpays hok
  rw [h]
  have hs3 : tx3.pos_sessions = s.pos_sessions := by
    rw [(insertPayments_some fails _ now req.Payments 0 _ _ h3).2.2.2.1,
      (insertItems_some fails _ now req.Items 0 _ _ h2).2.2.2.1]
    rfl
  refine ⟨rfl, ?_, ?_, ?_⟩
  · obtain ⟨hdr, hh, ht, hsid, _⟩ := insertHeader_transactions s r.tenantHeader
      ("TXN-" ++ toString (unix now)) req (getUserID r).1 now
    refine ⟨hdr, ?_, hsid, ht⟩
    show tx3.pos_transactions = _
    rw [(insertPayments_some fails _ now req.Payments 0 _ _ h3).2.2.2.2.2.2.1,
      (insertItems_some fails _ now req.Items 0 _ _ h2).2.2.2.2.2.2.1, hh]
  · simp only [addSaleToSession, hs3]
    rw [List.forall₂_map_right_iff]
    apply List.forall₂_same.2
    intro x _
    by_cases hx : x.ID = req.SessionID <;> simp [hx]
  · intro hnone
    simp only [addSaleToSession, hs3]
    conv => rhs; rw [← List.map_id s.pos_sessions]
    apply List.map_congr_left
    intro x hx
    simp [hnone x hx]

/-- Instance of the amended C27: a sale on the closed session 1. -/
theorem sale_commits_without_session_lookup_witness :
    (CreatePOSTransaction noFault 5 (sampleSale [samplePayment "cash" none 10000])
      sampleClosedSessionStore).1.isSuccess = true ∧
    (∃ hdr : POSTransaction,
      (CreatePOSTransaction noFault 5 (sampleSale [samplePayment "cash" none 10000])
        sampleClosedSessionStore).2.pos_transactions
        = sampleClosedSessionStore.pos_transactions ++ [hdr] ∧
      hdr.SessionID = (sampleSaleBody [samplePayment "cash" none 10000]).SessionID ∧
      hdr.TenantID = (sampleSale [samplePayment "cash" none 10000]).tenantHeader) ∧
    List.Forall₂ (fun old new : POSSession =>
        (old.ID = (sampleSaleBody [samplePayment "cash" none 10000]).SessionID →
          old.TenantID = (sampleSale [samplePayment "cash" none 10000]).tenantHeader →
          new = { old with
            TotalSales := old.TotalSales
              + (sampleSaleBody [samplePayment "cash" none 10000]).TotalAmount,
            TotalTransactions := old.TotalTransactions + 1 }) ∧
        (old.ID ≠ (sampleSaleBody [samplePayment "cash" none 10000]).SessionID → new = old))
      sampleClosedSessionStore.pos_sessions
      (CreatePOSTransaction noFault 5 (sampleSale [samplePayment "cash" none 10000])
        sampleClosedSessionStore).2.pos_sessions ∧
    ((∀ x ∈ sampleClosedSessionStore.pos_sessions,
        x.ID ≠ (sampleSaleBody [samplePayment "cash" none 10000]).SessionID) →
      (CreatePOSTransaction noFault 5 (sampleSale [samplePayment "cash" none 10000])
        sampleClosedSessionStore).2.pos_sessions = sampleClosedSessionStore.pos_sessions) :=
  sale_commits_without_session_lookup noFault 5
    (sampleSale [samplePayment "cash" none 10000]) sampleClosedSessionStore
    (sampleSaleBody [samplePayment "cash" none 10000]) (by decide) rfl (by decide)
    (by decide) (fun _ _ => rfl)

/-- C29 on the code: the only session of the store, session 1, belongs to
tenant `t2` and shows 100.00 over 3 transactions.  A sale of 100.00 made
under tenant `t1` with `session_id` 1 is answered 201 and the session of
tenant `t2` then shows 200.00 over 4 transactions. -/
theorem sale_updates_other_tenant_session :
    (sampleSale [samplePayment "cash" none 10000]).tenantHeader = "t1" ∧
    sampleOtherTenantStore.pos_sessions.map
      (fun x => (x.ID, x.TenantID, x.TotalSales, x.TotalTransactions))
      = [(1, "t2", 10000, 3)] ∧
    (CreatePOSTransaction noFault 5 (sampleSale [samplePayment "cash" none 10000])
      sampleOtherTenantStore).1.isSuccess = true ∧
    (CreatePOSTransaction noFault 5 (sampleSale [samplePayment "cash" none 10000])
      sampleOtherTenantStore).2.pos_sessions.map
      (fun x => (x.ID, x.TenantID, x.TotalSales, x.TotalTransactions))
      = [(1, "t2", 20000, 4)] := by
  decide

/-! ## C25 and C26: validating a coupon -/

/-- What `findActiveCoupon` returns is an active coupon of the store with
the tenant and the code asked for. -/
theorem findActiveCoupon_some (s : Store) (t code : String) (c : CouponCode)
    (h : findActiveCoupon s t code = some c) :
    c ∈ s.coupon_codes ∧ c.TenantID = t ∧ c.CouponCode = code ∧ c.IsActive = true := by
  unfold findActiveCoupon at h
  have hm := List.mem_of_find?_eq_some h
  have hp := List.find?_some h
  simp only [Bool.and_eq_true, decide_eq_true_eq] at hp
  exact ⟨hm, hp.1.1, hp.1.2, hp.2⟩

/-- C25, as stated, fails: tenant `t1` has two active coupons with the code
`SAVE10`; at clock reading 150 the second is within its window (100 to 200)
and under its cap (2 uses of at most 3), so an active coupon with the code
that meets every condition exists, yet `ValidateCoupon` answers 400 "Coupon
has expired": its lookup returns the first of the two, whose window ended at
50. -/
theorem validateCoupon_duplicate_code_rejected :
    sampleCoupon ∈ sampleTwoCouponStore.coupon_codes ∧
    sampleCoupon.TenantID = (sampleValidate "SAVE10").tenantHeader ∧
    sampleCoupon.CouponCode = "SAVE10" ∧ sampleCoupon.IsActive = true ∧
    sampleCoupon.ValidFrom ≤ 150 ∧ sampleCoupon.ValidTo = some 200 ∧ (150 : Time) ≤ 200 ∧
    sampleCoupon.MaxUses = some 3 ∧ sampleCoupon.CurrentUses < 3 ∧
    findActiveCoupon sampleTwoCouponStore "t1" "SAVE10" = some sampleExpiredCoupon ∧
    ValidateCoupon noFault 150 (sampleValidate "SAVE10") sampleTwoCouponStore =
      (.failure 400 "Coupon has expired", sampleTwoCouponStore) := by
  decide

/-- C25, amended: with a tenant header, a decoded body and the lookup having
run, `ValidateCoupon` reports a coupon valid (200, `valid = true`, with the
id of the coupon) if and only if the coupon its lookup returns, the first
active coupon of the tenant with the given code, exists, the clock reading
lies in the closed window `[valid_from, valid_to]` of that coupon (no upper
bound when `valid_to` is absent; both boundary instants are valid) and its
`max_uses` is absent or `current_uses < max_uses`.  Otherwise it answers 404
when the tenant has no active coupon with the code, and 400 "not yet valid",
"expired" or "usage limit exceeded", in that order of precedence, for the
coupon the lookup returns.  When the tenant has at most one active coupon
with the code, it reports a coupon valid if and only if an active coupon of
the tenant with the code exists that is within its window and under its
cap. -/
theorem validateCoupon_valid_iff (fails : ValidateCouponStep → Bool) (now : Time)
    (r : Request ValidateCouponRequest) (s : Store) (req : ValidateCouponRequest)
    (hten : r.tenantHeader ≠ "") (hbody : r.body = some req)
    (hsel : fails .selectCoupon = false) :
    ((ValidateCoupon fails now r s).1.isSuccess = true ↔
      ∃ c, findActiveCoupon s r.tenantHeader req.CouponCode = some c ∧
        c ∈ s.coupon_codes ∧ c.TenantID = r.tenantHeader ∧
        c.CouponCode = req.CouponCode ∧ c.IsActive = true ∧
        c.ValidFrom ≤ now ∧ (∀ validTo, c.ValidTo = some validTo → now ≤ validTo) ∧
        (∀ maxUses, c.MaxUses = some maxUses → c.CurrentUses < maxUses)) ∧
    (∀ c, findActiveCoupon s r.tenantHeader req.CouponCode = some c →
      c.ValidFrom ≤ now → (∀ validTo, c.ValidTo = some validTo → now ≤ validTo) →
      (∀ maxUses, c.MaxUses = some maxUses → c.CurrentUses < maxUses) →
      (ValidateCoupon fails now r s).1 =
        .success 200 { valid := true, coupon_id := c.ID,
                       discount_rule_id := c.DiscountRuleID,
                       description := c.Description }) ∧
    (findActiveCoupon s r.tenantHeader req.CouponCode = none →
      (ValidateCoupon fails now r s).1 = .failure 404 "Invalid or inactive coupon") ∧
    (∀ c, findActiveCoupon s r.tenantHeader req.CouponCode = some c → now < c.ValidFrom →
      (ValidateCoupon fails now r s).1 = .failure 400 "Coupon is not yet valid") ∧
    (∀ c validTo, findActiveCoupon s r.tenantHeader req.CouponCode = some c →
      c.ValidFrom ≤ now → c.ValidTo = some validTo → validTo < now →
      (ValidateCoupon fails now r s).1 = .failure 400 "Coupon has expired") ∧
    (∀ c maxUses, findActiveCoupon s r.tenantHeader req.CouponCode = some c →
      c.ValidFrom ≤ now → (∀ validTo, c.ValidTo = some validTo → now ≤ validTo) →
      c.MaxUses = some maxUses → maxUses ≤ c.CurrentUses →
      (ValidateCoupon fails now r s).1 = .failure 400 "Coupon usage limit exceeded") ∧
    ((∀ c₁ ∈ s.coupon_codes, ∀ c₂ ∈ s.coupon_codes,
        c₁.TenantID = r.tenantHeader → c₁.CouponCode = req.CouponCode → c₁.IsActive = true →
        c₂.TenantID = r.tenantHeader → c₂.CouponCode = req.CouponCode → c₂.IsActive = true →
        c₁ = c₂) →
      ((ValidateCoupon fails now r s).1.isSuccess = true ↔
        ∃ c ∈ s.coupon_codes, c.TenantID = r.tenantHeader ∧
          c.CouponCode = req.CouponCode ∧ c.IsActive = true ∧
          c.ValidFrom ≤ now ∧ (∀ validTo, c.ValidTo = some validTo → now ≤ validTo) ∧
          (∀ maxUses, c.MaxUses = some maxUses → c.CurrentUses < maxUses))) := by
  have hrun : ValidateCoupon fails now r s =
      match findActiveCoupon s r.tenantHeader req.CouponCode with
      | none => (.failure 404 "Invalid or inactive coupon", s)
      | some coupon =>
        if now < coupon.ValidFrom then (.failure 400 "Coupon is not yet valid", s)
        else if (match coupon.ValidTo with
                 | some validTo => decide (validTo < now)
                 | none => false) then
          (.failure 400 "Coupon has expired", s)
        else if (match coupon.MaxUses with
                 | some maxUses => decide (coupon.CurrentUses ≥ maxUses)
                 | none => false) then
          (.failure 400 "Coupon usage limit exceeded", s)
        else
          (.success 200 { valid := true, coupon_id := coupon.ID,
                          discount_rule_id := coupon.DiscountRuleID,
                          description := coupon.Description }, s) := by
    simp [ValidateCoupon, getTenantID, hten, hbody, hsel]
  have hvalid : ∀ c, findActiveCoupon s r.tenantHeader req.CouponCode = some c →
      c.ValidFrom ≤ now → (∀ validTo, c.ValidTo = some validTo → now ≤ validTo) →
      (∀ maxUses, c.MaxUses = some maxUses → c.CurrentUses < maxUses) →
      (ValidateCoupon fails now r s).1 =
        .success 200 { valid := true, coupon_id := c.ID,
                       discount_rule_id := c.DiscountRuleID,
                       description := c.Description } := by
    intro c hc hfrom hto hmax
    rw [hrun, hc]
    have h1 : ¬ now < c.ValidFrom := Int.not_lt.mpr hfrom
    have h2 : (match c.ValidTo with
               | some validTo => decide (validTo < now)
               | none => false) = false := by
      cases hv : c.ValidTo with
      | none => rfl
      | some v => simpa using hto v hv
    have h3 : (match c.MaxUses with
               | some maxUses => decide (c.CurrentUses ≥ maxUses)
               | none => false) = false := by
      cases hm : c.MaxUses with
      | none => rfl
      | some m => simpa using hmax m hm
    simp [h1, h2, h3]
  have hiff : (ValidateCoupon fails now r s).1.isSuccess = true ↔
      ∃ c, findActiveCoupon s r.tenantHeader req.CouponCode = some c ∧
        c ∈ s.coupon_codes ∧ c.TenantID = r.tenantHeader ∧
        c.CouponCode = req.CouponCode ∧ c.IsActive = true ∧
        c.ValidFrom ≤ now ∧ (∀ validTo, c.ValidTo = some validTo → now ≤ validTo) ∧
        (∀ maxUses, c.MaxUses = some maxUses → c.CurrentUses < maxUses) := by
    constructor
    · intro hsucc
      rw [hrun] at hsucc
      cases hc : findActiveCoupon s r.tenantHeader req.CouponCode with
      | none => rw [hc] at hsucc; cases hsucc
      | some c =>
        rw [hc] at hsucc
        obtain ⟨hmem, ht, hcode, hact⟩ := findActiveCoupon_some s _ _ c hc
        dsimp only at hsucc
        split at hsucc
        · cases hsucc
        · rename_i h1
          split at hsucc
          · cases hsucc
          · rename_i h2
            split at hsucc
            · cases hsucc
            · rename_i h3
              refine ⟨c, rfl, hmem, ht, hcode, hact, Int.not_lt.mp h1, ?_, ?_⟩
              · intro v hv
                rw [hv] at h2
                simpa using h2
              · intro m hm
                rw [hm] at h3
                simpa using h3
    · rintro ⟨c, hc, _, _, _, _, hfrom, hto, hmax⟩
      rw [hvalid c hc hfrom hto hmax]
      rfl
  refine ⟨hiff, hvalid, ?_, ?_, ?_, ?_, ?_⟩
  · intro hnone
    rw [hrun, hnone]
  · intro c hc hlt
    rw [hrun, hc]
    simp [hlt]
  · intro c v hc hfrom hv hlt
    rw [hrun, hc]
    have h1 : ¬ now < c.ValidFrom := Int.not_lt.mpr hfrom
    simp [h1, hv, hlt]
  · intro c m hc hfrom hto hm hle
    rw [hrun, hc]
    have h1 : ¬ now < c.ValidFrom := Int.not_lt.mpr hfrom
    have h2 : (match c.ValidTo with
               | some validTo => decide (validTo < now)
               | none => false) = false := by
      cases hv : c.ValidTo with
      | none => rfl
      | some v => simpa using hto v hv
    simp [h1, h2, hm, hle]
  · intro huniq
    rw [hiff]
    constructor
    · rintro ⟨c, _, hmem, ht, hcode, hact, hfrom, hto, hmax⟩
      exact ⟨c, hmem, ht, hcode, hact, hfrom, hto, hmax⟩
    · rintro ⟨c, hmem, ht, hcode, hact, hfrom, hto, hmax⟩
      have hsome : (findActiveCoupon s r.tenantHeader req.CouponCode).isSome = true := by
        unfold findActiveCoupon
        rw [List.find?_isSome]
        exact ⟨c, hmem, by simp [ht, hcode, hact]⟩
      obtain ⟨c0, hc0⟩ := Option.isSome_iff_exists.1 hsome
      obtain ⟨hmem0, ht0, hcode0, hact0⟩ := findActiveCoupon_some s _ _ c0 hc0
      have heq : c0 = c := huniq c0 hmem0 c hmem ht0 hcode0 hact0 ht hcode hact
      subst heq
      exact ⟨c0, hc0, hmem, ht, hcode, hact, hfrom, hto, hmax⟩

/-- Instance of the amended C25: the coupon `SAVE10`, valid from 100 to 200
and used 2 times of at most 3, is valid at the instants 100 and 200 and
expired at 201. -/
theorem validateCoupon_valid_iff_witness :
    (ValidateCoupon noFault 100 (sampleValidate "SAVE10") sampleCouponStore).1.isSuccess
      = true ∧
    (ValidateCoupon noFault 201 (sampleValidate "SAVE10") sampleCouponStore).1
      = .failure 400 "Coupon has expired" ∧
    ((ValidateCoupon noFault 200 (sampleValidate "SAVE10") sampleCouponStore).1.isSuccess
        = true ↔
      ∃ c, findActiveCoupon sampleCouponStore "t1" "SAVE10" = some c ∧
        c ∈ sampleCouponStore.coupon_codes ∧ c.TenantID = "t1" ∧
        c.CouponCode = "SAVE10" ∧ c.IsActive = true ∧
        c.ValidFrom ≤ 200 ∧ (∀ validTo, c.ValidTo = some validTo → 200 ≤ validTo) ∧
        (∀ maxUses, c.MaxUses = some maxUses → c.CurrentUses < maxUses)) :=
  ⟨by decide, by decide,
    (validateCoupon_valid_iff noFault 200 (sampleValidate "SAVE10") sampleCouponStore
      { CouponCode := "SAVE10", Amount := 8000 } (by decide) rfl rfl).1⟩

/-- C26: `ValidateCoupon` is read-only.  For every request, every store and
whichever database call fails, valid or not, the store afterwards is the
store before; `current_uses` of every coupon and `usage_count` of every
rule are as they were and no `coupon_usage` row is added. -/
theorem validateCoupon_read_only (fails : ValidateCouponStep → Bool) (now : Time)
    (r : Request ValidateCouponRequest) (s : Store) :
    (ValidateCoupon fails now r s).2 = s ∧
    (ValidateCoupon fails now r s).2.coupon_codes.map (·.CurrentUses)
      = s.coupon_codes.map (·.CurrentUses) ∧
    (ValidateCoupon fails now r s).2.discount_rules.map (·.UsageCount)
      = s.discount_rules.map (·.UsageCount) ∧
    (ValidateCoupon fails now r s).2.coupon_usage = s.coupon_usage := by
  have h : (ValidateCoupon fails now r s).2 = s := by
    unfold ValidateCoupon
    repeat' split
    all_goals rfl
  rw [h]
  exact ⟨rfl, rfl, rfl, rfl⟩

/-! ## C28: the amount of a percentage rule -/

/-- C28: the amount of a `percentage` rule on a base amount is
`min (base * value / 100) max_discount_amount`, and `base * value / 100`
without a cap when `max_discount_amount` is absent (amounts in hundredths,
`value` in hundredths of a percent).  For value 10, minimum purchase 50.00
and cart total 80.00 the rule applies and gives 8.00; the same rule with
maximum discount 5.00 gives 5.00. -/
theorem percentageDiscount_is_capped_percentage :
    (∀ (rule : DiscountRule) (base cap : Money), rule.MaxDiscountAmount = some cap →
      percentageDiscount rule base =
        min ((base : ℚ) * (rule.DiscountValue : ℚ) / (100 * 100)) (cap : ℚ)) ∧
    (∀ (rule : DiscountRule) (base : Money), rule.MaxDiscountAmount = none →
      percentageDiscount rule base = (base : ℚ) * (rule.DiscountValue : ℚ) / (100 * 100)) ∧
    meetsMinPurchase (samplePercentageRule none) 8000 = true ∧
    percentageDiscount (samplePercentageRule none) 8000 = 800 ∧
    meetsMinPurchase (samplePercentageRule (some 500)) 8000 = true ∧
    percentageDiscount (samplePercentageRule (some 500)) 8000 = 500 := by
  refine ⟨?_, ?_, by decide, ?_, by decide, ?_⟩
  · intro rule base cap h
    simp [percentageDiscount, h]
  · intro rule base h
    simp [percentageDiscount, h]
  · norm_num [percentageDiscount, samplePercentageRule]
  · norm_num [percentageDiscount, samplePercentageRule]

/-! ## C30: the routes of the plugin -/

/-- A key that ends in a blank and a route name is none of the four keys of
the handler map, which have a slash before the route name. -/
theorem pluginHandlers_trimmed (method route : String)
    (hroute : route = "transactions" ∨ route = "shifts") :
    pluginHandlers (method ++ " " ++ route) = none := by
  unfold pluginHandlers
  rcases hroute with rfl | rfl
  · have h1 : method ++ " " ++ "transactions" ≠ "GET /transactions" := by
      intro heq
      have := congrArg (fun k : String => k.data.reverse[12]?) heq
      simp [String.data_append, List.reverse_append] at this
    have h2 : method ++ " " ++ "transactions" ≠ "POST /transactions" := by
      intro heq
      have := congrArg (fun k : String => k.data.reverse[12]?) heq
      simp [String.data_append, List.reverse_append] at this
    have h3 : method ++ " " ++ "transactions" ≠ "GET /shifts" := by
      intro heq
      have := congrArg (fun k : String => k.data.reverse[1]?) heq
      simp [String.data_append, List.reverse_append] at this
    have h4 : method ++ " " ++ "transactions" ≠ "POST /shifts" := by
      intro heq
      have := congrArg (fun k : String => k.data.reverse[1]?) heq
      simp [String.data_append, List.reverse_append] at this
    rw [if_neg h1, if_neg h2, if_neg h3, if_neg h4]
  · have h1 : method ++ " " ++ "shifts" ≠ "GET /transactions" := by
      intro heq
      have := congrArg (fun k : String => k.data.reverse[1]?) heq
      simp [String.data_append, List.reverse_append] at this
    have h2 : method ++ " " ++ "shifts" ≠ "POST /transactions" := by
      intro heq
      have := congrArg (fun k : String => k.data.reverse[1]?) heq
      simp [String.data_append, List.reverse_append] at this
    have h3 : method ++ " " ++ "shifts" ≠ "GET /shifts" := by
      intro heq
      have := congrArg (fun k : String => k.data.reverse[6]?) heq
      simp [String.data_append, List.reverse_append] at this
    have h4 : method ++ " " ++ "shifts" ≠ "POST /shifts" := by
      intro heq
      have := congrArg (fun k : String => k.data.reverse[6]?) heq
      simp [String.data_append, List.reverse_append] at this
    rw [if_neg h1, if_neg h2, if_neg h3, if_neg h4]

/-- C30 on the code: `GetHandler` strips the leading slash of the route
before it looks the key up in a map whose keys keep the slash.  For the
routes "/transactions" and "/shifts" it returns an error, for GET and POST
and for every other spelling of the method; it returns a handler for the
route "//transactions". -/
theorem getHandler_registered_routes_not_found :
    GetHandler "/transactions" "GET"
      = .error "handler not found for route: GET transactions" ∧
    GetHandler "/transactions" "post"
      = .error "handler not found for route: POST transactions" ∧
    GetHandler "/shifts" "Get" = .error "handler not found for route: GET shifts" ∧
    GetHandler "/shifts" "POST" = .error "handler not found for route: POST shifts" ∧
    (∀ method : String, (GetHandler "/transactions" method).toOption = none ∧
      (GetHandler "/shifts" method).toOption = none) ∧
    GetHandler "//transactions" "get" = .ok PluginHandler.GetTransactions := by
  refine ⟨rfl, rfl, rfl, rfl, ?_, rfl⟩
  intro method
  have ht : trimSlashPrefix "/transactions" = "transactions" := by decide
  have hs : trimSlashPrefix "/shifts" = "shifts" := by decide
  constructor
  · simp only [GetHandler, ht,
      pluginHandlers_trimmed (toUpperASCII method) "transactions" (Or.inl rfl)]
    rfl
  · simp only [GetHandler, hs,
      pluginHandlers_trimmed (toUpperASCII method) "shifts" (Or.inr rfl)]
    rfl

end POS
